import Mathlib

/-!
# Product catalog: create, update, publish

A shallow embedding of the catalog domain logic of the Go server
(`internal/model`, `internal/utils/auth`, `internal/repo`, `internal/service/impl`)
and theorems about it.

Conventions of the embedding

* Go `string` is `String`, Go `int` is `Int`, `time.Time` is a `Nat` timestamp.
* Go `float64` is `Float64` below: finite values are exact rationals, with the three
  non-finite values kept apart, so that comparisons behave as in Go.
* Go `interface{}` values are `Value`; `map[string]interface{}` is `GoMap`.
* Stateful code is explicit state passing over `Store`; fallible code returns an
  `Option Error` (Go `error`, `none` is `nil`) or an `Except Error _`.
* `uuid.New()` and `time.Now()` are inputs of the operations that call them.
-/

set_option autoImplicit false

namespace GnFarm

/-! ## Values -/

/-- Go `float64`: a finite value (kept exactly, as a rational), or one of the
non-finite values. Negative zero is not kept apart from zero. -/
inductive Float64 where
  | num (q : ℚ)
  | posInf
  | negInf
  | nan
  deriving DecidableEq

namespace Float64

/-- Go `a < b` on `float64`: every comparison with NaN is false. -/
def lt : Float64 → Float64 → Bool
  | nan, _ => false
  | _, nan => false
  | num a, num b => decide (a < b)
  | num _, posInf => true
  | num _, negInf => false
  | posInf, _ => false
  | negInf, negInf => false
  | negInf, _ => true

/-- Go `a <= b` on `float64`: every comparison with NaN is false. -/
def le : Float64 → Float64 → Bool
  | nan, _ => false
  | _, nan => false
  | num a, num b => decide (a ≤ b)
  | num _, posInf => true
  | num _, negInf => false
  | posInf, posInf => true
  | posInf, _ => false
  | negInf, _ => true

/-- The `float64` zero value. -/
def zero : Float64 := num 0

end Float64

/-- Go `interface{}`: a value together with its dynamic type. `nil` is the nil
interface; `other` stands for every dynamic type the code never asserts
(decoded JSON arrays and objects, for instance). -/
inductive Value where
  | nil
  | string (s : String)
  | float64 (x : Float64)
  | int (n : Int)
  | uint (n : Nat)
  | bool (b : Bool)
  | strings (xs : List String)
  | time (t : Nat)
  | other
  deriving DecidableEq

/-- Go `map[string]interface{}` as an association list with distinct keys
(`GoMap.set` keeps them distinct); the order of the entries has no meaning. -/
abbrev GoMap := List (String × Value)

namespace GoMap

/-- Go `m[k]` with the comma-ok flag folded into the option. -/
def get (m : GoMap) (k : String) : Option Value :=
  (m.find? (fun e => e.1 == k)).map Prod.snd

/-- Go `m[k] = v`. -/
def set : GoMap → String → Value → GoMap
  | [], k, v => [(k, v)]
  | (k', v') :: m, k, v => if k' = k then (k, v) :: m else (k', v') :: set m k v

/-- Go `len(m)`. -/
def len (m : GoMap) : Nat := m.length

/-- Whether the map has the key `k`. -/
def hasKey (m : GoMap) (k : String) : Bool := (m.get k).isSome

/-- Go `m[k].(float64)`: the value when it is present with dynamic type `float64`. -/
def float64 (m : GoMap) (k : String) : Option Float64 :=
  match m.get k with
  | some (.float64 x) => some x
  | _ => none

/-- Go `m[k].(string)`. -/
def string (m : GoMap) (k : String) : Option String :=
  match m.get k with
  | some (.string x) => some x
  | _ => none

/-- Go `m[k].(int)`. -/
def int (m : GoMap) (k : String) : Option Int :=
  match m.get k with
  | some (.int x) => some x
  | _ => none

end GoMap

/-! ## Errors -/

/-- Go `error` values that the catalog code can return. The first five are the
variables of `internal/service/impl/errors.go`; the next two are the errors made
in `auth.ExtractUserID`; the last three are the failures of the Store
(spec §7: `NotFound`, `ConstraintViolation`, `StoreError`). -/
inductive Error where
  | ErrInvalidInput
  | ErrInvalidProductType
  | ErrUnauthorized
  | ErrNotFound
  | ErrServerError
  | UserIDNotFound
  | UserIDInvalidType
  | NotFound
  | ConstraintViolation
  | StoreError (cause : String)
  deriving DecidableEq

/-- Whether an error is a failure of the Store. -/
def Error.isStore : Error → Bool
  | .NotFound => true
  | .ConstraintViolation => true
  | .StoreError _ => true
  | _ => false

/-! ## Data model (`internal/model/product.go`) -/

structure ProductModel where
  ID : String
  ProductName : String
  ProductPrice : Float64
  ProductDiscountPrice : Float64
  ProductThumb : String
  ProductDescription : String
  ProductQuantity : Int
  ProductType : String
  SubProductType : String
  ProductVideos : List String
  ProductPictures : List String
  ProductStatus : String
  ProductSelled : Int
  ProductShop : String
  IsDraft : Bool
  IsPublished : Bool
  CreatedAt : Nat
  UpdatedAt : Nat
  deriving DecidableEq

structure MushroomModel where
  ID : String
  ProductShop : String
  Weight : Float64
  Origin : String
  Freshness : String
  PackageType : String
  deriving DecidableEq

structure VegetableModel where
  ID : String
  ProductShop : String
  Weight : Float64
  Origin : String
  Freshness : String
  PackageType : String
  deriving DecidableEq

structure BonsaiModel where
  ID : String
  ProductShop : String
  Age : Int
  Height : Int
  Style : String
  Species : String
  PotType : String
  deriving DecidableEq

structure ProductInput where
  ProductName : String
  ProductPrice : Float64
  ProductDiscountPrice : Float64
  ProductThumb : String
  ProductDescription : String
  ProductQuantity : Int
  ProductType : String
  SubProductType : String
  ProductVideos : List String
  ProductPictures : List String
  ProductStatus : String
  ProductAttributes : GoMap
  deriving DecidableEq

structure InventoryInput where
  ProductID : String
  ShopID : String
  Location : String
  Stock : Int
  deriving DecidableEq

structure ProductQueryParams where
  Page : Int
  Limit : Int
  ProductType : String
  Keyword : String
  deriving DecidableEq

structure ProductResponse where
  CurrentPage : Int
  TotalPages : Int
  Total : Int
  Data : List ProductModel
  deriving DecidableEq

/-- Table name of `ProductModel` (`TableName`). -/
def ProductModel.TableName : String := "products"

/-- Table name of `MushroomModel` (`TableName`). -/
def MushroomModel.TableName : String := "mushrooms"

/-- Table name of `VegetableModel` (`TableName`). -/
def VegetableModel.TableName : String := "vegetables"

/-- Table name of `BonsaiModel` (`TableName`). -/
def BonsaiModel.TableName : String := "bonsais"

/-! ## Caller identity (`internal/utils/auth/extract.go`) -/

/-- What `ExtractUserID` can see of a `context.Context`: whether it is a
`*gin.Context`, and the value stored under the key `"user_id"`, if any. -/
structure Context where
  isGin : Bool
  user_id : Option Value

namespace auth

/-- `ExtractUserID`: the caller identity carried by the context. -/
def ExtractUserID (ctx : Context) : Except Error String :=
  if ctx.isGin then
    match ctx.user_id with
    | none => .error .UserIDNotFound
    | some (.string id) => .ok id
    | some (.uint id) => .ok (toString id)
    | some (.int id) => .ok (toString id)
    | some _ => .error .UserIDInvalidType
  else
    match ctx.user_id with
    | some (.string userID) => .ok userID
    | _ => .error .UserIDNotFound

end auth

/-! ## Library functions used by the repository -/

/-- Go `int32(n)` for an `int`: the value modulo `2^32`, in two's complement. -/
def int32 (n : Int) : Int := (n + 2 ^ 31) % 2 ^ 32 - 2 ^ 31

/-- Nearest natural number of a non-negative rational, ties to the even one. -/
def roundHalfEven (r : ℚ) : Nat :=
  let f := ⌊r⌋.toNat
  let d := r - f
  if d < 1 / 2 then f else if 1 / 2 < d then f + 1 else if f % 2 = 0 then f else f + 1

/-- Two decimal digits of a number below one hundred. -/
def twoDigits (n : Nat) : String :=
  if n < 10 then "0" ++ toString n else toString n

/-- Go `fmt.Sprintf("%.2f", x)`: the value rounded to two decimals. -/
def Sprintf2f : Float64 → String
  | .nan => "NaN"
  | .posInf => "+Inf"
  | .negInf => "-Inf"
  | .num q =>
    let h := roundHalfEven (|q| * 100)
    let body := toString (h / 100) ++ "." ++ twoDigits (h % 100)
    if q < 0 then "-" ++ body else body

/-- Value of a string of decimal digits. -/
def digitsValue (cs : List Char) : Nat :=
  cs.foldl (fun n c => 10 * n + (c.toNat - 48)) 0

/-- Go `strconv.ParseFloat(s, 64)` on plain decimal texts (optional sign, digits,
optional fraction), which is what a DECIMAL column returns; `none` is the syntax
error. Exponents, hexadecimal floats and the texts of the non-finite values are
not covered, and the result is the exact decimal value, not its nearest
`float64`. -/
def ParseFloat (s : String) : Option Float64 :=
  let cs := s.data
  let signed : Bool × List Char :=
    match cs with
    | '-' :: r => (true, r)
    | '+' :: r => (false, r)
    | r => (false, r)
  let ip := signed.2.takeWhile Char.isDigit
  let fp : Option (List Char) :=
    match signed.2.dropWhile Char.isDigit with
    | [] => some []
    | '.' :: r => if r.all Char.isDigit then some r else none
    | _ => none
  match fp with
  | none => none
  | some fp =>
    if ip.isEmpty && fp.isEmpty then none
    else
      let q : ℚ := (digitsValue ip : ℚ) + (digitsValue fp : ℚ) / (10 : ℚ) ^ fp.length
      some (.num (if signed.1 then -q else q))

/-- The value of a 64-bit computation on Go `int`: the result modulo `2^64`, in
two's complement. -/
def int64 (n : Int) : Int := (n + 2 ^ 63) % 2 ^ 64 - 2 ^ 63

namespace Float64

/-- The `float64` nearest to a rational (IEEE 754 binary64, round to nearest,
ties to even): 53 significant bits in the binade of the value, the binade
clamped below at `2^-1022` (subnormal values), and an infinity when the rounded
value reaches `2^1024`. -/
def round (x : ℚ) : Float64 :=
  if x = 0 then num 0
  else
    let e : Int := max (Int.log 2 |x|) (-1022)
    let m : Nat := roundHalfEven (|x| * (2 : ℚ) ^ (52 - e))
    let r : ℚ := (m : ℚ) * (2 : ℚ) ^ (e - 52)
    if (2 : ℚ) ^ (1024 : Int) ≤ r then (if x < 0 then negInf else posInf)
    else num (if x < 0 then -r else r)

/-- Go `float64(n)` for an integer `n`. -/
def ofInt (n : Int) : Float64 := round (n : ℚ)

/-- Go `a / b` on `float64`. The zero of the embedding is the positive zero. -/
def div : Float64 → Float64 → Float64
  | nan, _ => nan
  | _, nan => nan
  | num a, num b =>
    if b = 0 then (if a = 0 then nan else if 0 < a then posInf else negInf)
    else round (a / b)
  | num _, posInf => num 0
  | num _, negInf => num 0
  | posInf, num b => if 0 ≤ b then posInf else negInf
  | negInf, num b => if 0 ≤ b then negInf else posInf
  | posInf, posInf => nan
  | posInf, negInf => nan
  | negInf, posInf => nan
  | negInf, negInf => nan

/-- Go `math.Ceil`. -/
def Ceil : Float64 → Float64
  | num q => num (⌈q⌉ : Int)
  | x => x

/-- Go `int(x)` for a `float64`: the value truncated toward zero. For a value
outside the range of `int`, and for an infinity or NaN, the result is the one
of the amd64 conversion instruction, the least `int`. -/
def toInt : Float64 → Int
  | num q =>
    let t : Int := if 0 ≤ q then ⌊q⌋ else ⌈q⌉
    if -(2 ^ 63) ≤ t ∧ t < 2 ^ 63 then t else -(2 ^ 63)
  | _ => -(2 ^ 63)

end Float64

/-! ## Rows of the generated query layer (`internal/database`) -/

/-- Go `sql.NullString`. -/
structure NullString where
  String : String
  Valid : Bool
  deriving DecidableEq

/-- Go `sql.NullInt32`. -/
structure NullInt32 where
  Int32 : Int
  Valid : Bool
  deriving DecidableEq

/-- Go `sql.NullTime`. -/
structure NullTime where
  Time : Nat
  Valid : Bool
  deriving DecidableEq

/-- What a nullable text column keeps of a parameter: NULL reads back as the
zero value. -/
def NullString.column (n : NullString) : NullString :=
  if n.Valid then n else { String := "", Valid := false }

/-- What a nullable integer column keeps of a parameter. -/
def NullInt32.column (n : NullInt32) : NullInt32 :=
  if n.Valid then n else { Int32 := 0, Valid := false }

/-- Go `json.RawMessage` holding the JSON text of a string array, represented by
the array it encodes; `none` is the nil message (length zero). -/
abbrev RawMessage := Option (List String)

namespace database

structure CreateProductParams where
  ID : String
  ProductName : String
  ProductPrice : String
  ProductDiscountedPrice : NullString
  ProductThumb : NullString
  ProductDescription : NullString
  ProductQuantity : Int
  ProductType : String
  SubProductType : NullString
  ProductVideos : RawMessage
  ProductPictures : RawMessage
  ProductStatus : String
  ProductShop : String
  IsDraft : Bool
  IsPublished : Bool
  deriving DecidableEq

/-- A row of table `products`, with the fields the repository reads from it. -/
structure Product where
  ID : String
  ProductName : String
  ProductPrice : String
  ProductDiscountedPrice : NullString
  ProductThumb : NullString
  ProductDescription : NullString
  ProductQuantity : Int
  ProductType : String
  SubProductType : NullString
  ProductVideos : RawMessage
  ProductPictures : RawMessage
  ProductStatus : String
  ProductSelled : Int
  ProductShop : String
  IsDraft : Bool
  IsPublished : Bool
  CreatedAt : NullTime
  UpdatedAt : NullTime
  deriving DecidableEq

/-- Parameters of `CreateMushroom`, and a row of table `mushrooms`. -/
structure CreateMushroomParams where
  ID : String
  ProductShop : String
  Weight : NullString
  Origin : NullString
  Freshness : NullString
  PackageType : NullString
  deriving DecidableEq

/-- Parameters of `CreateVegetable`, and a row of table `vegetables`. -/
structure CreateVegetableParams where
  ID : String
  ProductShop : String
  Weight : NullString
  Origin : NullString
  Freshness : NullString
  PackageType : NullString
  deriving DecidableEq

/-- Parameters of `CreateBonsai`, and a row of table `bonsais`. -/
structure CreateBonsaiParams where
  ID : String
  ProductShop : String
  Age : NullInt32
  Height : NullInt32
  Style : NullString
  Species : NullString
  PotType : NullString
  deriving DecidableEq

/-- Parameters of `CreateInventory`, and a row of the inventory table. -/
structure CreateInventoryParams where
  ProductID : String
  ShopID : String
  Location : NullString
  Stock : Int
  deriving DecidableEq

structure PublishProductParams where
  ID : String
  ProductShop : String
  deriving DecidableEq

structure UnpublishProductParams where
  ID : String
  ProductShop : String
  deriving DecidableEq

/-- Go `sql.Result`, reduced to the number of rows the statement affected. -/
structure Result where
  RowsAffected : Nat
  deriving DecidableEq

structure ListDraftProductsParams where
  ProductShop : String
  Limit : Int
  Offset : Int
  deriving DecidableEq

structure ListPublishedProductsParams where
  ProductShop : String
  Limit : Int
  Offset : Int
  deriving DecidableEq

structure ListProductsByTypeParams where
  ProductType : String
  Limit : Int
  Offset : Int
  deriving DecidableEq

structure SearchProductsByNameParams where
  ProductName : String
  Limit : Int
  Offset : Int
  deriving DecidableEq

structure ListAllPublishedProductsParams where
  Limit : Int
  Offset : Int
  deriving DecidableEq

structure ListProductsByDiscountParams where
  Limit : Int
  Offset : Int
  deriving DecidableEq

structure ListProductsBySelledParams where
  Limit : Int
  Offset : Int
  deriving DecidableEq

end database

/-- A listing or counting query sent to the generated query layer, with its
parameters (`Limit` and `Offset` are `int32` values). -/
inductive Query where
  | ListDraftProducts (arg : database.ListDraftProductsParams)
  | ListPublishedProducts (arg : database.ListPublishedProductsParams)
  | CountProductsByType (productType : String)
  | ListProductsByType (arg : database.ListProductsByTypeParams)
  | CountSearchProductsByName (productName : String)
  | SearchProductsByName (arg : database.SearchProductsByNameParams)
  | CountAllPublishedProducts
  | ListAllPublishedProducts (arg : database.ListAllPublishedProductsParams)
  | ListProductsByDiscount (arg : database.ListProductsByDiscountParams)
  | ListProductsBySelled (arg : database.ListProductsBySelledParams)
  deriving DecidableEq

/-- The `Limit` and the `Offset` of a list query. -/
def Query.page : Query → Option (Int × Int)
  | .ListDraftProducts arg => some (arg.Limit, arg.Offset)
  | .ListPublishedProducts arg => some (arg.Limit, arg.Offset)
  | .ListProductsByType arg => some (arg.Limit, arg.Offset)
  | .SearchProductsByName arg => some (arg.Limit, arg.Offset)
  | .ListAllPublishedProducts arg => some (arg.Limit, arg.Offset)
  | .ListProductsByDiscount arg => some (arg.Limit, arg.Offset)
  | .ListProductsBySelled arg => some (arg.Limit, arg.Offset)
  | _ => none

/-! ## The Store -/

/-- A call on the repository interface `IProductRepository`, with its arguments. -/
inductive Call where
  | CreateProduct (product : ProductModel)
  | CreateMushroom (mushroom : MushroomModel)
  | CreateVegetable (vegetable : VegetableModel)
  | CreateBonsai (bonsai : BonsaiModel)
  | InsertInventory (inventory : InventoryInput)
  | FindProduct (productID : String)
  | UpdateProductByID (productID : String) (updateData : GoMap)
  | PublishProductByShop (productID : String) (shopID : String)
  | UnPublishProductByShop (productID : String) (shopID : String)
  | FindAllDraftsForShop (shopID : String) (limit : Int) (offset : Int)
  | FindAllPublishForShop (shopID : String) (limit : Int) (offset : Int)
  | FindAllProducts (params : ProductQueryParams)
  | FindProductsByDiscount (params : ProductQueryParams)
  | FindProductsBySelled (params : ProductQueryParams)
  | SearchProducts (keyword : String)
  deriving DecidableEq

/-- The kind and the identifier of the record of a variant write. -/
def Call.variant : Call → Option (String × String)
  | .CreateMushroom mushroom => some ("Mushroom", mushroom.ID)
  | .CreateVegetable vegetable => some ("Vegetable", vegetable.ID)
  | .CreateBonsai bonsai => some ("Bonsai", bonsai.ID)
  | _ => none

/-- Whether a repository call is a write. -/
def Call.isWrite : Call → Bool
  | .FindProduct _ => false
  | .FindAllDraftsForShop _ _ _ => false
  | .FindAllPublishForShop _ _ _ => false
  | .FindAllProducts _ => false
  | .FindProductsByDiscount _ => false
  | .FindProductsBySelled _ => false
  | .SearchProducts _ => false
  | _ => true

/-- The state behind the repository: the five tables, the calls received so far
(oldest first), and the storage failures of the environment: `fault n` is the
cause, if any, for which the statement of call number `n` (counted from zero)
fails with a `StoreError`. The listing and counting queries are kept in a log
of their own, `queries`, with their own failures: `readFault n` is the cause,
if any, for which query number `n` fails. -/
structure Store where
  products : List database.Product
  mushrooms : List database.CreateMushroomParams
  vegetables : List database.CreateVegetableParams
  bonsais : List database.CreateBonsaiParams
  inventories : List database.CreateInventoryParams
  log : List Call
  fault : Nat → Option String
  queries : List Query := []
  readFault : Nat → Option String := fun _ => none

namespace Store

/-- The storage failure waiting for the next statement, if any. -/
def failure (s : Store) : Option Error := (s.fault s.log.length).map Error.StoreError

/-- Append a call to the log. -/
def record (s : Store) (c : Call) : Store := { s with log := s.log ++ [c] }

/-- Append a query to the log of queries. -/
def ask (s : Store) (q : Query) : Store := { s with queries := s.queries ++ [q] }

/-- The write calls in the log. -/
def writes (s : Store) : List Call := s.log.filter Call.isWrite

/-- The identifiers of the variant side rows of one kind. -/
def variantIDs (s : Store) (kind : String) : List String :=
  if kind = "Mushroom" then s.mushrooms.map (fun r => r.ID)
  else if kind = "Vegetable" then s.vegetables.map (fun r => r.ID)
  else if kind = "Bonsai" then s.bonsais.map (fun r => r.ID)
  else []

end Store

namespace database

/-- The row that an insert with these parameters leaves in table `products`:
columns that are not parameters start at their zero value or NULL. -/
def CreateProductParams.row (arg : CreateProductParams) : Product :=
  { ID := arg.ID
    ProductName := arg.ProductName
    ProductPrice := arg.ProductPrice
    ProductDiscountedPrice := arg.ProductDiscountedPrice.column
    ProductThumb := arg.ProductThumb.column
    ProductDescription := arg.ProductDescription.column
    ProductQuantity := arg.ProductQuantity
    ProductType := arg.ProductType
    SubProductType := arg.SubProductType.column
    ProductVideos := arg.ProductVideos
    ProductPictures := arg.ProductPictures
    ProductStatus := arg.ProductStatus
    ProductSelled := 0
    ProductShop := arg.ProductShop
    IsDraft := arg.IsDraft
    IsPublished := arg.IsPublished
    CreatedAt := { Time := 0, Valid := false }
    UpdatedAt := { Time := 0, Valid := false } }

/-- The row that an insert with these parameters leaves in table `mushrooms`. -/
def CreateMushroomParams.row (arg : CreateMushroomParams) : CreateMushroomParams :=
  { arg with
    Weight := arg.Weight.column
    Origin := arg.Origin.column
    Freshness := arg.Freshness.column
    PackageType := arg.PackageType.column }

/-- The row that an insert with these parameters leaves in table `vegetables`. -/
def CreateVegetableParams.row (arg : CreateVegetableParams) : CreateVegetableParams :=
  { arg with
    Weight := arg.Weight.column
    Origin := arg.Origin.column
    Freshness := arg.Freshness.column
    PackageType := arg.PackageType.column }

/-- The row that an insert with these parameters leaves in table `bonsais`. -/
def CreateBonsaiParams.row (arg : CreateBonsaiParams) : CreateBonsaiParams :=
  { arg with
    Age := arg.Age.column
    Height := arg.Height.column
    Style := arg.Style.column
    Species := arg.Species.column
    PotType := arg.PotType.column }

/-- The row that an insert with these parameters leaves in the inventory table. -/
def CreateInventoryParams.row (arg : CreateInventoryParams) : CreateInventoryParams :=
  { arg with Location := arg.Location.column }

/-- Modelled from the spec: query `CreateProduct` of the generated query layer,
which is not among the sources. Spec §4.2: inserts a new Product row; fails with
`ConstraintViolation` if the identifier already exists. -/
def CreateProduct (arg : CreateProductParams) (s : Store) : Except Error Result × Store :=
  match s.failure with
  | some e => (.error e, s)
  | none =>
    if s.products.any (fun r => r.ID == arg.ID) then (.error .ConstraintViolation, s)
    else (.ok { RowsAffected := 1 }, { s with products := s.products ++ [arg.row] })

/-- Modelled from the spec: query `CreateMushroom` of the generated query layer.
Spec §4.2 `CreateVariant`: inserts the type-specific side row for the given
identifier. -/
def CreateMushroom (arg : CreateMushroomParams) (s : Store) : Except Error Result × Store :=
  match s.failure with
  | some e => (.error e, s)
  | none => (.ok { RowsAffected := 1 }, { s with mushrooms := s.mushrooms ++ [arg.row] })

/-- Modelled from the spec: query `CreateVegetable` of the generated query layer
(spec §4.2 `CreateVariant`). -/
def CreateVegetable (arg : CreateVegetableParams) (s : Store) : Except Error Result × Store :=
  match s.failure with
  | some e => (.error e, s)
  | none => (.ok { RowsAffected := 1 }, { s with vegetables := s.vegetables ++ [arg.row] })

/-- Modelled from the spec: query `CreateBonsai` of the generated query layer
(spec §4.2 `CreateVariant`). -/
def CreateBonsai (arg : CreateBonsaiParams) (s : Store) : Except Error Result × Store :=
  match s.failure with
  | some e => (.error e, s)
  | none => (.ok { RowsAffected := 1 }, { s with bonsais := s.bonsais ++ [arg.row] })

/-- Modelled from the spec: query `CreateInventory` of the generated query layer.
Spec §4.2: inserts the stock row for (product, shop). -/
def CreateInventory (arg : CreateInventoryParams) (s : Store) : Except Error Result × Store :=
  match s.failure with
  | some e => (.error e, s)
  | none => (.ok { RowsAffected := 1 }, { s with inventories := s.inventories ++ [arg.row] })

/-- Modelled from the spec: query `GetProductByID` of the generated query layer.
Spec §4.2 `GetProduct(id)`: fails with `NotFound` if absent. -/
def GetProductByID (id : String) (s : Store) : Except Error Product × Store :=
  match s.failure with
  | some e => (.error e, s)
  | none =>
    match s.products.find? (fun r => r.ID == id) with
    | some row => (.ok row, s)
    | none => (.error .NotFound, s)

/-- Modelled from the spec: query `PublishProduct` of the generated query layer.
Spec §4.2: flips the draft/published flags, scoped to rows matching both
identifier and owning shop; if the shop does not own the product, zero rows are
affected. Spec §8: a product with `published=true` has `draft=false`. -/
def PublishProduct (arg : PublishProductParams) (s : Store) : Except Error Result × Store :=
  match s.failure with
  | some e => (.error e, s)
  | none =>
    let hit : Product → Bool := fun r => r.ID == arg.ID && r.ProductShop == arg.ProductShop
    (.ok { RowsAffected := s.products.countP hit },
     { s with
       products := s.products.map
         (fun r => if hit r then { r with IsDraft := false, IsPublished := true } else r) })

/-- Modelled from the spec: query `UnpublishProduct` of the generated query
layer. Spec §4.2 as for `PublishProduct`; spec §4.3: Unpublished is represented
as `draft=true` again. -/
def UnpublishProduct (arg : UnpublishProductParams) (s : Store) : Except Error Result × Store :=
  match s.failure with
  | some e => (.error e, s)
  | none =>
    let hit : Product → Bool := fun r => r.ID == arg.ID && r.ProductShop == arg.ProductShop
    (.ok { RowsAffected := s.products.countP hit },
     { s with
       products := s.products.map
         (fun r => if hit r then { r with IsDraft := true, IsPublished := false } else r) })

/-! ### Listing and counting queries -/

/-- Case folding of the collation of column `product_name`, reduced to the
ASCII letters. -/
def caseFold (c : Char) : Char := c.toLower

/-- An element of a `LIKE` pattern: `%`, `_`, or a character to be matched. -/
inductive LikeToken where
  | any
  | one
  | lit (c : Char)
  deriving DecidableEq

/-- The elements of a `LIKE` pattern, with the backslash as escape character:
the character after a backslash is matched as it is, and a backslash at the end
of the pattern is matched as a backslash. -/
def likeTokens : List Char → List LikeToken
  | [] => []
  | c :: cs =>
    if c = '%' then .any :: likeTokens cs
    else if c = '_' then .one :: likeTokens cs
    else if c = '\\' then
      match cs with
      | [] => [.lit c]
      | x :: xs => .lit x :: likeTokens xs
    else .lit c :: likeTokens cs

/-- Whether a text matches a tokenised `LIKE` pattern: `%` stands for any
sequence of characters, `_` for any one character, and a character for itself
up to case. -/
def likeMatch : List LikeToken → List Char → Bool
  | [], text => text.isEmpty
  | .any :: ts, text => text.tails.any (fun u => likeMatch ts u)
  | .one :: ts, text =>
    match text with
    | [] => false
    | _ :: cs => likeMatch ts cs
  | .lit c :: ts, text =>
    match text with
    | [] => false
    | d :: cs => caseFold c == caseFold d && likeMatch ts cs

/-- The SQL predicate `text LIKE pattern`. -/
def like (pattern text : String) : Bool := likeMatch (likeTokens pattern.data) text.data

/-- The SQL clause `LIMIT limit OFFSET offset` on the rows of a query; the
statement is rejected when one of the two is negative. -/
def page (limit offset : Int) (rows : List Product) : Except Error (List Product) :=
  if limit < 0 ∨ offset < 0 then .error (.StoreError "negative LIMIT or OFFSET")
  else .ok ((rows.drop offset.toNat).take limit.toNat)

/-- The sort key of column `created_at`; NULL sorts below every time. -/
def createdKey (r : Product) : Nat := if r.CreatedAt.Valid then r.CreatedAt.Time + 1 else 0

/-- The value of a DECIMAL column text. -/
def decimalValue (text : String) : ℚ :=
  match ParseFloat text with
  | some (.num q) => q
  | _ => 0

/-- The sort key of column `product_discounted_price`; NULL sorts below every
value. -/
def discountKey (r : Product) : WithBot ℚ :=
  if r.ProductDiscountedPrice.Valid then
    ((decimalValue r.ProductDiscountedPrice.String : ℚ) : WithBot ℚ)
  else ⊥

/-- One listing or counting query: it is added to the log of queries, and it
returns its answer unless the environment makes it fail. -/
def query {α : Type} (q : Query) (answer : Except Error α) (s : Store) : Except Error α × Store :=
  match s.readFault s.queries.length with
  | some cause => (.error (.StoreError cause), s.ask q)
  | none => (answer, s.ask q)

/-- Modelled from the spec: query `ListDraftProducts` of the generated query
layer. Spec §4.2 `ListDrafts(shopID, limit, offset)`: returns Products filtered
by owner and status, ordered by creation time descending. -/
def ListDraftProducts (arg : ListDraftProductsParams) (s : Store) :
    Except Error (List Product) × Store :=
  query (.ListDraftProducts arg)
    (page arg.Limit arg.Offset
      ((s.products.filter (fun r => r.ProductShop == arg.ProductShop && r.IsDraft)).insertionSort
        (fun a b => createdKey b ≤ createdKey a))) s

/-- Modelled from the spec: query `ListPublishedProducts` of the generated query
layer. Spec §4.2 `ListPublished(shopID, limit, offset)`: returns Products
filtered by owner and status, ordered by creation time descending. -/
def ListPublishedProducts (arg : ListPublishedProductsParams) (s : Store) :
    Except Error (List Product) × Store :=
  query (.ListPublishedProducts arg)
    (page arg.Limit arg.Offset
      ((s.products.filter
        (fun r => r.ProductShop == arg.ProductShop && r.IsPublished)).insertionSort
        (fun a b => createdKey b ≤ createdKey a))) s

/-- Modelled from the spec: query `CountProductsByType` of the generated query
layer. Spec §4.2 `ListAll`, filter by product-type: the total matching count. -/
def CountProductsByType (productType : String) (s : Store) : Except Error Int × Store :=
  query (.CountProductsByType productType)
    (.ok ((s.products.filter (fun r => r.ProductType == productType)).length : Int)) s

/-- Modelled from the spec: query `ListProductsByType` of the generated query
layer. Spec §4.2 `ListAll`, filter by product-type: the matching Products. -/
def ListProductsByType (arg : ListProductsByTypeParams) (s : Store) :
    Except Error (List Product) × Store :=
  query (.ListProductsByType arg)
    (page arg.Limit arg.Offset (s.products.filter (fun r => r.ProductType == arg.ProductType))) s

/-- Modelled from the spec: query `CountSearchProductsByName` of the generated
query layer. Spec §4.2 `ListAll`, filter by keyword match on name, and §4.4: the
match is a `LIKE` of the product name only against the pattern. -/
def CountSearchProductsByName (productName : String) (s : Store) : Except Error Int × Store :=
  query (.CountSearchProductsByName productName)
    (.ok ((s.products.filter (fun r => like productName r.ProductName)).length : Int)) s

/-- Modelled from the spec: query `SearchProductsByName` of the generated query
layer. Spec §4.2 `SearchByKeyword` and §4.4: the Products whose name matches
the pattern, case-insensitively; nothing but the name is matched. -/
def SearchProductsByName (arg : SearchProductsByNameParams) (s : Store) :
    Except Error (List Product) × Store :=
  query (.SearchProductsByName arg)
    (page arg.Limit arg.Offset (s.products.filter (fun r => like arg.ProductName r.ProductName))) s

/-- Modelled from the spec: query `CountAllPublishedProducts` of the generated
query layer. Spec §4.2 `ListAll`, unfiltered-published-only: the total count. -/
def CountAllPublishedProducts (s : Store) : Except Error Int × Store :=
  query .CountAllPublishedProducts
    (.ok ((s.products.filter (fun r => r.IsPublished)).length : Int)) s

/-- Modelled from the spec: query `ListAllPublishedProducts` of the generated
query layer. Spec §4.2 `ListAll`, unfiltered-published-only. -/
def ListAllPublishedProducts (arg : ListAllPublishedProductsParams) (s : Store) :
    Except Error (List Product) × Store :=
  query (.ListAllPublishedProducts arg)
    (page arg.Limit arg.Offset (s.products.filter (fun r => r.IsPublished))) s

/-- Modelled from the spec: query `ListProductsByDiscount` of the generated query
layer. Spec §4.2 `ListByDiscount(limit, offset)`: returns published Products
ordered by discount-price descending. -/
def ListProductsByDiscount (arg : ListProductsByDiscountParams) (s : Store) :
    Except Error (List Product) × Store :=
  query (.ListProductsByDiscount arg)
    (page arg.Limit arg.Offset
      ((s.products.filter (fun r => r.IsPublished)).insertionSort
        (fun a b => discountKey b ≤ discountKey a))) s

/-- Modelled from the spec: query `ListProductsBySelled` of the generated query
layer. Spec §4.2 `ListBySelled(limit, offset)`: returns published Products
ordered by units-sold descending. -/
def ListProductsBySelled (arg : ListProductsBySelledParams) (s : Store) :
    Except Error (List Product) × Store :=
  query (.ListProductsBySelled arg)
    (page arg.Limit arg.Offset
      ((s.products.filter (fun r => r.IsPublished)).insertionSort
        (fun a b => b.ProductSelled ≤ a.ProductSelled))) s

end database

/-! ## Partial updates through the ORM -/

namespace gorm

/-- The assignment `column = value` on a row of table `products`, when the table
has the column (spec §3, fields of Product) and the value has its type. -/
def productColumn : String → Value → Option (database.Product → database.Product)
  | "id", .string x => some (fun r => { r with ID := x })
  | "product_name", .string x => some (fun r => { r with ProductName := x })
  | "product_price", .float64 x => some (fun r => { r with ProductPrice := Sprintf2f x })
  | "product_discounted_price", .float64 x =>
    some (fun r => { r with ProductDiscountedPrice := { String := Sprintf2f x, Valid := true } })
  | "product_thumb", .string x =>
    some (fun r => { r with ProductThumb := { String := x, Valid := true } })
  | "product_description", .string x =>
    some (fun r => { r with ProductDescription := { String := x, Valid := true } })
  | "product_quantity", .int n =>
    if int32 n = n then some (fun r => { r with ProductQuantity := n }) else none
  | "product_type", .string x => some (fun r => { r with ProductType := x })
  | "sub_product_type", .string x =>
    some (fun r => { r with SubProductType := { String := x, Valid := true } })
  | "product_videos", .strings xs => some (fun r => { r with ProductVideos := some xs })
  | "product_pictures", .strings xs => some (fun r => { r with ProductPictures := some xs })
  | "product_status", .string x => some (fun r => { r with ProductStatus := x })
  | "product_selled", .int n =>
    if int32 n = n then some (fun r => { r with ProductSelled := n }) else none
  | "product_shop", .string x => some (fun r => { r with ProductShop := x })
  | "is_draft", .bool b => some (fun r => { r with IsDraft := b })
  | "is_published", .bool b => some (fun r => { r with IsPublished := b })
  | "created_at", .time t => some (fun r => { r with CreatedAt := { Time := t, Valid := true } })
  | "updated_at", .time t => some (fun r => { r with UpdatedAt := { Time := t, Valid := true } })
  | _, _ => none

/-- The assignment `column = value` on a row of table `mushrooms`. -/
def mushroomColumn :
    String → Value → Option (database.CreateMushroomParams → database.CreateMushroomParams)
  | "id", .string x => some (fun r => { r with ID := x })
  | "product_shop", .string x => some (fun r => { r with ProductShop := x })
  | "weight", .float64 x => some (fun r => { r with Weight := { String := Sprintf2f x, Valid := true } })
  | "origin", .string x => some (fun r => { r with Origin := { String := x, Valid := true } })
  | "freshness", .string x => some (fun r => { r with Freshness := { String := x, Valid := true } })
  | "package_type", .string x =>
    some (fun r => { r with PackageType := { String := x, Valid := true } })
  | _, _ => none

/-- The assignment `column = value` on a row of table `vegetables`. -/
def vegetableColumn :
    String → Value → Option (database.CreateVegetableParams → database.CreateVegetableParams)
  | "id", .string x => some (fun r => { r with ID := x })
  | "product_shop", .string x => some (fun r => { r with ProductShop := x })
  | "weight", .float64 x => some (fun r => { r with Weight := { String := Sprintf2f x, Valid := true } })
  | "origin", .string x => some (fun r => { r with Origin := { String := x, Valid := true } })
  | "freshness", .string x => some (fun r => { r with Freshness := { String := x, Valid := true } })
  | "package_type", .string x =>
    some (fun r => { r with PackageType := { String := x, Valid := true } })
  | _, _ => none

/-- The assignment `column = value` on a row of table `bonsais`. -/
def bonsaiColumn :
    String → Value → Option (database.CreateBonsaiParams → database.CreateBonsaiParams)
  | "id", .string x => some (fun r => { r with ID := x })
  | "product_shop", .string x => some (fun r => { r with ProductShop := x })
  | "age", .int n =>
    if int32 n = n then some (fun r => { r with Age := { Int32 := n, Valid := true } }) else none
  | "height", .int n =>
    if int32 n = n then some (fun r => { r with Height := { Int32 := n, Valid := true } }) else none
  | "style", .string x => some (fun r => { r with Style := { String := x, Valid := true } })
  | "species", .string x => some (fun r => { r with Species := { String := x, Valid := true } })
  | "pot_type", .string x => some (fun r => { r with PotType := { String := x, Valid := true } })
  | _, _ => none

/-- The assignments of a whole patch, or the error of the first entry that the
table cannot take (no such column, or a value that does not fit it). -/
def assignments {ρ : Type} (column : String → Value → Option (ρ → ρ)) :
    GoMap → Except Error (List (ρ → ρ))
  | [] => .ok []
  | (k, v) :: m =>
    match column k v with
    | none => .error (.StoreError ("cannot assign column " ++ k))
    | some f =>
      match assignments column m with
      | .error e => .error e
      | .ok fs => .ok (f :: fs)

/-- Apply the assignments to the rows selected by `hit`. -/
def patch {ρ : Type} (hit : ρ → Bool) (fs : List (ρ → ρ)) (rows : List ρ) : List ρ :=
  rows.map (fun r => if hit r then fs.foldl (fun r f => f r) r else r)

/-- The statement `db.Model(m).Where("id = ?", id).Updates(values)` against MySQL,
where `table` is `m.TableName()`: one UPDATE of that table, which sets the
columns named by the keys of `values` on every row with that identifier. The
statement fails as a whole when the table cannot take one of the assignments,
and it is not an error for it to match no row. The ORM's own refresh of
`updated_at` is not modelled. -/
def Updates (table : String) (id : String) (values : GoMap) (s : Store) : Option Error × Store :=
  match s.failure with
  | some e => (some e, s)
  | none =>
    if table = "products" then
      match assignments productColumn values with
      | .error e => (some e, s)
      | .ok fs => (none, { s with products := patch (fun r => r.ID == id) fs s.products })
    else if table = "mushrooms" then
      match assignments mushroomColumn values with
      | .error e => (some e, s)
      | .ok fs => (none, { s with mushrooms := patch (fun r => r.ID == id) fs s.mushrooms })
    else if table = "vegetables" then
      match assignments vegetableColumn values with
      | .error e => (some e, s)
      | .ok fs => (none, { s with vegetables := patch (fun r => r.ID == id) fs s.vegetables })
    else if table = "bonsais" then
      match assignments bonsaiColumn values with
      | .error e => (some e, s)
      | .ok fs => (none, { s with bonsais := patch (fun r => r.ID == id) fs s.bonsais })
    else (some (.StoreError ("no such table " ++ table)), s)

end gorm

/-! ## The repository (`internal/repo/product.repo.go`) -/

/-- The `error` of a two-valued Go result. -/
def errOf {α : Type} : Except Error α → Option Error
  | .ok _ => none
  | .error e => some e

namespace productRepository

/-- The `database.CreateProductParams` built by `CreateProduct`. -/
def productParams (product : ProductModel) : database.CreateProductParams :=
  let videoJSON : RawMessage :=
    if product.ProductVideos.length > 0 then some product.ProductVideos else none
  let pictureJSON : RawMessage :=
    if product.ProductPictures.length > 0 then some product.ProductPictures else none
  let discountPrice : NullString :=
    if Float64.lt Float64.zero product.ProductDiscountPrice then
      { String := Sprintf2f product.ProductDiscountPrice, Valid := true }
    else { String := "", Valid := false }
  { ID := product.ID
    ProductName := product.ProductName
    ProductPrice := Sprintf2f product.ProductPrice
    ProductDiscountedPrice := discountPrice
    ProductThumb := { String := product.ProductThumb, Valid := product.ProductThumb != "" }
    ProductDescription :=
      { String := product.ProductDescription, Valid := product.ProductDescription != "" }
    ProductQuantity := int32 product.ProductQuantity
    ProductType := product.ProductType
    SubProductType := { String := product.SubProductType, Valid := product.SubProductType != "" }
    ProductVideos := videoJSON
    ProductPictures := pictureJSON
    ProductStatus := product.ProductStatus
    ProductShop := product.ProductShop
    IsDraft := product.IsDraft
    IsPublished := product.IsPublished }

/-- `CreateProduct`: insert the product row. -/
def CreateProduct (product : ProductModel) (s : Store) : Option Error × Store :=
  let r := database.CreateProduct (productParams product) s
  (errOf r.1, r.2.record (.CreateProduct product))

/-- The `database.CreateMushroomParams` built by `CreateMushroom`. -/
def mushroomParams (mushroom : MushroomModel) : database.CreateMushroomParams :=
  { ID := mushroom.ID
    ProductShop := mushroom.ProductShop
    Weight :=
      { String := Sprintf2f mushroom.Weight, Valid := Float64.lt Float64.zero mushroom.Weight }
    Origin := { String := mushroom.Origin, Valid := mushroom.Origin != "" }
    Freshness := { String := mushroom.Freshness, Valid := mushroom.Freshness != "" }
    PackageType := { String := mushroom.PackageType, Valid := mushroom.PackageType != "" } }

/-- `CreateMushroom`: insert the mushroom side row. -/
def CreateMushroom (mushroom : MushroomModel) (s : Store) : Option Error × Store :=
  let r := database.CreateMushroom (mushroomParams mushroom) s
  (errOf r.1, r.2.record (.CreateMushroom mushroom))

/-- The `database.CreateVegetableParams` built by `CreateVegetable`. -/
def vegetableParams (vegetable : VegetableModel) : database.CreateVegetableParams :=
  { ID := vegetable.ID
    ProductShop := vegetable.ProductShop
    Weight :=
      { String := Sprintf2f vegetable.Weight, Valid := Float64.lt Float64.zero vegetable.Weight }
    Origin := { String := vegetable.Origin, Valid := vegetable.Origin != "" }
    Freshness := { String := vegetable.Freshness, Valid := vegetable.Freshness != "" }
    PackageType := { String := vegetable.PackageType, Valid := vegetable.PackageType != "" } }

/-- `CreateVegetable`: insert the vegetable side row. -/
def CreateVegetable (vegetable : VegetableModel) (s : Store) : Option Error × Store :=
  let r := database.CreateVegetable (vegetableParams vegetable) s
  (errOf r.1, r.2.record (.CreateVegetable vegetable))

/-- The `database.CreateBonsaiParams` built by `CreateBonsai`. -/
def bonsaiParams (bonsai : BonsaiModel) : database.CreateBonsaiParams :=
  { ID := bonsai.ID
    ProductShop := bonsai.ProductShop
    Age := { Int32 := int32 bonsai.Age, Valid := decide (bonsai.Age > 0) }
    Height := { Int32 := int32 bonsai.Height, Valid := decide (bonsai.Height > 0) }
    Style := { String := bonsai.Style, Valid := bonsai.Style != "" }
    Species := { String := bonsai.Species, Valid := bonsai.Species != "" }
    PotType := { String := bonsai.PotType, Valid := bonsai.PotType != "" } }

/-- `CreateBonsai`: insert the bonsai side row. -/
def CreateBonsai (bonsai : BonsaiModel) (s : Store) : Option Error × Store :=
  let r := database.CreateBonsai (bonsaiParams bonsai) s
  (errOf r.1, r.2.record (.CreateBonsai bonsai))

/-- The `database.CreateInventoryParams` built by `InsertInventory`. -/
def inventoryParams (inventory : InventoryInput) : database.CreateInventoryParams :=
  { ProductID := inventory.ProductID
    ShopID := inventory.ShopID
    Location := { String := inventory.Location, Valid := inventory.Location != "" }
    Stock := int32 inventory.Stock }

/-- `InsertInventory`: insert the stock row. -/
def InsertInventory (inventory : InventoryInput) (s : Store) : Option Error × Store :=
  let r := database.CreateInventory (inventoryParams inventory) s
  (errOf r.1, r.2.record (.InsertInventory inventory))

/-- `FindProduct`: load a product by identifier. -/
def FindProduct (productID : String) (s : Store) : Except Error ProductModel × Store :=
  let r := database.GetProductByID productID s
  let s' := r.2.record (.FindProduct productID)
  match r.1 with
  | .error err => (.error err, s')
  | .ok dbProduct =>
    let price := (ParseFloat dbProduct.ProductPrice).getD Float64.zero
    let product : ProductModel :=
      { ID := dbProduct.ID
        ProductName := dbProduct.ProductName
        ProductPrice := price
        ProductDiscountPrice :=
          if dbProduct.ProductDiscountedPrice.Valid then
            (ParseFloat dbProduct.ProductDiscountedPrice.String).getD Float64.zero
          else Float64.zero
        ProductThumb := dbProduct.ProductThumb.String
        ProductDescription := dbProduct.ProductDescription.String
        ProductQuantity := dbProduct.ProductQuantity
        ProductType := dbProduct.ProductType
        SubProductType := dbProduct.SubProductType.String
        ProductVideos := dbProduct.ProductVideos.getD []
        ProductPictures := dbProduct.ProductPictures.getD []
        ProductStatus := dbProduct.ProductStatus
        ProductSelled := dbProduct.ProductSelled
        ProductShop := dbProduct.ProductShop
        IsDraft := dbProduct.IsDraft
        IsPublished := dbProduct.IsPublished
        CreatedAt := if dbProduct.CreatedAt.Valid then dbProduct.CreatedAt.Time else 0
        UpdatedAt := if dbProduct.UpdatedAt.Valid then dbProduct.UpdatedAt.Time else 0 }
    (.ok product, s')

/-- `UpdateProductByID`: a partial update of the row of table
`ProductModel.TableName` with the given identifier. -/
def UpdateProductByID (productID : String) (updateData : GoMap) (s : Store) :
    Option Error × Store :=
  let r := gorm.Updates ProductModel.TableName productID updateData s
  (r.1, r.2.record (.UpdateProductByID productID updateData))

/-- `PublishProductByShop`: the result of the statement is dropped, its error is
returned. -/
def PublishProductByShop (productID : String) (shopID : String) (s : Store) :
    Option Error × Store :=
  let r := database.PublishProduct { ID := productID, ProductShop := shopID } s
  (errOf r.1, r.2.record (.PublishProductByShop productID shopID))

/-- `UnPublishProductByShop`: the result of the statement is dropped, its error
is returned. -/
def UnPublishProductByShop (productID : String) (shopID : String) (s : Store) :
    Option Error × Store :=
  let r := database.UnpublishProduct { ID := productID, ProductShop := shopID } s
  (errOf r.1, r.2.record (.UnPublishProductByShop productID shopID))

/-- `convertDbProductToModel`; the same statements convert the rows in
`FindAllDraftsForShop` and `FindAllPublishForShop`. -/
def convertDbProductToModel (dbProduct : database.Product) : ProductModel :=
  { ID := dbProduct.ID
    ProductName := dbProduct.ProductName
    ProductPrice := (ParseFloat dbProduct.ProductPrice).getD Float64.zero
    ProductDiscountPrice :=
      if dbProduct.ProductDiscountedPrice.Valid then
        (ParseFloat dbProduct.ProductDiscountedPrice.String).getD Float64.zero
      else Float64.zero
    ProductThumb := dbProduct.ProductThumb.String
    ProductDescription := dbProduct.ProductDescription.String
    ProductQuantity := dbProduct.ProductQuantity
    ProductType := dbProduct.ProductType
    SubProductType := dbProduct.SubProductType.String
    ProductVideos := dbProduct.ProductVideos.getD []
    ProductPictures := dbProduct.ProductPictures.getD []
    ProductStatus := dbProduct.ProductStatus
    ProductSelled := dbProduct.ProductSelled
    ProductShop := dbProduct.ProductShop
    IsDraft := dbProduct.IsDraft
    IsPublished := dbProduct.IsPublished
    CreatedAt := if dbProduct.CreatedAt.Valid then dbProduct.CreatedAt.Time else 0
    UpdatedAt := if dbProduct.UpdatedAt.Valid then dbProduct.UpdatedAt.Time else 0 }

/-- `FindAllDraftsForShop`: the drafts of a shop, one page. -/
def FindAllDraftsForShop (shopID : String) (limit offset : Int) (s : Store) :
    Except Error (List ProductModel) × Store :=
  let r := database.ListDraftProducts
    { ProductShop := shopID, Limit := int32 limit, Offset := int32 offset }
    (s.record (.FindAllDraftsForShop shopID limit offset))
  match r.1 with
  | .error err => (.error err, r.2)
  | .ok drafts => (.ok (drafts.map convertDbProductToModel), r.2)

/-- `FindAllPublishForShop`: the published products of a shop, one page. -/
def FindAllPublishForShop (shopID : String) (limit offset : Int) (s : Store) :
    Except Error (List ProductModel) × Store :=
  let r := database.ListPublishedProducts
    { ProductShop := shopID, Limit := int32 limit, Offset := int32 offset }
    (s.record (.FindAllPublishForShop shopID limit offset))
  match r.1 with
  | .error err => (.error err, r.2)
  | .ok published => (.ok (published.map convertDbProductToModel), r.2)

/-- The statements under "Set default pagination values": a page below one
becomes one, a limit below one becomes ten. -/
def setDefaultPagination (params : ProductQueryParams) : ProductQueryParams :=
  let params := if params.Page < 1 then { params with Page := 1 } else params
  if params.Limit < 1 then { params with Limit := 10 } else params

/-- Go `int(math.Ceil(float64(totalCount) / float64(limit)))`. -/
def totalPages (totalCount : Int) (limit : Int) : Int :=
  Float64.toInt (Float64.Ceil (Float64.div (Float64.ofInt totalCount) (Float64.ofInt limit)))

/-- The `model.ProductResponse` built at the end of the three paged listings. -/
def response (params : ProductQueryParams) (totalCount : Int) (products : List ProductModel) :
    ProductResponse :=
  { CurrentPage := params.Page
    TotalPages := totalPages totalCount params.Limit
    Total := totalCount
    Data := products }

/-- `FindAllProducts`: one page of the listing chosen by the filters. The
assignments to `params.Page` and `params.Limit` show in the response only. -/
def FindAllProducts (params : ProductQueryParams) (s : Store) :
    Except Error ProductResponse × Store :=
  let s := s.record (.FindAllProducts params)
  let params := setDefaultPagination params
  let offset := int64 ((params.Page - 1) * params.Limit)
  if params.ProductType ≠ "" then
    match database.CountProductsByType params.ProductType s with
    | (.error err, s₁) => (.error err, s₁)
    | (.ok count, s₁) =>
      match database.ListProductsByType
          { ProductType := params.ProductType, Limit := int32 params.Limit,
            Offset := int32 offset } s₁ with
      | (.error err, s₂) => (.error err, s₂)
      | (.ok dbProducts, s₂) =>
        (.ok (response params count (dbProducts.map convertDbProductToModel)), s₂)
  else if params.Keyword ≠ "" then
    let searchPattern := "%" ++ params.Keyword ++ "%"
    match database.CountSearchProductsByName searchPattern s with
    | (.error err, s₁) => (.error err, s₁)
    | (.ok count, s₁) =>
      match database.SearchProductsByName
          { ProductName := searchPattern, Limit := int32 params.Limit,
            Offset := int32 offset } s₁ with
      | (.error err, s₂) => (.error err, s₂)
      | (.ok dbProducts, s₂) =>
        (.ok (response params count (dbProducts.map convertDbProductToModel)), s₂)
  else
    match database.CountAllPublishedProducts s with
    | (.error err, s₁) => (.error err, s₁)
    | (.ok count, s₁) =>
      match database.ListAllPublishedProducts
          { Limit := int32 params.Limit, Offset := int32 offset } s₁ with
      | (.error err, s₂) => (.error err, s₂)
      | (.ok dbProducts, s₂) =>
        (.ok (response params count (dbProducts.map convertDbProductToModel)), s₂)

/-- `FindProductsByDiscount`: one page of the published products, by discount. -/
def FindProductsByDiscount (params : ProductQueryParams) (s : Store) :
    Except Error ProductResponse × Store :=
  let s := s.record (.FindProductsByDiscount params)
  let params := setDefaultPagination params
  let offset := int64 ((params.Page - 1) * params.Limit)
  match database.CountAllPublishedProducts s with
  | (.error err, s₁) => (.error err, s₁)
  | (.ok count, s₁) =>
    match database.ListProductsByDiscount
        { Limit := int32 params.Limit, Offset := int32 offset } s₁ with
    | (.error err, s₂) => (.error err, s₂)
    | (.ok dbProducts, s₂) =>
      (.ok (response params count (dbProducts.map convertDbProductToModel)), s₂)

/-- `FindProductsBySelled`: one page of the published products, by units sold. -/
def FindProductsBySelled (params : ProductQueryParams) (s : Store) :
    Except Error ProductResponse × Store :=
  let s := s.record (.FindProductsBySelled params)
  let params := setDefaultPagination params
  let offset := int64 ((params.Page - 1) * params.Limit)
  match database.CountAllPublishedProducts s with
  | (.error err, s₁) => (.error err, s₁)
  | (.ok count, s₁) =>
    match database.ListProductsBySelled
        { Limit := int32 params.Limit, Offset := int32 offset } s₁ with
    | (.error err, s₂) => (.error err, s₂)
    | (.ok dbProducts, s₂) =>
      (.ok (response params count (dbProducts.map convertDbProductToModel)), s₂)

/-- `SearchProducts`: the products whose name matches the keyword, at most a
hundred. -/
def SearchProducts (keyword : String) (s : Store) : Except Error (List ProductModel) × Store :=
  let searchPattern := "%" ++ keyword ++ "%"
  let r := database.SearchProductsByName
    { ProductName := searchPattern, Limit := 100, Offset := 0 }
    (s.record (.SearchProducts keyword))
  match r.1 with
  | .error err => (.error err, r.2)
  | .ok dbProducts => (.ok (dbProducts.map convertDbProductToModel), r.2)

end productRepository

/-! ## Description markup -/

namespace strings

/-- Go `unicode.IsSpace`. -/
def IsSpace (c : Char) : Bool :=
  let n := c.toNat
  n = 0x09 || n = 0x0A || n = 0x0B || n = 0x0C || n = 0x0D || n = 0x20 || n = 0x85 || n = 0xA0
    || n = 0x1680 || (0x2000 ≤ n && n ≤ 0x200A) || n = 0x2028 || n = 0x2029 || n = 0x202F
    || n = 0x205F || n = 0x3000

/-- Go `strings.TrimSpace`, on the characters of the string. -/
def TrimSpace (cs : List Char) : List Char :=
  (cs.dropWhile IsSpace).rdropWhile IsSpace

/-- Go `strings.Split(s, sep)` for a separator of one character, on the
characters of the string. -/
def Split (sep : Char) : List Char → List (List Char)
  | [] => [[]]
  | c :: cs =>
    if c = sep then [] :: Split sep cs
    else
      match Split sep cs with
      | [] => [[c]]
      | l :: ls => (c :: l) :: ls

end strings

/-- The loop that builds `htmlContent` from the lines of a description: every
line that is not empty after trimming is wrapped in a paragraph. -/
def htmlLines (lines : List (List Char)) : List Char :=
  lines.foldl
    (fun htmlContent line =>
      let line := strings.TrimSpace line
      if line ≠ [] then htmlContent ++ ("<p>".data ++ line ++ "</p>".data) else htmlContent)
    []

/-- The `htmlContent` computed from a description (the same statements in
`CreateProduct` and `UpdateProduct`). -/
def htmlContent (description : String) : String :=
  String.mk (htmlLines (strings.Split '\n' description.data))

/-- The transform of a description in the words of the spec: split on line
breaks, trim surrounding whitespace of each line, drop the lines that are then
empty, wrap each remaining line in a paragraph, concatenate in the original
order. -/
def paragraphs (d : String) : String :=
  String.mk
    ((((strings.Split '\n' d.data).map strings.TrimSpace).filter (fun line => line ≠ [])).map
      (fun line => "<p>".data ++ line ++ "</p>".data)).flatten

/-! ## The service (`internal/service/impl/product.service.impl.go`) -/

namespace productService

/-- The `MushroomModel` built in the case "Mushroom" of `CreateProduct`. -/
def mushroom (productID userId : String) (attributes : GoMap) : MushroomModel :=
  { ID := productID
    ProductShop := userId
    Weight := (attributes.float64 "weight").getD Float64.zero
    Origin := (attributes.string "origin").getD ""
    Freshness := (attributes.string "freshness").getD ""
    PackageType := (attributes.string "package_type").getD "" }

/-- The `VegetableModel` built in the case "Vegetable" of `CreateProduct`. -/
def vegetable (productID userId : String) (attributes : GoMap) : VegetableModel :=
  { ID := productID
    ProductShop := userId
    Weight := (attributes.float64 "weight").getD Float64.zero
    Origin := (attributes.string "origin").getD ""
    Freshness := (attributes.string "freshness").getD ""
    PackageType := (attributes.string "package_type").getD "" }

/-- The `BonsaiModel` built in the case "Bonsai" of `CreateProduct`. -/
def bonsai (productID userId : String) (attributes : GoMap) : BonsaiModel :=
  { ID := productID
    ProductShop := userId
    Age := (attributes.int "age").getD 0
    Height := (attributes.int "height").getD 0
    Style := (attributes.string "style").getD ""
    Species := (attributes.string "species").getD ""
    PotType := (attributes.string "pot_type").getD "" }

/-- The `ProductModel` built by `CreateProduct`. -/
def product (input : ProductInput) (productID userId : String) (now₁ now₂ : Nat) : ProductModel :=
  { ID := productID
    ProductName := input.ProductName
    ProductPrice := input.ProductPrice
    ProductDiscountPrice := input.ProductDiscountPrice
    ProductThumb := input.ProductThumb
    ProductDescription :=
      if input.ProductDescription ≠ "" then htmlContent input.ProductDescription
      else input.ProductDescription
    ProductQuantity := input.ProductQuantity
    ProductType := input.ProductType
    SubProductType := input.SubProductType
    ProductVideos := input.ProductVideos
    ProductPictures := input.ProductPictures
    ProductStatus := input.ProductStatus
    ProductSelled := 0
    ProductShop := userId
    IsDraft := true
    IsPublished := false
    CreatedAt := now₁
    UpdatedAt := now₂ }

/-- The `InventoryInput` built by `CreateProduct`. -/
def inventory (input : ProductInput) (productID userId : String) : InventoryInput :=
  { ProductID := productID, ShopID := userId, Location := "", Stock := input.ProductQuantity }

/-- The switch on `input.ProductType` in `CreateProduct`: the variant write of
the matching case and its result, or `none` in the default case. -/
def createVariant (productType productID userId : String) (attributes : GoMap) (s : Store) :
    Option (Option Error × Store) :=
  if productType = "Mushroom" then
    some (productRepository.CreateMushroom (mushroom productID userId attributes) s)
  else if productType = "Vegetable" then
    some (productRepository.CreateVegetable (vegetable productID userId attributes) s)
  else if productType = "Bonsai" then
    some (productRepository.CreateBonsai (bonsai productID userId attributes) s)
  else none

/-- `CreateProduct`. `productID` is the value of `uuid.New().String()`, `now₁`
and `now₂` are the two values of `time.Now()`. The result is the pair of Go
results (`.ok product` is `(product, nil)`, `.error err` is `(nil, err)`)
together with the Store after the call. The assignment to
`input.ProductDescription` shows in the product only. -/
def CreateProduct (ctx : Context) (input : ProductInput) (productID : String) (now₁ now₂ : Nat)
    (s : Store) : Except Error ProductModel × Store :=
  if input.ProductName = "" || Float64.le input.ProductPrice Float64.zero then
    (.error .ErrInvalidInput, s)
  else
    match auth.ExtractUserID ctx with
    | .error err => (.error err, s)
    | .ok userId =>
      let product := product input productID userId now₁ now₂
      match createVariant input.ProductType productID userId input.ProductAttributes s with
      | none => (.error .ErrInvalidProductType, s)
      | some (some err2, s₁) => (.error err2, s₁)
      | some (none, s₁) =>
        match productRepository.CreateProduct product s₁ with
        | (some err, s₂) => (.error err, s₂)
        | (none, s₂) =>
          match productRepository.InsertInventory (inventory input productID userId) s₂ with
          | (some err, s₃) => (.error err, s₃)
          | (none, s₃) => (.ok product, s₃)

/-- Go `if c { m[k] = v }`. -/
def putIf (c : Prop) [Decidable c] (m : GoMap) (k : String) (v : Value) : GoMap :=
  if c then m.set k v else m

/-- The map `updateData` built by `UpdateProduct`; `now` is the value of
`time.Now()`. -/
def updateData (input : ProductInput) (now : Nat) : GoMap :=
  let updateData : GoMap := []
  let updateData :=
    putIf (input.ProductName ≠ "") updateData "product_name" (.string input.ProductName)
  let updateData :=
    putIf (Float64.lt Float64.zero input.ProductPrice = true) updateData
      "product_price" (.float64 input.ProductPrice)
  let updateData :=
    putIf (input.ProductThumb ≠ "") updateData "product_thumb" (.string input.ProductThumb)
  let updateData :=
    putIf (input.ProductDescription ≠ "") updateData
      "product_description" (.string (htmlContent input.ProductDescription))
  let updateData :=
    putIf (input.ProductQuantity > 0) updateData "product_quantity" (.int input.ProductQuantity)
  let updateData :=
    putIf (input.ProductStatus ≠ "") updateData "product_status" (.string input.ProductStatus)
  let updateData :=
    putIf (Float64.lt Float64.zero input.ProductDiscountPrice = true) updateData
      "product_discounted_price" (.float64 input.ProductDiscountPrice)
  let updateData :=
    putIf (input.ProductVideos.length > 0) updateData
      "product_videos" (.strings input.ProductVideos)
  let updateData :=
    putIf (input.ProductPictures.length > 0) updateData
      "product_pictures" (.strings input.ProductPictures)
  let updateData :=
    putIf (input.SubProductType ≠ "") updateData
      "sub_product_type" (.string input.SubProductType)
  updateData.set "updated_at" (.time now)

/-- Go `if attrs, ok := bag[key].(float64); ok { m[key] = attrs }`. -/
def putFloat64 (bag : GoMap) (key : String) (m : GoMap) : GoMap :=
  match bag.float64 key with
  | some attrs => m.set key (.float64 attrs)
  | none => m

/-- Go `if attrs, ok := bag[key].(string); ok { m[key] = attrs }`. -/
def putString (bag : GoMap) (key : String) (m : GoMap) : GoMap :=
  match bag.string key with
  | some attrs => m.set key (.string attrs)
  | none => m

/-- Go `if attrs, ok := bag[key].(int); ok { m[key] = attrs }`. -/
def putInt (bag : GoMap) (key : String) (m : GoMap) : GoMap :=
  match bag.int key with
  | some attrs => m.set key (.int attrs)
  | none => m

/-- The map `mushroomAttrs` built in the case "Mushroom" of `UpdateProduct`. -/
def mushroomAttrs (attributes : GoMap) : GoMap :=
  putString attributes "package_type"
    (putString attributes "freshness"
      (putString attributes "origin" (putFloat64 attributes "weight" [])))

/-- The map `vegetableAttrs` built in the case "Vegetable" of `UpdateProduct`. -/
def vegetableAttrs (attributes : GoMap) : GoMap :=
  putString attributes "package_type"
    (putString attributes "freshness"
      (putString attributes "origin" (putFloat64 attributes "weight" [])))

/-- The map `bonsaiAttrs` built in the case "Bonsai" of `UpdateProduct`. -/
def bonsaiAttrs (attributes : GoMap) : GoMap :=
  putString attributes "pot_type"
    (putString attributes "species"
      (putString attributes "style"
        (putInt attributes "height" (putInt attributes "age" []))))

/-- The switch on the stored product type in `UpdateProduct`: the attribute map
of the matching case, written through `UpdateProductByID` when it is not empty. -/
def updateAttributes (productType : String) (productID : String) (attributes : GoMap)
    (s : Store) : Option Error × Store :=
  if productType = "Mushroom" then
    let mushroomAttrs := mushroomAttrs attributes
    if mushroomAttrs.len > 0 then productRepository.UpdateProductByID productID mushroomAttrs s
    else (none, s)
  else if productType = "Vegetable" then
    let vegetableAttrs := vegetableAttrs attributes
    if vegetableAttrs.len > 0 then productRepository.UpdateProductByID productID vegetableAttrs s
    else (none, s)
  else if productType = "Bonsai" then
    let bonsaiAttrs := bonsaiAttrs attributes
    if bonsaiAttrs.len > 0 then productRepository.UpdateProductByID productID bonsaiAttrs s
    else (none, s)
  else (none, s)

/-- `UpdateProduct`; `now` is the value of `time.Now()`. The result is the Go
`error` together with the Store after the call. -/
def UpdateProduct (ctx : Context) (productID : String) (input : ProductInput) (now : Nat)
    (s : Store) : Option Error × Store :=
  match auth.ExtractUserID ctx with
  | .error err => (some err, s)
  | .ok userId =>
    match productRepository.FindProduct productID s with
    | (.error err, s₁) => (some err, s₁)
    | (.ok product, s₁) =>
      if product.ProductShop ≠ userId then (some .ErrUnauthorized, s₁)
      else
        let updateData := updateData input now
        match updateAttributes product.ProductType productID input.ProductAttributes s₁ with
        | (some err, s₂) => (some err, s₂)
        | (none, s₂) =>
          if updateData.len > 0 then productRepository.UpdateProductByID productID updateData s₂
          else (none, s₂)

/-- `PublishProduct`. -/
def PublishProduct (productID : String) (shopID : String) (s : Store) : Option Error × Store :=
  productRepository.PublishProductByShop productID shopID s

/-- `UnPublishProduct`. -/
def UnPublishProduct (productID : String) (shopID : String) (s : Store) : Option Error × Store :=
  productRepository.UnPublishProductByShop productID shopID s

/-- `FindAllProducts`. -/
def FindAllProducts (params : ProductQueryParams) (s : Store) :
    Except Error ProductResponse × Store :=
  productRepository.FindAllProducts params s

/-- `FindAllDraftsForShop`. -/
def FindAllDraftsForShop (shopID : String) (page limit : Int) (s : Store) :
    Except Error (List ProductModel) × Store :=
  let page := if page < 1 then 1 else page
  let limit := if limit < 1 then 10 else limit
  let offset := int64 ((page - 1) * limit)
  productRepository.FindAllDraftsForShop shopID limit offset s

/-- `FindAllPublishForShop`. -/
def FindAllPublishForShop (shopID : String) (page limit : Int) (s : Store) :
    Except Error (List ProductModel) × Store :=
  let page := if page < 1 then 1 else page
  let limit := if limit < 1 then 10 else limit
  let offset := int64 ((page - 1) * limit)
  productRepository.FindAllPublishForShop shopID limit offset s

/-- `GetProductsByDiscount`. -/
def GetProductsByDiscount (params : ProductQueryParams) (s : Store) :
    Except Error ProductResponse × Store :=
  productRepository.FindProductsByDiscount params s

/-- `GetProductsBySelled`. -/
def GetProductsBySelled (params : ProductQueryParams) (s : Store) :
    Except Error ProductResponse × Store :=
  productRepository.FindProductsBySelled params s

/-- `SearchProducts`. -/
def SearchProducts (keyword : String) (s : Store) : Except Error (List ProductModel) × Store :=
  productRepository.SearchProducts keyword s

end productService

/-! ## The filter paths of the listing, in the words of the spec -/

/-- The filter of `ListAll` (spec §4.2): by product-type, by keyword match on
name, or unfiltered-published-only. -/
inductive Filter where
  | byType (productType : String)
  | byKeyword (keyword : String)
  | allPublished
  deriving DecidableEq

namespace Filter

/-- The filter precedence of spec §4.4: the product-type filter takes precedence
over the keyword search, which takes precedence over the default "all
published" listing. -/
def choose (productType keyword : String) : Filter :=
  if productType ≠ "" then byType productType
  else if keyword ≠ "" then byKeyword keyword
  else allPublished

/-- The count query of a filter path. -/
def countQuery : Filter → Query
  | byType productType => .CountProductsByType productType
  | byKeyword keyword => .CountSearchProductsByName ("%" ++ keyword ++ "%")
  | allPublished => .CountAllPublishedProducts

/-- The list query of a filter path. -/
def listQuery (limit offset : Int) : Filter → Query
  | byType productType =>
    .ListProductsByType { ProductType := productType, Limit := limit, Offset := offset }
  | byKeyword keyword =>
    .SearchProductsByName
      { ProductName := "%" ++ keyword ++ "%", Limit := limit, Offset := offset }
  | allPublished => .ListAllPublishedProducts { Limit := limit, Offset := offset }

/-- The rows that a filter path selects. -/
def selects : Filter → database.Product → Bool
  | byType productType => fun r => r.ProductType == productType
  | byKeyword keyword => fun r => database.like ("%" ++ keyword ++ "%") r.ProductName
  | allPublished => fun r => r.IsPublished

end Filter

/-- The course of a paged listing in the words of the spec (§4.2 `ListAll`,
§4.4): one count query, then one list query, then the response made of the
count and of the rows; a query that fails ends the listing with its error. -/
def pagedListing (params : ProductQueryParams) (countQ listQ : Query) (count : Int)
    (rows : Except Error (List database.Product)) (s : Store) :
    Except Error ProductResponse × Store :=
  match s.readFault s.queries.length with
  | some cause => (.error (.StoreError cause), s.ask countQ)
  | none =>
    match s.readFault (s.queries.length + 1) with
    | some cause => (.error (.StoreError cause), (s.ask countQ).ask listQ)
    | none =>
      match rows with
      | .error err => (.error err, (s.ask countQ).ask listQ)
      | .ok dbProducts =>
        (.ok (productRepository.response params count
            (dbProducts.map productRepository.convertDbProductToModel)),
          (s.ask countQ).ask listQ)

/-- The effective page of spec §4.3: 1 when the page is below 1, the page
otherwise. -/
def effectivePage (page : Int) : Int := if page < 1 then 1 else page

/-- The effective limit of spec §4.3: 10 when the limit is below 1, the limit
otherwise. -/
def effectiveLimit (limit : Int) : Int := if limit < 1 then 10 else limit

/-- Whether a name contains a keyword as a substring, up to case. -/
def containsFold (name keyword : String) : Prop :=
  keyword.data.map database.caseFold <:+: name.data.map database.caseFold

/-! ## Histories of write operations -/

/-- One call of a write operation of the service, with its arguments and with
the values that the environment supplies to it (the new identifier, the
clock). -/
inductive Op where
  | CreateProduct (ctx : Context) (input : ProductInput) (productID : String) (now₁ now₂ : Nat)
  | UpdateProduct (ctx : Context) (productID : String) (input : ProductInput) (now : Nat)
  | PublishProduct (productID shopID : String)
  | UnPublishProduct (productID shopID : String)

/-- The Store after one call, whatever the call returns. -/
def Op.run : Op → Store → Store
  | .CreateProduct ctx input productID now₁ now₂, s =>
    (productService.CreateProduct ctx input productID now₁ now₂ s).2
  | .UpdateProduct ctx productID input now, s =>
    (productService.UpdateProduct ctx productID input now s).2
  | .PublishProduct productID shopID, s => (productService.PublishProduct productID shopID s).2
  | .UnPublishProduct productID shopID, s =>
    (productService.UnPublishProduct productID shopID s).2

/-- The Store after a sequence of calls, the first call first. -/
def Store.after (s : Store) (ops : List Op) : Store := ops.foldl (fun s op => op.run s) s

/-- Whether no stored product is published and a draft at once (spec §8). -/
def Store.flagsConsistent (s : Store) : Bool :=
  s.products.all (fun r => !(r.IsPublished && r.IsDraft))

/-- The columns of a product row that tell which product it is and in which
state of publication: identifier, type tag, owning shop, draft flag, published
flag. -/
def database.Product.fixedColumns (r : database.Product) :
    String × String × String × Bool × Bool :=
  (r.ID, r.ProductType, r.ProductShop, r.IsDraft, r.IsPublished)

/-- The keys that `UpdateProduct` can put into the map `updateData`. -/
def productService.mainKeys : List String :=
  ["product_name", "product_price", "product_thumb", "product_description", "product_quantity",
    "product_status", "product_discounted_price", "product_videos", "product_pictures",
    "sub_product_type", "updated_at"]

/-- The keys that `UpdateProduct` can put into the attribute map of a variant. -/
def productService.variantKeys : List String :=
  ["weight", "origin", "freshness", "package_type", "age", "height", "style", "species",
    "pot_type"]

/-- Whether every number of an attribute bag is a `float64`, as in a bag decoded
from a JSON request body: no value has the dynamic type `int` or `uint`. -/
def GoMap.jsonNumbers (bag : GoMap) : Bool :=
  bag.all (fun e =>
    match e.2 with
    | .int _ => false
    | .uint _ => false
    | _ => true)

/-! ## Sample data -/

namespace sample

/-- An empty Store without storage failures. -/
def store : Store :=
  { products := [], mushrooms := [], vegetables := [], bonsais := [], inventories := [],
    log := [], fault := fun _ => none }

/-- A request context that carries the identity of shop A. -/
def ctxA : Context := { isGin := true, user_id := some (.string "shopA") }

/-- A request context that carries the identity of shop B. -/
def ctxB : Context := { isGin := true, user_id := some (.string "shopB") }

/-- The creation input of the example of spec §8. -/
def shiitake : ProductInput :=
  { ProductName := "Shiitake"
    ProductPrice := .num 50000
    ProductDiscountPrice := .num 0
    ProductThumb := ""
    ProductDescription := ""
    ProductQuantity := 7
    ProductType := "Mushroom"
    SubProductType := ""
    ProductVideos := []
    ProductPictures := []
    ProductStatus := ""
    ProductAttributes := [("weight", .float64 (.num (5 / 2))), ("origin", .string "Dalat")] }

/-- The Store after shop A has created the example product under identifier
"id1": one product row (a draft), one mushroom row, one inventory row. -/
def listed : Store := (productService.CreateProduct ctxA shiitake "id1" 1 2 store).2

/-- The row of product "id1" in `listed`. -/
def listedRow : database.Product :=
  (productRepository.productParams (productService.product shiitake "id1" "shopA" 1 2)).row

/-- The Store after shop A has published product "id1". -/
def published : Store := (productService.PublishProduct "id1" "shopA" listed).2

/-- A Store like `store` in which the third call fails. -/
def failsThird : Store := { store with fault := fun n => if n = 2 then some "disk full" else none }

/-- A Store like `store` in which the first call fails. -/
def failsFirst : Store := { store with fault := fun n => if n = 0 then some "disk full" else none }

/-- An update input whose attribute bag carries a new weight. -/
def reweigh : ProductInput :=
  { shiitake with ProductAttributes := [("weight", .float64 (.num 3))] }

/-- An update input that changes the name and the price and carries no
attribute. -/
def rename : ProductInput :=
  { shiitake with ProductName := "Shiitake dried", ProductPrice := .num 65000,
                  ProductQuantity := 0, ProductAttributes := [] }

/-- Query parameters that ask for page 2147483649 (which is `2^31 + 1`) of one
row each. -/
def farPage : ProductQueryParams :=
  { Page := 2147483649, Limit := 1, ProductType := "", Keyword := "" }

/-- Query parameters that ask for the third page of five rows each. -/
def thirdPage : ProductQueryParams := { Page := 3, Limit := 5, ProductType := "", Keyword := "" }

/-- Query parameters whose keyword is the one character `%`. -/
def percent : ProductQueryParams := { Page := 1, Limit := 10, ProductType := "", Keyword := "%" }

/-- The row of product "id1" once published. -/
def shelfRow : database.Product := { listedRow with IsDraft := false, IsPublished := true }

/-- A Store that holds 9007199254740993 published products, which is `2^53 + 1`
of them. -/
def crowded : Store := { store with products := List.replicate 9007199254740993 shelfRow }

/-- Query parameters that ask for the first page of one row each. -/
def firstOne : ProductQueryParams := { Page := 1, Limit := 1, ProductType := "", Keyword := "" }

/-- A creation input whose discount price, 200, is above its price, 100. -/
def overpriced : ProductInput :=
  { shiitake with ProductPrice := .num 100, ProductDiscountPrice := .num 200 }

/-- An update input that carries nothing but a discount price of 80000. -/
def marked : ProductInput :=
  { shiitake with ProductName := "", ProductPrice := .num 0, ProductDiscountPrice := .num 80000,
                  ProductQuantity := 0, ProductType := "", ProductAttributes := [] }

/-- An update input with every field empty or zero. -/
def emptyUpdate : ProductInput :=
  { shiitake with ProductName := "", ProductPrice := .num 0, ProductQuantity := 0,
                  ProductType := "", ProductAttributes := [] }

/-- An update input whose description is made of blanks and line breaks only. -/
def blanked : ProductInput :=
  { emptyUpdate with ProductDescription := " \n\t\n  " }

/-- An attribute bag decoded from the JSON object `{"age": 5, "height": 30,
"style": "moyogi"}`: the numbers are `float64` values. -/
def bonsaiBag : GoMap :=
  [("age", .float64 (.num 5)), ("height", .float64 (.num 30)), ("style", .string "moyogi")]

/-- A creation input of type Bonsai with the decoded attribute bag. -/
def juniper : ProductInput :=
  { shiitake with ProductName := "Juniper", ProductType := "Bonsai",
                  ProductAttributes := bonsaiBag }

/-- Query parameters that ask for the first page of 2147483648 rows, which is
`2^31` rows. -/
def widePage : ProductQueryParams :=
  { Page := 1, Limit := 2147483648, ProductType := "", Keyword := "" }

/-- The history of the example of spec §8: shop A creates a product, publishes
it, renames it and takes it back. -/
def history : List Op :=
  [.CreateProduct ctxA shiitake "id1" 1 2, .PublishProduct "id1" "shopA",
    .UpdateProduct ctxA "id1" rename 9, .UnPublishProduct "id1" "shopA"]

/-- A published product row with the discount price 5000. -/
def cheap : database.Product :=
  { shelfRow with ID := "id2", ProductDiscountedPrice := { String := "5000.00", Valid := true } }

/-- A published product row with the discount price 10000. -/
def dear : database.Product :=
  { shelfRow with ID := "id3", ProductDiscountedPrice := { String := "10000.00", Valid := true } }

/-- The Store of the example of spec §8: two published products with the
discount prices 5000 and 10000, stored in that order. -/
def shelf : Store := { store with products := [cheap, dear] }

/-- Query parameters without page, limit and filters. -/
def blankQuery : ProductQueryParams := { Page := 0, Limit := 0, ProductType := "", Keyword := "" }

/-- An update input whose attribute bag supplies an empty origin. -/
def blankOrigin : ProductInput :=
  { shiitake with ProductAttributes := [("origin", .string "")] }

/-- An input whose description has blank lines and padded lines. -/
def described : ProductInput :=
  { shiitake with ProductDescription := "Fresh\n  from Dalat \n\n" }

/-- A creation input with an empty name and a type tag outside the closed set. -/
def nameless : ProductInput := { shiitake with ProductName := "", ProductType := "Fish" }

/-- A creation input with a valid name and price and a type tag outside the
closed set. -/
def fish : ProductInput := { shiitake with ProductName := "Carp", ProductType := "Fish" }

end sample

/-! ## The repository, call by call -/

namespace auth

theorem ExtractUserID_error (ctx : Context) (e : Error) (h : ExtractUserID ctx = .error e) :
    e = .UserIDNotFound ∨ e = .UserIDInvalidType := by
  unfold ExtractUserID at h
  split at h
  · split at h <;> simp_all
  · split at h <;> simp_all

end auth

namespace productRepository

theorem CreateMushroom_fail (mushroom : MushroomModel) (s : Store) (cause : String)
    (h : s.fault s.log.length = some cause) :
    CreateMushroom mushroom s =
      (some (.StoreError cause), s.record (.CreateMushroom mushroom)) := by
  simp [CreateMushroom, database.CreateMushroom, Store.failure, h, errOf]

theorem CreateMushroom_ok (mushroom : MushroomModel) (s : Store)
    (h : s.fault s.log.length = none) :
    CreateMushroom mushroom s =
      (none, { s with mushrooms := s.mushrooms ++ [(mushroomParams mushroom).row],
                      log := s.log ++ [.CreateMushroom mushroom] }) := by
  simp [CreateMushroom, database.CreateMushroom, Store.failure, h, errOf, Store.record]

theorem CreateVegetable_fail (vegetable : VegetableModel) (s : Store) (cause : String)
    (h : s.fault s.log.length = some cause) :
    CreateVegetable vegetable s =
      (some (.StoreError cause), s.record (.CreateVegetable vegetable)) := by
  simp [CreateVegetable, database.CreateVegetable, Store.failure, h, errOf]

theorem CreateVegetable_ok (vegetable : VegetableModel) (s : Store)
    (h : s.fault s.log.length = none) :
    CreateVegetable vegetable s =
      (none, { s with vegetables := s.vegetables ++ [(vegetableParams vegetable).row],
                      log := s.log ++ [.CreateVegetable vegetable] }) := by
  simp [CreateVegetable, database.CreateVegetable, Store.failure, h, errOf, Store.record]

theorem CreateBonsai_fail (bonsai : BonsaiModel) (s : Store) (cause : String)
    (h : s.fault s.log.length = some cause) :
    CreateBonsai bonsai s = (some (.StoreError cause), s.record (.CreateBonsai bonsai)) := by
  simp [CreateBonsai, database.CreateBonsai, Store.failure, h, errOf]

theorem CreateBonsai_ok (bonsai : BonsaiModel) (s : Store)
    (h : s.fault s.log.length = none) :
    CreateBonsai bonsai s =
      (none, { s with bonsais := s.bonsais ++ [(bonsaiParams bonsai).row],
                      log := s.log ++ [.CreateBonsai bonsai] }) := by
  simp [CreateBonsai, database.CreateBonsai, Store.failure, h, errOf, Store.record]

theorem CreateProduct_fail (product : ProductModel) (s : Store) (cause : String)
    (h : s.fault s.log.length = some cause) :
    CreateProduct product s =
      (some (.StoreError cause), s.record (.CreateProduct product)) := by
  simp [CreateProduct, database.CreateProduct, Store.failure, h, errOf]

theorem CreateProduct_duplicate (product : ProductModel) (s : Store)
    (h : s.fault s.log.length = none)
    (hdup : s.products.any (fun r => r.ID == product.ID) = true) :
    CreateProduct product s =
      (some .ConstraintViolation, s.record (.CreateProduct product)) := by
  have hid : (productParams product).ID = product.ID := rfl
  simp only [CreateProduct, database.CreateProduct, Store.failure, h, errOf, Option.map_none',
    hid, hdup, if_true]

theorem CreateProduct_ok (product : ProductModel) (s : Store)
    (h : s.fault s.log.length = none)
    (hfresh : s.products.any (fun r => r.ID == product.ID) = false) :
    CreateProduct product s =
      (none, { s with products := s.products ++ [(productParams product).row],
                      log := s.log ++ [.CreateProduct product] }) := by
  have hid : (productParams product).ID = product.ID := rfl
  simp [CreateProduct, database.CreateProduct, Store.failure, h, errOf, hid, hfresh, Store.record]

theorem InsertInventory_fail (inventory : InventoryInput) (s : Store) (cause : String)
    (h : s.fault s.log.length = some cause) :
    InsertInventory inventory s =
      (some (.StoreError cause), s.record (.InsertInventory inventory)) := by
  simp [InsertInventory, database.CreateInventory, Store.failure, h, errOf]

theorem InsertInventory_ok (inventory : InventoryInput) (s : Store)
    (h : s.fault s.log.length = none) :
    InsertInventory inventory s =
      (none, { s with inventories := s.inventories ++ [(inventoryParams inventory).row],
                      log := s.log ++ [.InsertInventory inventory] }) := by
  simp [InsertInventory, database.CreateInventory, Store.failure, h, errOf, Store.record]

theorem FindProduct_store (productID : String) (s : Store) :
    (FindProduct productID s).2 = s.record (.FindProduct productID) := by
  unfold FindProduct database.GetProductByID
  cases hf : s.failure with
  | some e => rfl
  | none =>
    cases hr : s.products.find? (fun r => r.ID == productID) with
    | some row => simp [hr]
    | none => simp [hr]

theorem FindProduct_absent (productID : String) (s : Store)
    (h : s.fault s.log.length = none)
    (habsent : s.products.find? (fun r => r.ID == productID) = none) :
    FindProduct productID s = (.error .NotFound, s.record (.FindProduct productID)) := by
  simp [FindProduct, database.GetProductByID, Store.failure, h, habsent]

theorem FindProduct_found (productID : String) (s : Store) (row : database.Product)
    (h : s.fault s.log.length = none)
    (hrow : s.products.find? (fun r => r.ID == productID) = some row) :
    ∃ product : ProductModel, product.ProductShop = row.ProductShop ∧
      product.ProductType = row.ProductType ∧
      FindProduct productID s = (.ok product, s.record (.FindProduct productID)) := by
  simp [FindProduct, database.GetProductByID, Store.failure, h, hrow]

end productRepository

/-! ## Creation -/

namespace productService

theorem le_zero_of_zero_lt (x : Float64) (h : Float64.lt Float64.zero x = true) :
    Float64.le x Float64.zero = false := by
  cases x <;> simp_all [Float64.lt, Float64.le, Float64.zero]

/-- The variant write of `CreateProduct` for a recognised type tag: one call of
the kind named by the tag, carrying the product identifier; it fails with the
pending storage failure, and otherwise adds the identifier to the side table of
that kind and leaves the rest of the Store alone. -/
theorem createVariant_run (productType productID userId : String) (attributes : GoMap)
    (htype : productType = "Mushroom" ∨ productType = "Vegetable" ∨ productType = "Bonsai") :
    ∃ c : Call, c.variant = some (productType, productID) ∧
      (∀ (s : Store) (cause : String), s.fault s.log.length = some cause →
        createVariant productType productID userId attributes s =
          some (some (.StoreError cause), s.record c)) ∧
      (∀ s : Store, s.fault s.log.length = none →
        ∃ s₁ : Store, createVariant productType productID userId attributes s = some (none, s₁) ∧
          s₁.log = s.log ++ [c] ∧ s₁.fault = s.fault ∧ s₁.products = s.products ∧
          s₁.inventories = s.inventories ∧
          s₁.variantIDs productType = s.variantIDs productType ++ [productID]) := by
  rcases htype with h | h | h
  · subst h
    refine ⟨.CreateMushroom (mushroom productID userId attributes), rfl, ?_, ?_⟩
    · intro s cause hf
      simp [createVariant, productRepository.CreateMushroom_fail _ s cause hf]
    · intro s hf
      simp only [createVariant, productRepository.CreateMushroom_ok _ s hf]
      exact ⟨_, rfl, rfl, rfl, rfl, rfl, by simp [Store.variantIDs]; rfl⟩
  · subst h
    refine ⟨.CreateVegetable (vegetable productID userId attributes), rfl, ?_, ?_⟩
    · intro s cause hf
      simp [createVariant, productRepository.CreateVegetable_fail _ s cause hf]
    · intro s hf
      simp only [createVariant, productRepository.CreateVegetable_ok _ s hf]
      exact ⟨_, rfl, rfl, rfl, rfl, rfl, by simp [Store.variantIDs]; rfl⟩
  · subst h
    refine ⟨.CreateBonsai (bonsai productID userId attributes), rfl, ?_, ?_⟩
    · intro s cause hf
      simp [createVariant, productRepository.CreateBonsai_fail _ s cause hf]
    · intro s hf
      simp only [createVariant, productRepository.CreateBonsai_ok _ s hf]
      exact ⟨_, rfl, rfl, rfl, rfl, rfl, by simp [Store.variantIDs]; rfl⟩

/-- C1. For every creation input with a non-empty name, a price above zero and a
product type among Mushroom, Vegetable and Bonsai, a context from which the
caller identity is extracted, and a Store in which the three writes succeed (no
storage failure on the next three calls, identifier not yet in table products),
`CreateProduct` returns a product with `IsDraft = true`, `IsPublished = false`,
`ProductShop` the caller and `ID` the generated identifier, and the calls it
adds to the Store are exactly: one variant write of the kind named by the type
tag carrying the identifier of the product, the write of that product, and one
inventory write with `ProductID` the identifier, `ShopID` the caller and `Stock`
the input quantity. The tables hold the new rows: the side table of that kind
and table products have grown by the identifier, and the inventory table has
grown by one row for (identifier, caller). -/
theorem CreateProduct_creates (ctx : Context) (input : ProductInput) (productID : String)
    (now₁ now₂ : Nat) (s : Store) (caller : String)
    (hname : input.ProductName ≠ "")
    (hprice : Float64.lt Float64.zero input.ProductPrice = true)
    (htype : input.ProductType = "Mushroom" ∨ input.ProductType = "Vegetable" ∨
      input.ProductType = "Bonsai")
    (hcaller : auth.ExtractUserID ctx = .ok caller)
    (hvariant : s.fault s.log.length = none)
    (hproduct : s.fault (s.log.length + 1) = none)
    (hfresh : s.products.any (fun r => r.ID == productID) = false)
    (hinventory : s.fault (s.log.length + 2) = none) :
    ∃ (p : ProductModel) (s' : Store) (c : Call) (row : database.CreateInventoryParams),
      CreateProduct ctx input productID now₁ now₂ s = (.ok p, s') ∧
      p.IsDraft = true ∧ p.IsPublished = false ∧ p.ProductShop = caller ∧ p.ID = productID ∧
      c.variant = some (input.ProductType, p.ID) ∧
      s'.log = s.log ++ [c, .CreateProduct p, .InsertInventory
        { ProductID := p.ID, ShopID := caller, Location := "", Stock := input.ProductQuantity }] ∧
      s'.variantIDs input.ProductType = s.variantIDs input.ProductType ++ [p.ID] ∧
      s'.products.map (fun r => r.ID) = s.products.map (fun r => r.ID) ++ [p.ID] ∧
      s'.inventories = s.inventories ++ [row] ∧ row.ProductID = p.ID ∧ row.ShopID = caller := by
  have hle := le_zero_of_zero_lt _ hprice
  obtain ⟨c, hc, -, hok⟩ :=
    createVariant_run input.ProductType productID caller input.ProductAttributes htype
  obtain ⟨s₁, h₁, hlog₁, hfault₁, hprod₁, hinv₁, hvar₁⟩ := hok s hvariant
  obtain ⟨s₂, hs₂⟩ : ∃ s₂ : Store, s₂ =
      { s₁ with
        products := s₁.products ++
          [(productRepository.productParams (product input productID caller now₁ now₂)).row]
        log := s₁.log ++ [.CreateProduct (product input productID caller now₁ now₂)] } :=
    ⟨_, rfl⟩
  have h₂ : productRepository.CreateProduct (product input productID caller now₁ now₂) s₁ =
      (none, s₂) := by
    rw [hs₂]
    exact productRepository.CreateProduct_ok _ s₁
      (by rw [hfault₁, hlog₁]; simpa using hproduct) (by rw [hprod₁]; exact hfresh)
  obtain ⟨s₃, hs₃⟩ : ∃ s₃ : Store, s₃ =
      { s₂ with
        inventories := s₂.inventories ++
          [(productRepository.inventoryParams (inventory input productID caller)).row]
        log := s₂.log ++ [.InsertInventory (inventory input productID caller)] } :=
    ⟨_, rfl⟩
  have h₃ : productRepository.InsertInventory (inventory input productID caller) s₂ =
      (none, s₃) := by
    rw [hs₃]
    exact productRepository.InsertInventory_ok _ s₂
      (by rw [hs₂]; simp only [hfault₁, hlog₁]; simpa using hinventory)
  refine ⟨product input productID caller now₁ now₂, s₃, c,
    (productRepository.inventoryParams (inventory input productID caller)).row,
    ?_, rfl, rfl, rfl, rfl, hc, ?_, ?_, ?_, ?_, rfl, rfl⟩
  · simp only [CreateProduct, hname, hle, hcaller, h₁, h₂, h₃]
    simp
  · simp [hs₃, hs₂, hlog₁]
    rfl
  · simpa [hs₃, hs₂, Store.variantIDs] using hvar₁
  · simp [hs₃, hs₂, hprod₁]
    rfl
  · simp [hs₃, hs₂, hinv₁]

/-- Witness of C1: the creation input of the spec's example, sent by shop A to
an empty Store without failures. -/
theorem CreateProduct_creates_witness :
    ∃ (p : ProductModel) (s' : Store) (c : Call) (row : database.CreateInventoryParams),
      CreateProduct sample.ctxA sample.shiitake "id1" 1 2 sample.store = (.ok p, s') ∧
      p.IsDraft = true ∧ p.IsPublished = false ∧ p.ProductShop = "shopA" ∧ p.ID = "id1" ∧
      c.variant = some ("Mushroom", p.ID) ∧
      s'.log = sample.store.log ++ [c, .CreateProduct p, .InsertInventory
        { ProductID := p.ID, ShopID := "shopA", Location := "", Stock := 7 }] ∧
      s'.variantIDs "Mushroom" = sample.store.variantIDs "Mushroom" ++ [p.ID] ∧
      s'.products.map (fun r => r.ID) = sample.store.products.map (fun r => r.ID) ++ [p.ID] ∧
      s'.inventories = sample.store.inventories ++ [row] ∧ row.ProductID = p.ID ∧
      row.ShopID = "shopA" :=
  CreateProduct_creates sample.ctxA sample.shiitake "id1" 1 2 sample.store "shopA"
    (by decide) (by decide) (Or.inl rfl) rfl rfl rfl rfl rfl

theorem createVariant_none (productType productID userId : String) (attributes : GoMap)
    (s : Store)
    (htag : productType ≠ "Mushroom" ∧ productType ≠ "Vegetable" ∧ productType ≠ "Bonsai") :
    createVariant productType productID userId attributes s = none := by
  simp [createVariant, htag.1, htag.2.1, htag.2.2]

/-- Counterexample to C2 as stated: an input whose type tag is outside the closed
set, with an empty name, is rejected with `ErrInvalidInput`, not with
`ErrInvalidProductType` (the name and the price are checked first). -/
theorem CreateProduct_unrecognised_tag_invalid_input :
    (sample.nameless.ProductType ≠ "Mushroom" ∧ sample.nameless.ProductType ≠ "Vegetable" ∧
      sample.nameless.ProductType ≠ "Bonsai") ∧
    (CreateProduct sample.ctxA sample.nameless "id1" 1 2 sample.store).1 =
      .error .ErrInvalidInput ∧
    (CreateProduct sample.ctxA sample.nameless "id1" 1 2 sample.store).1 ≠
      .error .ErrInvalidProductType := by
  refine ⟨by decide, rfl, ?_⟩
  intro h
  have h' : (Except.error Error.ErrInvalidInput : Except Error ProductModel) =
      .error .ErrInvalidProductType := h
  cases h'

/-- C2, amended. For every creation input whose product-type tag is not one of
exactly "Mushroom", "Vegetable", "Bonsai", `CreateProduct` fails and leaves the
Store as it was (no call reaches it, so no variant, product or inventory record
is written). The error is `ErrInvalidProductType` when the name is non-empty,
the price is above zero and the caller identity is extracted; the two earlier
checks come first: `ErrInvalidInput` for an empty name or a price that is zero
or below, then the error of the identity extraction. -/
theorem CreateProduct_unrecognised_tag (ctx : Context) (input : ProductInput)
    (productID : String) (now₁ now₂ : Nat) (s : Store)
    (htag : input.ProductType ≠ "Mushroom" ∧ input.ProductType ≠ "Vegetable" ∧
      input.ProductType ≠ "Bonsai") :
    CreateProduct ctx input productID now₁ now₂ s =
      (.error
        (if input.ProductName = "" || Float64.le input.ProductPrice Float64.zero then
          .ErrInvalidInput
        else
          match auth.ExtractUserID ctx with
          | .error err => err
          | .ok _ => .ErrInvalidProductType), s) := by
  unfold CreateProduct
  split
  · rfl
  · cases hc : auth.ExtractUserID ctx with
    | error err => rfl
    | ok userId => simp only [createVariant_none _ _ _ _ _ htag]

/-- Witness of C2, amended: a valid input with the tag "Fish" is rejected with
`ErrInvalidProductType` and the Store is unchanged. -/
theorem CreateProduct_unrecognised_tag_witness :
    CreateProduct sample.ctxA sample.fish "id1" 1 2 sample.store =
      (.error .ErrInvalidProductType, sample.store) :=
  CreateProduct_unrecognised_tag sample.ctxA sample.fish "id1" 1 2 sample.store (by decide)

theorem createVariant_error (productType productID userId : String) (attributes : GoMap)
    (s s₁ : Store) (e : Error)
    (h : createVariant productType productID userId attributes s = some (some e, s₁)) :
    e.isStore = true := by
  unfold createVariant at h
  cases hf : s.fault s.log.length with
  | none =>
    split at h
    · rw [productRepository.CreateMushroom_ok _ s hf] at h
      simp at h
    · split at h
      · rw [productRepository.CreateVegetable_ok _ s hf] at h
        simp at h
      · split at h
        · rw [productRepository.CreateBonsai_ok _ s hf] at h
          simp at h
        · simp at h
  | some cause =>
    split at h
    · rw [productRepository.CreateMushroom_fail _ s cause hf] at h
      simp at h
      rw [← h.1]
      rfl
    · split at h
      · rw [productRepository.CreateVegetable_fail _ s cause hf] at h
        simp at h
        rw [← h.1]
        rfl
      · split at h
        · rw [productRepository.CreateBonsai_fail _ s cause hf] at h
          simp at h
          rw [← h.1]
          rfl
        · simp at h

end productService

namespace productRepository

theorem CreateProduct_error (product : ProductModel) (s : Store) (e : Error)
    (h : (CreateProduct product s).1 = some e) : e.isStore = true := by
  cases hf : s.fault s.log.length with
  | some cause =>
    rw [CreateProduct_fail _ s cause hf] at h
    simp at h
    rw [← h]
    rfl
  | none =>
    cases hd : s.products.any (fun r => r.ID == product.ID) with
    | true =>
      rw [CreateProduct_duplicate _ s hf hd] at h
      simp at h
      rw [← h]
      rfl
    | false =>
      rw [CreateProduct_ok _ s hf hd] at h
      simp at h

theorem InsertInventory_error (inventory : InventoryInput) (s : Store) (e : Error)
    (h : (InsertInventory inventory s).1 = some e) : e.isStore = true := by
  cases hf : s.fault s.log.length with
  | some cause =>
    rw [InsertInventory_fail _ s cause hf] at h
    simp at h
    rw [← h]
    rfl
  | none =>
    rw [InsertInventory_ok _ s hf] at h
    simp at h

end productRepository

namespace productService

/-- The errors of `CreateProduct`: the validation error (only for an empty name
or a price that is zero or below), an error of the identity extraction, the
type error, or a failure of the Store. -/
theorem CreateProduct_error_kinds (ctx : Context) (input : ProductInput) (productID : String)
    (now₁ now₂ : Nat) (s : Store) (e : Error)
    (h : (CreateProduct ctx input productID now₁ now₂ s).1 = .error e) :
    (e = .ErrInvalidInput ∧
        (input.ProductName = "" ∨ Float64.le input.ProductPrice Float64.zero = true)) ∨
      e = .UserIDNotFound ∨ e = .UserIDInvalidType ∨ e = .ErrInvalidProductType ∨
      e.isStore = true := by
  unfold CreateProduct at h
  split at h
  · rename_i hv
    left
    simp only [Except.error.injEq] at h
    refine ⟨h.symm, ?_⟩
    simpa using hv
  · cases hc : auth.ExtractUserID ctx with
    | error err =>
      simp only [hc, Except.error.injEq] at h
      subst h
      rcases auth.ExtractUserID_error ctx err hc with h' | h'
      · exact Or.inr (Or.inl h')
      · exact Or.inr (Or.inr (Or.inl h'))
    | ok userId =>
      simp only [hc] at h
      split at h
      · simp only [Except.error.injEq] at h
        exact Or.inr (Or.inr (Or.inr (Or.inl h.symm)))
      · rename_i err2 s₁ hv
        simp only [Except.error.injEq] at h
        subst h
        exact Or.inr (Or.inr (Or.inr (Or.inr (createVariant_error _ _ _ _ _ _ _ hv))))
      · split at h
        · rename_i err s₂ hp
          simp only [Except.error.injEq] at h
          subst h
          refine Or.inr (Or.inr (Or.inr (Or.inr
            (productRepository.CreateProduct_error _ _ _ (by rw [hp])))))
        · split at h
          · rename_i err s₃ hi
            simp only [Except.error.injEq] at h
            subst h
            refine Or.inr (Or.inr (Or.inr (Or.inr
              (productRepository.InsertInventory_error _ _ _ (by rw [hi])))))
          · simp at h

/-- C3. `CreateProduct` fails with `ErrInvalidInput`, leaving the Store as it was
(no call reaches it), for every input whose name is empty or whose price is zero
or below; and for every input with a non-empty name and a price above zero it
does not return `ErrInvalidInput`, whatever the context and the Store. -/
theorem CreateProduct_invalid_input (ctx : Context) (input : ProductInput) (productID : String)
    (now₁ now₂ : Nat) (s : Store) :
    ((input.ProductName = "" ∨ Float64.le input.ProductPrice Float64.zero = true) →
      CreateProduct ctx input productID now₁ now₂ s = (.error .ErrInvalidInput, s)) ∧
    (input.ProductName ≠ "" → Float64.lt Float64.zero input.ProductPrice = true →
      (CreateProduct ctx input productID now₁ now₂ s).1 ≠ .error .ErrInvalidInput) := by
  constructor
  · intro h
    unfold CreateProduct
    rw [if_pos (by simpa using h)]
  · intro hname hprice h
    have hle := le_zero_of_zero_lt _ hprice
    rcases CreateProduct_error_kinds _ _ _ _ _ _ _ h with h' | h' | h' | h' | h'
    · rcases h'.2 with h₁ | h₁
      · exact hname h₁
      · rw [hle] at h₁
        cases h₁
    all_goals cases h'

/-- Witness of C3: an input with an empty name is rejected with `ErrInvalidInput`
before anything reaches the Store, and the example input, which is valid, is
not rejected with it. -/
theorem CreateProduct_invalid_input_witness :
    CreateProduct sample.ctxA sample.nameless "id1" 1 2 sample.store =
      (.error .ErrInvalidInput, sample.store) ∧
    (CreateProduct sample.ctxA sample.shiitake "id1" 1 2 sample.store).1 ≠
      .error .ErrInvalidInput :=
  ⟨(CreateProduct_invalid_input sample.ctxA sample.nameless "id1" 1 2 sample.store).1
      (Or.inl rfl),
    (CreateProduct_invalid_input sample.ctxA sample.shiitake "id1" 1 2 sample.store).2
      (by decide) (by decide)⟩

/-- C7. For every valid creation input (non-empty name, price above zero, type
among the three, caller identity extracted), if the variant write and the
product write succeed and the inventory write fails with the storage failure
`cause`, `CreateProduct` returns exactly that error and no product; the calls it
has added to the Store are the variant write, the product write and the failed
inventory write and nothing after them (no delete, no compensating write); the
variant row and the product row written earlier are still in their tables, and
the inventory table is unchanged. -/
theorem CreateProduct_inventory_failure (ctx : Context) (input : ProductInput)
    (productID : String) (now₁ now₂ : Nat) (s : Store) (caller : String) (cause : String)
    (hname : input.ProductName ≠ "")
    (hprice : Float64.lt Float64.zero input.ProductPrice = true)
    (htype : input.ProductType = "Mushroom" ∨ input.ProductType = "Vegetable" ∨
      input.ProductType = "Bonsai")
    (hcaller : auth.ExtractUserID ctx = .ok caller)
    (hvariant : s.fault s.log.length = none)
    (hproduct : s.fault (s.log.length + 1) = none)
    (hfresh : s.products.any (fun r => r.ID == productID) = false)
    (hinventory : s.fault (s.log.length + 2) = some cause) :
    ∃ (s' : Store) (c : Call),
      CreateProduct ctx input productID now₁ now₂ s = (.error (.StoreError cause), s') ∧
      c.variant = some (input.ProductType, productID) ∧
      s'.log = s.log ++ [c, .CreateProduct (product input productID caller now₁ now₂),
        .InsertInventory (inventory input productID caller)] ∧
      s'.variantIDs input.ProductType = s.variantIDs input.ProductType ++ [productID] ∧
      s'.products = s.products ++
        [(productRepository.productParams (product input productID caller now₁ now₂)).row] ∧
      s'.inventories = s.inventories := by
  have hle := le_zero_of_zero_lt _ hprice
  obtain ⟨c, hc, -, hok⟩ :=
    createVariant_run input.ProductType productID caller input.ProductAttributes htype
  obtain ⟨s₁, h₁, hlog₁, hfault₁, hprod₁, hinv₁, hvar₁⟩ := hok s hvariant
  obtain ⟨s₂, hs₂⟩ : ∃ s₂ : Store, s₂ =
      { s₁ with
        products := s₁.products ++
          [(productRepository.productParams (product input productID caller now₁ now₂)).row]
        log := s₁.log ++ [.CreateProduct (product input productID caller now₁ now₂)] } :=
    ⟨_, rfl⟩
  have h₂ : productRepository.CreateProduct (product input productID caller now₁ now₂) s₁ =
      (none, s₂) := by
    rw [hs₂]
    exact productRepository.CreateProduct_ok _ s₁
      (by rw [hfault₁, hlog₁]; simpa using hproduct) (by rw [hprod₁]; exact hfresh)
  have h₃ := productRepository.InsertInventory_fail (inventory input productID caller) s₂ cause
    (by rw [hs₂]; simp only [hfault₁, hlog₁]; simpa using hinventory)
  refine ⟨s₂.record (.InsertInventory (inventory input productID caller)), c, ?_, hc,
    ?_, ?_, ?_, ?_⟩
  · simp only [CreateProduct, hname, hle, hcaller, h₁, h₂, h₃]
    simp
  · simp [Store.record, hs₂, hlog₁]
  · simpa [Store.record, hs₂, Store.variantIDs] using hvar₁
  · simp [Store.record, hs₂, hprod₁]
  · simp [Store.record, hs₂, hinv₁]

/-- Witness of C7: the example input on a Store whose third call fails. -/
theorem CreateProduct_inventory_failure_witness :
    ∃ (s' : Store) (c : Call),
      CreateProduct sample.ctxA sample.shiitake "id1" 1 2 sample.failsThird =
        (.error (.StoreError "disk full"), s') ∧
      c.variant = some ("Mushroom", "id1") ∧
      s'.log = sample.failsThird.log ++
        [c, .CreateProduct (product sample.shiitake "id1" "shopA" 1 2),
          .InsertInventory (inventory sample.shiitake "id1" "shopA")] ∧
      s'.variantIDs "Mushroom" = sample.failsThird.variantIDs "Mushroom" ++ ["id1"] ∧
      s'.products = sample.failsThird.products ++
        [(productRepository.productParams (product sample.shiitake "id1" "shopA" 1 2)).row] ∧
      s'.inventories = sample.failsThird.inventories :=
  CreateProduct_inventory_failure sample.ctxA sample.shiitake "id1" 1 2 sample.failsThird
    "shopA" "disk full" (by decide) (by decide) (Or.inl rfl) rfl rfl rfl rfl rfl

/-- C8. For every valid creation input, `CreateProduct` sends its writes to the
Store in the order variant, product, inventory, each at most once, and stops at
the first failure: when the variant write fails, the variant write is the only
call added and its error is returned; when the variant write succeeds and the
product write fails (storage failure, or identifier already present), the calls
added are the variant write and the product write, and the error is returned;
when both succeed the calls added are the variant write, the product write and
the inventory write, whether the last one succeeds or not. -/
theorem CreateProduct_write_order (ctx : Context) (input : ProductInput) (productID : String)
    (now₁ now₂ : Nat) (s : Store) (caller : String)
    (hname : input.ProductName ≠ "")
    (hprice : Float64.lt Float64.zero input.ProductPrice = true)
    (htype : input.ProductType = "Mushroom" ∨ input.ProductType = "Vegetable" ∨
      input.ProductType = "Bonsai")
    (hcaller : auth.ExtractUserID ctx = .ok caller) :
    ∃ c : Call, c.variant = some (input.ProductType, productID) ∧
      (∀ cause : String, s.fault s.log.length = some cause →
        (CreateProduct ctx input productID now₁ now₂ s).1 = .error (.StoreError cause) ∧
        (CreateProduct ctx input productID now₁ now₂ s).2.log = s.log ++ [c]) ∧
      (s.fault s.log.length = none →
        (∀ cause : String, s.fault (s.log.length + 1) = some cause →
          (CreateProduct ctx input productID now₁ now₂ s).1 = .error (.StoreError cause) ∧
          (CreateProduct ctx input productID now₁ now₂ s).2.log =
            s.log ++ [c, .CreateProduct (product input productID caller now₁ now₂)]) ∧
        (s.fault (s.log.length + 1) = none →
          (s.products.any (fun r => r.ID == productID) = true →
            (CreateProduct ctx input productID now₁ now₂ s).1 = .error .ConstraintViolation ∧
            (CreateProduct ctx input productID now₁ now₂ s).2.log =
              s.log ++ [c, .CreateProduct (product input productID caller now₁ now₂)]) ∧
          (s.products.any (fun r => r.ID == productID) = false →
            (CreateProduct ctx input productID now₁ now₂ s).2.log =
              s.log ++ [c, .CreateProduct (product input productID caller now₁ now₂),
                .InsertInventory (inventory input productID caller)]))) := by
  have hle := le_zero_of_zero_lt _ hprice
  obtain ⟨c, hc, hfail, hok⟩ :=
    createVariant_run input.ProductType productID caller input.ProductAttributes htype
  refine ⟨c, hc, ?_, ?_⟩
  · intro cause hf
    simp only [CreateProduct, hname, hle, hcaller, hfail s cause hf]
    simp [Store.record]
  · intro hvariant
    obtain ⟨s₁, h₁, hlog₁, hfault₁, hprod₁, hinv₁, hvar₁⟩ := hok s hvariant
    refine ⟨?_, ?_⟩
    · intro cause hf
      have h₂ := productRepository.CreateProduct_fail
        (product input productID caller now₁ now₂) s₁ cause
        (by rw [hfault₁, hlog₁]; simpa using hf)
      simp only [CreateProduct, hname, hle, hcaller, h₁, h₂]
      simp [Store.record, hlog₁]
    · intro hproduct
      refine ⟨?_, ?_⟩
      · intro hdup
        have h₂ := productRepository.CreateProduct_duplicate
          (product input productID caller now₁ now₂) s₁
          (by rw [hfault₁, hlog₁]; simpa using hproduct) (by rw [hprod₁]; exact hdup)
        simp only [CreateProduct, hname, hle, hcaller, h₁, h₂]
        simp [Store.record, hlog₁]
      · intro hfresh
        obtain ⟨s₂, hs₂⟩ : ∃ s₂ : Store, s₂ =
            { s₁ with
              products := s₁.products ++
                [(productRepository.productParams
                  (product input productID caller now₁ now₂)).row]
              log := s₁.log ++ [.CreateProduct (product input productID caller now₁ now₂)] } :=
          ⟨_, rfl⟩
        have h₂ : productRepository.CreateProduct (product input productID caller now₁ now₂) s₁ =
            (none, s₂) := by
          rw [hs₂]
          exact productRepository.CreateProduct_ok _ s₁
            (by rw [hfault₁, hlog₁]; simpa using hproduct) (by rw [hprod₁]; exact hfresh)
        simp only [CreateProduct, hname, hle, hcaller, h₁, h₂]
        cases hf : s₂.fault s₂.log.length with
        | some cause =>
          rw [productRepository.InsertInventory_fail _ s₂ cause hf]
          simp [Store.record, hs₂, hlog₁]
        | none =>
          rw [productRepository.InsertInventory_ok _ s₂ hf]
          simp [hs₂, hlog₁]

/-- Witness of C8: on a Store whose first call fails, creating the example
product adds the variant write only and returns the failure. -/
theorem CreateProduct_write_order_witness :
    ∃ c : Call, c.variant = some ("Mushroom", "id1") ∧
      (CreateProduct sample.ctxA sample.shiitake "id1" 1 2 sample.failsFirst).1 =
        .error (.StoreError "disk full") ∧
      (CreateProduct sample.ctxA sample.shiitake "id1" 1 2 sample.failsFirst).2.log =
        sample.failsFirst.log ++ [c] := by
  obtain ⟨c, hc, hfail, -⟩ := CreateProduct_write_order sample.ctxA sample.shiitake "id1" 1 2
    sample.failsFirst "shopA" (by decide) (by decide) (Or.inl rfl) rfl
  exact ⟨c, hc, hfail "disk full" rfl⟩

/-! ## Update -/

/-- C4. For every stored product (the Store resolves the identifier to a row)
and every caller identity different from the owning shop of that row,
`UpdateProduct` fails with `ErrUnauthorized`, whatever the input contains, and
the Store it leaves is the Store it found with the read call added to the log:
no write call is made and no table changes. -/
theorem UpdateProduct_unauthorized (ctx : Context) (productID : String) (input : ProductInput)
    (now : Nat) (s : Store) (caller : String) (row : database.Product)
    (hcaller : auth.ExtractUserID ctx = .ok caller)
    (hread : s.fault s.log.length = none)
    (hrow : s.products.find? (fun r => r.ID == productID) = some row)
    (hother : row.ProductShop ≠ caller) :
    UpdateProduct ctx productID input now s =
        (some .ErrUnauthorized, s.record (.FindProduct productID)) ∧
      (UpdateProduct ctx productID input now s).2.writes = s.writes ∧
      (UpdateProduct ctx productID input now s).2.products = s.products := by
  obtain ⟨product, hshop, -, hfind⟩ := productRepository.FindProduct_found productID s row hread hrow
  have h : UpdateProduct ctx productID input now s =
      (some .ErrUnauthorized, s.record (.FindProduct productID)) := by
    simp only [UpdateProduct, hcaller, hfind]
    rw [if_pos (by rw [hshop]; exact hother)]
  refine ⟨h, ?_, ?_⟩
  · rw [h]
    simp [Store.writes, Store.record, Call.isWrite]
  · rw [h]
    rfl

/-- Witness of C4: shop B sends an update for the product of shop A. -/
theorem UpdateProduct_unauthorized_witness :
    UpdateProduct sample.ctxB "id1" sample.shiitake 9 sample.listed =
        (some .ErrUnauthorized, sample.listed.record (.FindProduct "id1")) ∧
      (UpdateProduct sample.ctxB "id1" sample.shiitake 9 sample.listed).2.writes =
        sample.listed.writes ∧
      (UpdateProduct sample.ctxB "id1" sample.shiitake 9 sample.listed).2.products =
        sample.listed.products :=
  UpdateProduct_unauthorized sample.ctxB "id1" sample.shiitake 9 sample.listed "shopB"
    sample.listedRow rfl rfl rfl (by decide)

/-- C6. For every product identifier that the Store does not resolve (no row of
table products carries it), `UpdateProduct` fails with the Store's `NotFound`,
and the Store it leaves is the Store it found with the read call added to the
log: no write call is made and no table changes. -/
theorem UpdateProduct_not_found (ctx : Context) (productID : String) (input : ProductInput)
    (now : Nat) (s : Store) (caller : String)
    (hcaller : auth.ExtractUserID ctx = .ok caller)
    (hread : s.fault s.log.length = none)
    (habsent : s.products.find? (fun r => r.ID == productID) = none) :
    UpdateProduct ctx productID input now s =
        (some .NotFound, s.record (.FindProduct productID)) ∧
      (UpdateProduct ctx productID input now s).2.writes = s.writes ∧
      (UpdateProduct ctx productID input now s).2.products = s.products := by
  have h : UpdateProduct ctx productID input now s =
      (some .NotFound, s.record (.FindProduct productID)) := by
    simp only [UpdateProduct, hcaller, productRepository.FindProduct_absent productID s hread habsent]
  refine ⟨h, ?_, ?_⟩
  · rw [h]
    simp [Store.writes, Store.record, Call.isWrite]
  · rw [h]
    rfl

/-- Witness of C6: shop A sends an update for an identifier that no product
carries. -/
theorem UpdateProduct_not_found_witness :
    UpdateProduct sample.ctxA "id2" sample.shiitake 9 sample.listed =
        (some .NotFound, sample.listed.record (.FindProduct "id2")) ∧
      (UpdateProduct sample.ctxA "id2" sample.shiitake 9 sample.listed).2.writes =
        sample.listed.writes ∧
      (UpdateProduct sample.ctxA "id2" sample.shiitake 9 sample.listed).2.products =
        sample.listed.products :=
  UpdateProduct_not_found sample.ctxA "id2" sample.shiitake 9 sample.listed "shopA"
    rfl rfl rfl

end productService

namespace GoMap

theorem get_nil (k : String) : GoMap.get [] k = none := rfl

theorem get_set (m : GoMap) (k k' : String) (v : Value) :
    (m.set k v).get k' = if k = k' then some v else m.get k' := by
  induction m with
  | nil =>
    by_cases h : k = k' <;> simp [GoMap.set, GoMap.get, h]
  | cons e m ih =>
    obtain ⟨k₀, v₀⟩ := e
    by_cases h₀ : k₀ = k
    · subst h₀
      by_cases h : k₀ = k' <;> simp [GoMap.set, GoMap.get, h]
    · by_cases h : k = k'
      · subst h
        have ih' := ih
        simp only [if_true] at ih'
        simp only [GoMap.set, if_neg h₀, if_true]
        simp only [GoMap.get, List.find?, show (k₀ == k) = false from by simpa using h₀] at ih' ⊢
        exact ih'
      · simp only [if_neg h] at ih
        simp only [GoMap.set, if_neg h₀, if_neg h]
        by_cases h₁ : k₀ = k'
        · simp [GoMap.get, List.find?, h₁]
        · simp only [GoMap.get, List.find?, show (k₀ == k') = false from by simpa using h₁] at ih ⊢
          exact ih

theorem len_set_pos (m : GoMap) (k : String) (v : Value) : 0 < (m.set k v).len := by
  cases m with
  | nil => simp [GoMap.set, GoMap.len]
  | cons e m =>
    obtain ⟨k₀, v₀⟩ := e
    by_cases h : k₀ = k <;> simp [GoMap.set, GoMap.len, h]

end GoMap

namespace gorm

/-- An update of table `products` leaves the other tables, the log and the
failures of the Store alone. -/
theorem Updates_products_frame (id : String) (values : GoMap) (s : Store) :
    (Updates "products" id values s).2.mushrooms = s.mushrooms ∧
    (Updates "products" id values s).2.vegetables = s.vegetables ∧
    (Updates "products" id values s).2.bonsais = s.bonsais ∧
    (Updates "products" id values s).2.inventories = s.inventories ∧
    (Updates "products" id values s).2.log = s.log ∧
    (Updates "products" id values s).2.fault = s.fault := by
  unfold Updates
  cases s.failure with
  | some e => simp
  | none =>
    cases assignments productColumn values with
    | error e => simp
    | ok fs => simp

end gorm

namespace productRepository

theorem UpdateProductByID_frame (productID : String) (updateData : GoMap) (s : Store) :
    (UpdateProductByID productID updateData s).2.mushrooms = s.mushrooms ∧
    (UpdateProductByID productID updateData s).2.vegetables = s.vegetables ∧
    (UpdateProductByID productID updateData s).2.bonsais = s.bonsais ∧
    (UpdateProductByID productID updateData s).2.inventories = s.inventories ∧
    (UpdateProductByID productID updateData s).2.log =
      s.log ++ [.UpdateProductByID productID updateData] ∧
    (UpdateProductByID productID updateData s).2.fault = s.fault := by
  obtain ⟨h₁, h₂, h₃, h₄, h₅, h₆⟩ := gorm.Updates_products_frame productID updateData s
  simp only [UpdateProductByID, ProductModel.TableName, Store.record]
  exact ⟨h₁, h₂, h₃, h₄, by rw [h₅], h₆⟩

end productRepository

namespace productService

theorem get_putIf (c : Prop) [Decidable c] (m : GoMap) (k k' : String) (v : Value) :
    (putIf c m k v).get k' = if c ∧ k = k' then some v else m.get k' := by
  by_cases h : c <;> simp [putIf, h, GoMap.get_set]

theorem updateData_len_pos (input : ProductInput) (now : Nat) :
    0 < (updateData input now).len :=
  GoMap.len_set_pos _ _ _

/-- The variant step of `UpdateProduct` leaves the side tables and the inventory
table alone. -/
theorem updateAttributes_frame (productType productID : String) (attributes : GoMap)
    (s : Store) :
    (updateAttributes productType productID attributes s).2.mushrooms = s.mushrooms ∧
    (updateAttributes productType productID attributes s).2.vegetables = s.vegetables ∧
    (updateAttributes productType productID attributes s).2.bonsais = s.bonsais ∧
    (updateAttributes productType productID attributes s).2.inventories = s.inventories := by
  simp only [updateAttributes]
  split_ifs
  all_goals first
    | exact ⟨rfl, rfl, rfl, rfl⟩
    | exact ⟨(productRepository.UpdateProductByID_frame _ _ _).1,
        (productRepository.UpdateProductByID_frame _ _ _).2.1,
        (productRepository.UpdateProductByID_frame _ _ _).2.2.1,
        (productRepository.UpdateProductByID_frame _ _ _).2.2.2.1⟩

/-- No call of `UpdateProduct` changes a variant side table or the inventory
table. -/
theorem UpdateProduct_frame (ctx : Context) (productID : String) (input : ProductInput)
    (now : Nat) (s : Store) :
    (UpdateProduct ctx productID input now s).2.mushrooms = s.mushrooms ∧
    (UpdateProduct ctx productID input now s).2.vegetables = s.vegetables ∧
    (UpdateProduct ctx productID input now s).2.bonsais = s.bonsais ∧
    (UpdateProduct ctx productID input now s).2.inventories = s.inventories := by
  unfold UpdateProduct
  cases hc : auth.ExtractUserID ctx with
  | error err => exact ⟨rfl, rfl, rfl, rfl⟩
  | ok userId =>
    have hstore := productRepository.FindProduct_store productID s
    cases hf : productRepository.FindProduct productID s with
    | mk r s₁ =>
      rw [hf] at hstore
      simp only at hstore
      cases r with
      | error err =>
        simp only
        rw [hstore]
        exact ⟨rfl, rfl, rfl, rfl⟩
      | ok product =>
        simp only
        split
        · rw [hstore]
          exact ⟨rfl, rfl, rfl, rfl⟩
        · obtain ⟨h₁, h₂, h₃, h₄⟩ := updateAttributes_frame product.ProductType productID
            input.ProductAttributes s₁
          cases hu : updateAttributes product.ProductType productID input.ProductAttributes s₁ with
          | mk e s₂ =>
            rw [hu] at h₁ h₂ h₃ h₄
            simp only at h₁ h₂ h₃ h₄
            have hs₁ : s₁.mushrooms = s.mushrooms ∧ s₁.vegetables = s.vegetables ∧
                s₁.bonsais = s.bonsais ∧ s₁.inventories = s.inventories := by
              rw [hstore]
              exact ⟨rfl, rfl, rfl, rfl⟩
            cases e with
            | some err =>
              simp only
              exact ⟨h₁.trans hs₁.1, h₂.trans hs₁.2.1, h₃.trans hs₁.2.2.1, h₄.trans hs₁.2.2.2⟩
            | none =>
              simp only
              rw [if_pos (updateData_len_pos input now)]
              obtain ⟨g₁, g₂, g₃, g₄, -, -⟩ := productRepository.UpdateProductByID_frame productID
                (updateData input now) s₂
              exact ⟨(g₁.trans h₁).trans hs₁.1, (g₂.trans h₂).trans hs₁.2.1,
                (g₃.trans h₃).trans hs₁.2.2.1, (g₄.trans h₄).trans hs₁.2.2.2⟩

/-- C9. For every `UpdateProduct` call by the owning shop that reaches the main
update (the product is found, the caller owns it, the variant step returns no
error), the last call made on the Store is `UpdateProductByID` with the map
`updateData`, and that map holds the key of an input field exactly when the
field is non-empty or above zero, with the input value as its value:
`product_name`, `product_thumb`, `product_status`, `sub_product_type` when the
string is non-empty; `product_price`, `product_quantity`,
`product_discounted_price` when the number is above zero; `product_videos`,
`product_pictures` when the collection is non-empty; `product_description` when
the string is non-empty, its value being the paragraph markup of the input. -/
theorem UpdateProduct_main_patch (ctx : Context) (productID : String) (input : ProductInput)
    (now : Nat) (s : Store) (caller : String) (row : database.Product)
    (hcaller : auth.ExtractUserID ctx = .ok caller)
    (hread : s.fault s.log.length = none)
    (hrow : s.products.find? (fun r => r.ID == productID) = some row)
    (howner : row.ProductShop = caller)
    (hvariant : (updateAttributes row.ProductType productID input.ProductAttributes
      (s.record (.FindProduct productID))).1 = none) :
    (UpdateProduct ctx productID input now s).2.log.getLast? =
      some (.UpdateProductByID productID (updateData input now)) ∧
    (updateData input now).get "product_name" =
      (if input.ProductName ≠ "" then some (.string input.ProductName) else none) ∧
    (updateData input now).get "product_thumb" =
      (if input.ProductThumb ≠ "" then some (.string input.ProductThumb) else none) ∧
    (updateData input now).get "product_description" =
      (if input.ProductDescription ≠ "" then
        some (.string (htmlContent input.ProductDescription)) else none) ∧
    (updateData input now).get "product_status" =
      (if input.ProductStatus ≠ "" then some (.string input.ProductStatus) else none) ∧
    (updateData input now).get "sub_product_type" =
      (if input.SubProductType ≠ "" then some (.string input.SubProductType) else none) ∧
    (updateData input now).get "product_price" =
      (if Float64.lt Float64.zero input.ProductPrice = true then
        some (.float64 input.ProductPrice) else none) ∧
    (updateData input now).get "product_quantity" =
      (if input.ProductQuantity > 0 then some (.int input.ProductQuantity) else none) ∧
    (updateData input now).get "product_discounted_price" =
      (if Float64.lt Float64.zero input.ProductDiscountPrice = true then
        some (.float64 input.ProductDiscountPrice) else none) ∧
    (updateData input now).get "product_videos" =
      (if input.ProductVideos.length > 0 then some (.strings input.ProductVideos) else none) ∧
    (updateData input now).get "product_pictures" =
      (if input.ProductPictures.length > 0 then some (.strings input.ProductPictures)
        else none) := by
  refine ⟨?_, ?_, ?_, ?_, ?_, ?_, ?_, ?_, ?_, ?_, ?_⟩
  · obtain ⟨product, hshop, htype, hfind⟩ :=
      productRepository.FindProduct_found productID s row hread hrow
    simp only [UpdateProduct, hcaller, hfind]
    rw [if_neg (by rw [hshop, howner]; simp), htype]
    cases hu : updateAttributes row.ProductType productID input.ProductAttributes
        (s.record (.FindProduct productID)) with
    | mk e s₂ =>
      rw [hu] at hvariant
      simp only at hvariant
      subst hvariant
      simp only
      rw [if_pos (updateData_len_pos input now),
        (productRepository.UpdateProductByID_frame _ _ _).2.2.2.2.1]
      simp
  all_goals simp [updateData, get_putIf, GoMap.get_set, GoMap.get_nil]

/-- Witness of C9: shop A renames and reprices its product; the patch holds the
name and the price and does not hold the quantity, which the input leaves at
zero. -/
theorem UpdateProduct_main_patch_witness :
    (UpdateProduct sample.ctxA "id1" sample.rename 9 sample.listed).2.log.getLast? =
      some (.UpdateProductByID "id1" (updateData sample.rename 9)) ∧
    (updateData sample.rename 9).get "product_name" = some (.string "Shiitake dried") ∧
    (updateData sample.rename 9).get "product_price" = some (.float64 (.num 65000)) ∧
    (updateData sample.rename 9).get "product_quantity" = none := by
  have h := UpdateProduct_main_patch sample.ctxA "id1" sample.rename 9 sample.listed "shopA"
    sample.listedRow rfl rfl rfl rfl rfl
  exact ⟨h.1, h.2.1, h.2.2.2.2.2.2.1, h.2.2.2.2.2.2.2.1⟩

/-- C10, the code at a failing input. Shop A updates its Mushroom product "id1"
with an attribute bag that carries a weight. The attribute map is not empty and
it is written before the main patch, through `UpdateProductByID`, which for
every identifier and map is one update of table `ProductModel.TableName`, that
is `products`; no call of `UpdateProduct` changes a side table. Here the row of
table `mushrooms` keeps its weight, table `products` has no column for the
attribute, so the update returns the failure of that statement, and the main
patch is not applied after it. -/
theorem UpdateProduct_variant_patch_target :
    (∀ (productID : String) (updateData : GoMap) (s : Store),
      productRepository.UpdateProductByID productID updateData s =
        ((gorm.Updates "products" productID updateData s).1,
          (gorm.Updates "products" productID updateData s).2.record
            (.UpdateProductByID productID updateData))) ∧
    (∀ (ctx : Context) (productID : String) (input : ProductInput) (now : Nat) (s : Store),
      (UpdateProduct ctx productID input now s).2.mushrooms = s.mushrooms ∧
      (UpdateProduct ctx productID input now s).2.vegetables = s.vegetables ∧
      (UpdateProduct ctx productID input now s).2.bonsais = s.bonsais) ∧
    mushroomAttrs sample.reweigh.ProductAttributes = [("weight", .float64 (.num 3))] ∧
    (UpdateProduct sample.ctxA "id1" sample.reweigh 9 sample.listed).2.log =
      sample.listed.log ++
        [.FindProduct "id1", .UpdateProductByID "id1" [("weight", .float64 (.num 3))]] ∧
    (UpdateProduct sample.ctxA "id1" sample.reweigh 9 sample.listed).2.mushrooms =
      sample.listed.mushrooms ∧
    (UpdateProduct sample.ctxA "id1" sample.reweigh 9 sample.listed).2.products =
      sample.listed.products ∧
    (UpdateProduct sample.ctxA "id1" sample.reweigh 9 sample.listed).1 =
      some (.StoreError "cannot assign column weight") := by
  refine ⟨fun _ _ _ => rfl, ?_, rfl, rfl, rfl, rfl, rfl⟩
  intro ctx productID input now s
  obtain ⟨h₁, h₂, h₃, -⟩ := UpdateProduct_frame ctx productID input now s
  exact ⟨h₁, h₂, h₃⟩

/-! ## Publish and unpublish -/

/-- C5, the code at a failing input. Product "id1" belongs to shop A. When
shop B asks to publish it while it is a draft, and when shop B asks to unpublish
it once shop A has published it, the flags of the product stay as they were and
the call returns no error: the statement that matched no row is reported as a
success. More generally neither operation returns an error unless the storage
fails. -/
theorem PublishProduct_other_shop :
    sample.listed.products.map (fun r => (r.ID, r.ProductShop, r.IsDraft, r.IsPublished)) =
      [("id1", "shopA", true, false)] ∧
    (PublishProduct "id1" "shopB" sample.listed).1 = none ∧
    (PublishProduct "id1" "shopB" sample.listed).2.products = sample.listed.products ∧
    sample.published.products.map (fun r => (r.ID, r.ProductShop, r.IsDraft, r.IsPublished)) =
      [("id1", "shopA", false, true)] ∧
    (UnPublishProduct "id1" "shopB" sample.published).1 = none ∧
    (UnPublishProduct "id1" "shopB" sample.published).2.products = sample.published.products ∧
    (∀ (productID shopID : String) (s : Store), s.fault s.log.length = none →
      (PublishProduct productID shopID s).1 = none ∧
      (UnPublishProduct productID shopID s).1 = none) := by
  refine ⟨rfl, rfl, rfl, rfl, rfl, rfl, ?_⟩
  intro productID shopID s h
  simp [PublishProduct, UnPublishProduct, productRepository.PublishProductByShop,
    productRepository.UnPublishProductByShop, database.PublishProduct,
    database.UnpublishProduct, Store.failure, h, errOf]

/-! ## Variant attributes -/

/-- C11. On `UpdateProduct` the input's own `ProductType` is never read: for two
inputs that differ only in that field the whole call is the same (same result,
same Store, hence the same variant patch and the same main patch), the main
patch `updateData` is the same map, and under every key but `updated_at` it is
the same even for different clock values; the attribute names read from the bag
are chosen by the product type that `FindProduct` returns from the Store. -/
theorem UpdateProduct_ignores_input_type (ctx : Context) (productID : String)
    (input : ProductInput) (tag : String) (now : Nat) (s : Store) :
    UpdateProduct ctx productID { input with ProductType := tag } now s =
      UpdateProduct ctx productID input now s ∧
    updateData { input with ProductType := tag } now = updateData input now ∧
    (∀ storedType : String,
      updateAttributes storedType productID
          ({ input with ProductType := tag } : ProductInput).ProductAttributes s =
        updateAttributes storedType productID input.ProductAttributes s) ∧
    (∀ (now' : Nat) (k : String), k ≠ "updated_at" →
      (updateData { input with ProductType := tag } now').get k = (updateData input now).get k) := by
  refine ⟨rfl, rfl, fun _ => rfl, ?_⟩
  intro now' k hk
  simp only [updateData, GoMap.get_set, if_neg (Ne.symm hk)]

theorem get_putFloat64 (bag : GoMap) (key : String) (m : GoMap) (k : String) :
    (putFloat64 bag key m).get k =
      if key = k ∧ (bag.float64 key).isSome = true then (bag.float64 key).map Value.float64
      else m.get k := by
  unfold putFloat64
  cases h : bag.float64 key with
  | none => simp
  | some a => by_cases hk : key = k <;> simp [GoMap.get_set, hk]

theorem get_putString (bag : GoMap) (key : String) (m : GoMap) (k : String) :
    (putString bag key m).get k =
      if key = k ∧ (bag.string key).isSome = true then (bag.string key).map Value.string
      else m.get k := by
  unfold putString
  cases h : bag.string key with
  | none => simp
  | some a => by_cases hk : key = k <;> simp [GoMap.get_set, hk]

theorem get_putInt (bag : GoMap) (key : String) (m : GoMap) (k : String) :
    (putInt bag key m).get k =
      if key = k ∧ (bag.int key).isSome = true then (bag.int key).map Value.int
      else m.get k := by
  unfold putInt
  cases h : bag.int key with
  | none => simp
  | some a => by_cases hk : key = k <;> simp [GoMap.get_set, hk]

theorem len_putFloat64 (bag : GoMap) (key : String) (m : GoMap) :
    (putFloat64 bag key m).len = 0 ↔ bag.float64 key = none ∧ m.len = 0 := by
  unfold putFloat64
  cases h : bag.float64 key with
  | none => simp
  | some a => simpa using Nat.ne_of_gt (GoMap.len_set_pos m key (.float64 a))

theorem len_putString (bag : GoMap) (key : String) (m : GoMap) :
    (putString bag key m).len = 0 ↔ bag.string key = none ∧ m.len = 0 := by
  unfold putString
  cases h : bag.string key with
  | none => simp
  | some a => simpa using Nat.ne_of_gt (GoMap.len_set_pos m key (.string a))

theorem len_putInt (bag : GoMap) (key : String) (m : GoMap) :
    (putInt bag key m).len = 0 ↔ bag.int key = none ∧ m.len = 0 := by
  unfold putInt
  cases h : bag.int key with
  | none => simp
  | some a => simpa using Nat.ne_of_gt (GoMap.len_set_pos m key (.int a))

/-- Counterexample to C12 as stated: shop A updates its Mushroom product with an
attribute bag that supplies the empty string as origin. The extracted value is
the zero value, yet the variant patch holds the key `origin`, and the variant
write is issued with that patch. -/
theorem UpdateProduct_zero_value_attribute :
    sample.blankOrigin.ProductAttributes.string "origin" = some "" ∧
    (mushroomAttrs sample.blankOrigin.ProductAttributes).get "origin" = some (.string "") ∧
    (UpdateProduct sample.ctxA "id1" sample.blankOrigin 9 sample.listed).2.log =
      sample.listed.log ++
        [.FindProduct "id1", .UpdateProductByID "id1" [("origin", .string "")]] :=
  ⟨rfl, rfl, rfl⟩

/-- C12, amended. On `UpdateProduct` the variant patch holds a key exactly for
the attribute fields that the bag supplies with the expected dynamic type
(float64 for weight, string for origin, freshness, package_type, style, species
and pot_type, int for age and height), with the supplied value, whatever that
value is, the zero value included; it holds no other key; it is empty exactly
when the bag supplies none of the fields with the expected type, and the
variant write is issued exactly when the patch is not empty. -/
theorem updateAttributes_patch (productID : String) (bag : GoMap) (s : Store) :
    ((mushroomAttrs bag).get "weight" = (bag.float64 "weight").map Value.float64 ∧
      (mushroomAttrs bag).get "origin" = (bag.string "origin").map Value.string ∧
      (mushroomAttrs bag).get "freshness" = (bag.string "freshness").map Value.string ∧
      (mushroomAttrs bag).get "package_type" = (bag.string "package_type").map Value.string ∧
      (∀ k : String, k ∉ ["weight", "origin", "freshness", "package_type"] →
        (mushroomAttrs bag).get k = none) ∧
      ((mushroomAttrs bag).len = 0 ↔
        bag.float64 "weight" = none ∧ bag.string "origin" = none ∧
          bag.string "freshness" = none ∧ bag.string "package_type" = none) ∧
      updateAttributes "Mushroom" productID bag s =
        (if (mushroomAttrs bag).len > 0 then
          productRepository.UpdateProductByID productID (mushroomAttrs bag) s
        else (none, s))) ∧
    ((vegetableAttrs bag).get "weight" = (bag.float64 "weight").map Value.float64 ∧
      (vegetableAttrs bag).get "origin" = (bag.string "origin").map Value.string ∧
      (vegetableAttrs bag).get "freshness" = (bag.string "freshness").map Value.string ∧
      (vegetableAttrs bag).get "package_type" = (bag.string "package_type").map Value.string ∧
      (∀ k : String, k ∉ ["weight", "origin", "freshness", "package_type"] →
        (vegetableAttrs bag).get k = none) ∧
      ((vegetableAttrs bag).len = 0 ↔
        bag.float64 "weight" = none ∧ bag.string "origin" = none ∧
          bag.string "freshness" = none ∧ bag.string "package_type" = none) ∧
      updateAttributes "Vegetable" productID bag s =
        (if (vegetableAttrs bag).len > 0 then
          productRepository.UpdateProductByID productID (vegetableAttrs bag) s
        else (none, s))) ∧
    ((bonsaiAttrs bag).get "age" = (bag.int "age").map Value.int ∧
      (bonsaiAttrs bag).get "height" = (bag.int "height").map Value.int ∧
      (bonsaiAttrs bag).get "style" = (bag.string "style").map Value.string ∧
      (bonsaiAttrs bag).get "species" = (bag.string "species").map Value.string ∧
      (bonsaiAttrs bag).get "pot_type" = (bag.string "pot_type").map Value.string ∧
      (∀ k : String, k ∉ ["age", "height", "style", "species", "pot_type"] →
        (bonsaiAttrs bag).get k = none) ∧
      ((bonsaiAttrs bag).len = 0 ↔
        bag.int "age" = none ∧ bag.int "height" = none ∧ bag.string "style" = none ∧
          bag.string "species" = none ∧ bag.string "pot_type" = none) ∧
      updateAttributes "Bonsai" productID bag s =
        (if (bonsaiAttrs bag).len > 0 then
          productRepository.UpdateProductByID productID (bonsaiAttrs bag) s
        else (none, s))) := by
  refine ⟨⟨?_, ?_, ?_, ?_, ?_, ?_, ?_⟩, ⟨?_, ?_, ?_, ?_, ?_, ?_, ?_⟩,
    ⟨?_, ?_, ?_, ?_, ?_, ?_, ?_, ?_⟩⟩
  case refine_1 =>
    simp only [mushroomAttrs, get_putString, get_putFloat64, GoMap.get_nil]
    cases bag.float64 "weight" <;> simp
  case refine_2 =>
    simp only [mushroomAttrs, get_putString, get_putFloat64, GoMap.get_nil]
    cases bag.string "origin" <;> simp
  case refine_3 =>
    simp only [mushroomAttrs, get_putString, get_putFloat64, GoMap.get_nil]
    cases bag.string "freshness" <;> simp
  case refine_4 =>
    simp only [mushroomAttrs, get_putString, get_putFloat64, GoMap.get_nil]
    cases bag.string "package_type" <;> simp
  case refine_5 =>
    intro k hk
    simp only [List.mem_cons, List.mem_singleton, List.not_mem_nil, or_false, not_or] at hk
    simp [mushroomAttrs, get_putString, get_putFloat64, GoMap.get_nil, Ne.symm hk.1,
      Ne.symm hk.2.1, Ne.symm hk.2.2.1, Ne.symm hk.2.2.2]
  case refine_6 =>
    simp only [mushroomAttrs, len_putString, len_putFloat64]
    simp only [GoMap.len, List.length_nil, and_true]
    tauto
  case refine_7 => simp [updateAttributes]
  case refine_8 =>
    simp only [vegetableAttrs, get_putString, get_putFloat64, GoMap.get_nil]
    cases bag.float64 "weight" <;> simp
  case refine_9 =>
    simp only [vegetableAttrs, get_putString, get_putFloat64, GoMap.get_nil]
    cases bag.string "origin" <;> simp
  case refine_10 =>
    simp only [vegetableAttrs, get_putString, get_putFloat64, GoMap.get_nil]
    cases bag.string "freshness" <;> simp
  case refine_11 =>
    simp only [vegetableAttrs, get_putString, get_putFloat64, GoMap.get_nil]
    cases bag.string "package_type" <;> simp
  case refine_12 =>
    intro k hk
    simp only [List.mem_cons, List.mem_singleton, List.not_mem_nil, or_false, not_or] at hk
    simp [vegetableAttrs, get_putString, get_putFloat64, GoMap.get_nil, Ne.symm hk.1,
      Ne.symm hk.2.1, Ne.symm hk.2.2.1, Ne.symm hk.2.2.2]
  case refine_13 =>
    simp only [vegetableAttrs, len_putString, len_putFloat64]
    simp only [GoMap.len, List.length_nil, and_true]
    tauto
  case refine_14 => simp [updateAttributes]
  case refine_15 =>
    simp only [bonsaiAttrs, get_putString, get_putInt, GoMap.get_nil]
    cases bag.int "age" <;> simp
  case refine_16 =>
    simp only [bonsaiAttrs, get_putString, get_putInt, GoMap.get_nil]
    cases bag.int "height" <;> simp
  case refine_17 =>
    simp only [bonsaiAttrs, get_putString, get_putInt, GoMap.get_nil]
    cases bag.string "style" <;> simp
  case refine_18 =>
    simp only [bonsaiAttrs, get_putString, get_putInt, GoMap.get_nil]
    cases bag.string "species" <;> simp
  case refine_19 =>
    simp only [bonsaiAttrs, get_putString, get_putInt, GoMap.get_nil]
    cases bag.string "pot_type" <;> simp
  case refine_20 =>
    intro k hk
    simp only [List.mem_cons, List.mem_singleton, List.not_mem_nil, or_false, not_or] at hk
    simp [bonsaiAttrs, get_putString, get_putInt, GoMap.get_nil, Ne.symm hk.1,
      Ne.symm hk.2.1, Ne.symm hk.2.2.1, Ne.symm hk.2.2.2.1, Ne.symm hk.2.2.2.2]
  case refine_21 =>
    simp only [bonsaiAttrs, len_putString, len_putInt]
    simp only [GoMap.len, List.length_nil, and_true]
    tauto
  case refine_22 => simp [updateAttributes]

/-- C13. For every attribute bag, the variant record that `CreateProduct` builds
for each of the three types takes each field from the bag's value under the
field's name when that value has the expected dynamic type (float64 for weight,
string for origin, freshness, package_type, style, species and pot_type, int
for age and height) and leaves it at the zero value when the key is absent or
holds a value of another type; two bags that agree on the expected keys give
the same record, so other keys are ignored; and the extraction cannot fail: for
each of the three tags the switch issues the variant write with that record,
whatever the bag. -/
theorem createVariant_extraction (productID userId : String) (bag : GoMap) :
    ((mushroom productID userId bag).ID = productID ∧
      (mushroom productID userId bag).ProductShop = userId ∧
      (mushroom productID userId bag).Weight =
        (match bag.get "weight" with | some (.float64 x) => x | _ => Float64.zero) ∧
      (mushroom productID userId bag).Origin =
        (match bag.get "origin" with | some (.string x) => x | _ => "") ∧
      (mushroom productID userId bag).Freshness =
        (match bag.get "freshness" with | some (.string x) => x | _ => "") ∧
      (mushroom productID userId bag).PackageType =
        (match bag.get "package_type" with | some (.string x) => x | _ => "")) ∧
    ((vegetable productID userId bag).ID = productID ∧
      (vegetable productID userId bag).ProductShop = userId ∧
      (vegetable productID userId bag).Weight =
        (match bag.get "weight" with | some (.float64 x) => x | _ => Float64.zero) ∧
      (vegetable productID userId bag).Origin =
        (match bag.get "origin" with | some (.string x) => x | _ => "") ∧
      (vegetable productID userId bag).Freshness =
        (match bag.get "freshness" with | some (.string x) => x | _ => "") ∧
      (vegetable productID userId bag).PackageType =
        (match bag.get "package_type" with | some (.string x) => x | _ => "")) ∧
    ((bonsai productID userId bag).ID = productID ∧
      (bonsai productID userId bag).ProductShop = userId ∧
      (bonsai productID userId bag).Age =
        (match bag.get "age" with | some (.int x) => x | _ => 0) ∧
      (bonsai productID userId bag).Height =
        (match bag.get "height" with | some (.int x) => x | _ => 0) ∧
      (bonsai productID userId bag).Style =
        (match bag.get "style" with | some (.string x) => x | _ => "") ∧
      (bonsai productID userId bag).Species =
        (match bag.get "species" with | some (.string x) => x | _ => "") ∧
      (bonsai productID userId bag).PotType =
        (match bag.get "pot_type" with | some (.string x) => x | _ => "")) ∧
    (∀ bag' : GoMap,
      ((∀ k ∈ ["weight", "origin", "freshness", "package_type"], bag'.get k = bag.get k) →
        mushroom productID userId bag' = mushroom productID userId bag ∧
        vegetable productID userId bag' = vegetable productID userId bag) ∧
      ((∀ k ∈ ["age", "height", "style", "species", "pot_type"], bag'.get k = bag.get k) →
        bonsai productID userId bag' = bonsai productID userId bag)) ∧
    (∀ s : Store,
      createVariant "Mushroom" productID userId bag s =
        some (productRepository.CreateMushroom (mushroom productID userId bag) s) ∧
      createVariant "Vegetable" productID userId bag s =
        some (productRepository.CreateVegetable (vegetable productID userId bag) s) ∧
      createVariant "Bonsai" productID userId bag s =
        some (productRepository.CreateBonsai (bonsai productID userId bag) s)) := by
  refine ⟨⟨rfl, rfl, ?_, ?_, ?_, ?_⟩, ⟨rfl, rfl, ?_, ?_, ?_, ?_⟩,
    ⟨rfl, rfl, ?_, ?_, ?_, ?_, ?_⟩, ?_, ?_⟩
  case refine_1 => simp only [mushroom, GoMap.float64]; split <;> rfl
  case refine_2 => simp only [mushroom, GoMap.string]; split <;> rfl
  case refine_3 => simp only [mushroom, GoMap.string]; split <;> rfl
  case refine_4 => simp only [mushroom, GoMap.string]; split <;> rfl
  case refine_5 => simp only [vegetable, GoMap.float64]; split <;> rfl
  case refine_6 => simp only [vegetable, GoMap.string]; split <;> rfl
  case refine_7 => simp only [vegetable, GoMap.string]; split <;> rfl
  case refine_8 => simp only [vegetable, GoMap.string]; split <;> rfl
  case refine_9 => simp only [bonsai, GoMap.int]; split <;> rfl
  case refine_10 => simp only [bonsai, GoMap.int]; split <;> rfl
  case refine_11 => simp only [bonsai, GoMap.string]; split <;> rfl
  case refine_12 => simp only [bonsai, GoMap.string]; split <;> rfl
  case refine_13 => simp only [bonsai, GoMap.string]; split <;> rfl
  case refine_14 =>
    intro bag'
    refine ⟨fun h => ?_, fun h => ?_⟩
    · have h₁ := h "weight" (by simp)
      have h₂ := h "origin" (by simp)
      have h₃ := h "freshness" (by simp)
      have h₄ := h "package_type" (by simp)
      simp only [mushroom, vegetable, GoMap.float64, GoMap.string, h₁, h₂, h₃, h₄, and_self]
    · have h₁ := h "age" (by simp)
      have h₂ := h "height" (by simp)
      have h₃ := h "style" (by simp)
      have h₄ := h "species" (by simp)
      have h₅ := h "pot_type" (by simp)
      simp only [bonsai, GoMap.int, GoMap.string, h₁, h₂, h₃, h₄, h₅]
  case refine_15 =>
    intro s
    exact ⟨by simp [createVariant], by simp [createVariant], by simp [createVariant]⟩

/-- Witness of C13: the bag of the spec's example, with a key that no variant
expects added to it, gives the Mushroom record with weight 2.5 and origin
"Dalat" and the other fields at their zero value. -/
theorem createVariant_extraction_witness :
    mushroom "id1" "shopA"
        (("colour", .string "brown") :: sample.shiitake.ProductAttributes) =
      { ID := "id1", ProductShop := "shopA", Weight := .num (5 / 2), Origin := "Dalat",
        Freshness := "", PackageType := "" } :=
  ((createVariant_extraction "id1" "shopA" sample.shiitake.ProductAttributes).2.2.2.1
    (("colour", .string "brown") :: sample.shiitake.ProductAttributes)).1
    (by
      intro k hk
      simp only [List.mem_cons, List.mem_singleton, List.not_mem_nil, or_false] at hk
      rcases hk with rfl | rfl | rfl | rfl <;> rfl) |>.1

end productService

/-! ## Description markup -/

namespace strings

theorem Split_ne_nil (sep : Char) (cs : List Char) : Split sep cs ≠ [] := by
  cases cs with
  | nil => simp [Split]
  | cons c cs =>
    unfold Split
    split
    · simp
    · split <;> simp

theorem not_mem_of_mem_Split (sep : Char) (cs : List Char) :
    ∀ l ∈ Split sep cs, sep ∉ l := by
  induction cs with
  | nil => simp [Split]
  | cons c cs ih =>
    intro l hl
    unfold Split at hl
    split at hl
    · simp only [List.mem_cons] at hl
      rcases hl with rfl | hl
      · simp
      · exact ih l hl
    · rename_i hc
      split at hl
      · simp only [List.mem_singleton] at hl
        subst hl
        simpa using Ne.symm hc
      · rename_i l₀ ls heq
        simp only [List.mem_cons] at hl
        rcases hl with rfl | hl
        · have h₀ := ih l₀ (by rw [heq]; simp)
          simp only [List.mem_cons, not_or]
          exact ⟨Ne.symm hc, h₀⟩
        · exact ih l (by rw [heq]; simp [hl])

theorem Split_of_not_mem (sep : Char) (cs : List Char) (h : sep ∉ cs) : Split sep cs = [cs] := by
  induction cs with
  | nil => rfl
  | cons c cs ih =>
    simp only [List.mem_cons, not_or] at h
    unfold Split
    rw [if_neg (Ne.symm h.1), ih h.2]

theorem mem_of_mem_TrimSpace (cs : List Char) (c : Char) (h : c ∈ TrimSpace cs) : c ∈ cs := by
  unfold TrimSpace at h
  have h₁ : c ∈ cs.dropWhile IsSpace := (List.rdropWhile_prefix _ _).subset h
  exact (List.dropWhile_suffix _).subset h₁

theorem TrimSpace_of_ends (c₁ c₂ : Char) (pre suf : List Char)
    (h₁ : IsSpace c₁ = false) (h₂ : IsSpace c₂ = false) (h : c₁ :: suf = pre ++ [c₂]) :
    TrimSpace (c₁ :: suf) = c₁ :: suf := by
  unfold TrimSpace
  rw [List.dropWhile_cons_of_neg (by simp [h₁]), h]
  exact List.rdropWhile_concat_neg _ _ _ (by simp [h₂])

end strings

theorem htmlLines_foldl (acc : List Char) (lines : List (List Char)) :
    lines.foldl
        (fun htmlContent line =>
          let line := strings.TrimSpace line
          if line ≠ [] then htmlContent ++ ("<p>".data ++ line ++ "</p>".data) else htmlContent)
        acc =
      acc ++ ((((lines.map strings.TrimSpace).filter (fun line => line ≠ [])).map
        (fun line => "<p>".data ++ line ++ "</p>".data)).flatten) := by
  induction lines generalizing acc with
  | nil => simp
  | cons l ls ih =>
    simp only [List.foldl_cons, List.map_cons]
    rw [ih]
    by_cases h : strings.TrimSpace l = []
    · simp [h]
    · simp [h]

/-- The loop of the code computes the transform that the spec describes. -/
theorem htmlContent_eq_paragraphs (d : String) : htmlContent d = paragraphs d := by
  unfold htmlContent paragraphs htmlLines
  rw [htmlLines_foldl]
  simp

/-- C14. For every non-empty description `d`, the description of the product that
`CreateProduct` hands to the Store, the description column of the row written
from it, and the `product_description` value of the main patch of
`UpdateProduct` are all the same transform of `d`, the one the spec describes:
split on line breaks, trim each line, drop the lines that are then empty, wrap
each remaining line as `<p>line</p>`, concatenate in the original order. -/
theorem description_transform (input : ProductInput) (productID userId : String)
    (now₁ now₂ now : Nat) (hd : input.ProductDescription ≠ "") :
    (productService.product input productID userId now₁ now₂).ProductDescription =
      paragraphs input.ProductDescription ∧
    (productRepository.productParams
      (productService.product input productID userId now₁ now₂)).row.ProductDescription.String =
      paragraphs input.ProductDescription ∧
    (productService.updateData input now).get "product_description" =
      some (.string (paragraphs input.ProductDescription)) := by
  have h₁ : (productService.product input productID userId now₁ now₂).ProductDescription =
      paragraphs input.ProductDescription := by
    simp only [productService.product, if_pos hd, htmlContent_eq_paragraphs]
  refine ⟨h₁, ?_, ?_⟩
  · simp only [productRepository.productParams, database.CreateProductParams.row,
      NullString.column, h₁]
    by_cases hp : paragraphs input.ProductDescription = "" <;> simp [hp]
  · simp [productService.updateData, productService.get_putIf, GoMap.get_set, GoMap.get_nil,
      hd, htmlContent_eq_paragraphs]

/-- Witness of C14: a description with a padded line and blank lines. -/
theorem description_transform_witness :
    (productService.product sample.described "id1" "shopA" 1 2).ProductDescription =
      "<p>Fresh</p><p>from Dalat</p>" ∧
    (productService.updateData sample.described 9).get "product_description" =
      some (.string "<p>Fresh</p><p>from Dalat</p>") := by
  have h := description_transform sample.described "id1" "shopA" 1 2 9 (by decide)
  have hp : paragraphs sample.described.ProductDescription = "<p>Fresh</p><p>from Dalat</p>" := by
    decide
  rw [hp] at h
  exact ⟨h.1, h.2.2⟩

theorem htmlLines_eq (lines : List (List Char)) :
    htmlLines lines =
      ((((lines.map strings.TrimSpace).filter (fun line => line ≠ [])).map
        (fun line => "<p>".data ++ line ++ "</p>".data)).flatten) := by
  unfold htmlLines
  rw [htmlLines_foldl]
  simp

/-- The markup of a text without line breaks that starts and ends with a
character that is not white space is that text in one paragraph. -/
theorem htmlLines_single (n : List Char) (hn : n ≠ [])
    (hline : '\n' ∉ n) (htrim : strings.TrimSpace n = n) :
    htmlLines (strings.Split '\n' n) = "<p>".data ++ n ++ "</p>".data := by
  rw [strings.Split_of_not_mem _ _ hline, htmlLines_eq]
  simp [htrim, hn]

/-- A non-empty markup has no line break, starts with `<` and ends with `>`. -/
theorem htmlLines_shape (cs : List Char) (h : htmlLines (strings.Split '\n' cs) ≠ []) :
    '\n' ∉ htmlLines (strings.Split '\n' cs) ∧
    (∃ t, htmlLines (strings.Split '\n' cs) = '<' :: t) ∧
    (∃ i, htmlLines (strings.Split '\n' cs) = i ++ ['>']) := by
  rw [htmlLines_eq] at h ⊢
  generalize hL : ((strings.Split '\n' cs).map strings.TrimSpace).filter (fun line => line ≠ []) = L
    at h ⊢
  have hmem : ∀ l ∈ L, '\n' ∉ l := by
    intro l hl
    rw [← hL] at hl
    obtain ⟨hl₁, -⟩ := List.mem_filter.mp hl
    obtain ⟨l₀, hl₀, rfl⟩ := List.mem_map.mp hl₁
    intro hc
    exact strings.not_mem_of_mem_Split '\n' cs l₀ hl₀ (strings.mem_of_mem_TrimSpace _ _ hc)
  refine ⟨?_, ?_, ?_⟩
  · intro hc
    obtain ⟨w, hw, hcw⟩ := List.mem_flatten.mp hc
    obtain ⟨l, hl, rfl⟩ := List.mem_map.mp hw
    simp only [List.mem_append] at hcw
    rcases hcw with (hcw | hcw) | hcw
    · revert hcw; decide
    · exact hmem l hl hcw
    · revert hcw; decide
  · cases L with
    | nil => simp at h
    | cons l ls => exact ⟨_, rfl⟩
  · rcases List.eq_nil_or_concat L with rfl | ⟨init, lz, rfl⟩
    · simp at h
    · refine ⟨(init.map (fun line => "<p>".data ++ line ++ "</p>".data)).flatten ++
        ("<p>".data ++ lz ++ ['<', '/', 'p']), ?_⟩
      simp

/-- C15. Description normalisation is not idempotent: for every description
whose normalised form `n` is not empty, normalising `n` again gives
`"<p>" ++ n ++ "</p>"`, the whole wrapped text wrapped once more as a single
paragraph, and that differs from `n`. -/
theorem htmlContent_not_idempotent (d : String) (h : htmlContent d ≠ "") :
    htmlContent (htmlContent d) = "<p>" ++ htmlContent d ++ "</p>" ∧
    htmlContent (htmlContent d) ≠ htmlContent d := by
  have hn : htmlLines (strings.Split '\n' d.data) ≠ [] := by
    intro hc
    apply h
    unfold htmlContent
    rw [hc]
  obtain ⟨hline, ⟨t, ht⟩, ⟨i, hi⟩⟩ := htmlLines_shape d.data hn
  have htrim : strings.TrimSpace (htmlLines (strings.Split '\n' d.data)) =
      htmlLines (strings.Split '\n' d.data) := by
    rw [ht]
    exact strings.TrimSpace_of_ends '<' '>' i t (by decide) (by decide) (by rw [← ht, hi])
  have hdata : (htmlContent d).data = htmlLines (strings.Split '\n' d.data) := rfl
  have hwrap : htmlContent (htmlContent d) = "<p>" ++ htmlContent d ++ "</p>" := by
    apply String.ext
    rw [String.data_append, String.data_append, hdata]
    show htmlLines (strings.Split '\n' (htmlContent d).data) = _
    rw [hdata, htmlLines_single _ hn hline htrim]
  refine ⟨hwrap, ?_⟩
  rw [hwrap]
  intro hc
  have hlen := congrArg String.length hc
  simp only [String.length_append] at hlen
  have h₁ : "<p>".length = 3 := by decide
  have h₂ : "</p>".length = 4 := by decide
  omega

/-- Witness of C15: normalising the markup of "a" wraps it whole once more. -/
theorem htmlContent_not_idempotent_witness :
    htmlContent (htmlContent "a") = "<p>" ++ htmlContent "a" ++ "</p>" ∧
    htmlContent (htmlContent "a") ≠ htmlContent "a" :=
  htmlContent_not_idempotent "a" (by decide)

/-! ## Listing -/

theorem int32_of_range (n : Int) (h₀ : 0 ≤ n) (h₁ : n < 2 ^ 31) : int32 n = n := by
  unfold int32
  norm_num at h₁ ⊢
  omega

theorem int64_of_range (n : Int) (h₀ : 0 ≤ n) (h₁ : n < 2 ^ 63) : int64 n = n := by
  unfold int64
  norm_num at h₁ ⊢
  omega

theorem int32_int64 (n : Int) : int32 (int64 n) = int32 n := by
  unfold int32 int64
  norm_num
  omega

namespace database

theorem query_fail {α : Type} (q : Query) (answer : Except Error α) (s : Store) (cause : String)
    (h : s.readFault s.queries.length = some cause) :
    query q answer s = (.error (.StoreError cause), s.ask q) := by
  simp [query, h]

theorem query_ok {α : Type} (q : Query) (answer : Except Error α) (s : Store)
    (h : s.readFault s.queries.length = none) :
    query q answer s = (answer, s.ask q) := by
  simp [query, h]

theorem query_store {α : Type} (q : Query) (answer : Except Error α) (s : Store) :
    (query q answer s).2 = s.ask q := by
  unfold query
  cases s.readFault s.queries.length <;> rfl

end database

theorem pagedListing_queries (params : ProductQueryParams) (countQ listQ : Query) (count : Int)
    (rows : Except Error (List database.Product)) (s : Store) :
    (pagedListing params countQ listQ count rows s).2.queries = s.queries ++ [countQ] ∨
    (pagedListing params countQ listQ count rows s).2.queries = s.queries ++ [countQ, listQ] := by
  unfold pagedListing
  cases s.readFault s.queries.length with
  | some cause => left; rfl
  | none =>
    right
    cases s.readFault (s.queries.length + 1) with
    | some cause => simp [Store.ask]
    | none => cases rows <;> simp [Store.ask]

theorem pagedListing_ok (params : ProductQueryParams) (countQ listQ : Query) (count : Int)
    (rows : Except Error (List database.Product)) (s : Store) (resp : ProductResponse)
    (h : (pagedListing params countQ listQ count rows s).1 = .ok resp) :
    ∃ dbProducts, rows = .ok dbProducts ∧
      resp = productRepository.response params count
        (dbProducts.map productRepository.convertDbProductToModel) ∧
      (pagedListing params countQ listQ count rows s).2.queries =
        s.queries ++ [countQ, listQ] := by
  unfold pagedListing at h ⊢
  cases h₁ : s.readFault s.queries.length with
  | some cause => simp [h₁] at h
  | none =>
    cases h₂ : s.readFault (s.queries.length + 1) with
    | some cause => simp [h₁, h₂] at h
    | none =>
      cases rows with
      | error err => simp [h₁, h₂] at h
      | ok dbProducts =>
        simp only [h₁, h₂, Except.ok.injEq] at h
        exact ⟨dbProducts, rfl, h.symm, by simp [Store.ask]⟩

namespace productRepository

theorem setDefaultPagination_fields (params : ProductQueryParams) :
    (setDefaultPagination params).Page = (if params.Page < 1 then 1 else params.Page) ∧
    (setDefaultPagination params).Limit = (if params.Limit < 1 then 10 else params.Limit) ∧
    (setDefaultPagination params).ProductType = params.ProductType ∧
    (setDefaultPagination params).Keyword = params.Keyword := by
  simp only [setDefaultPagination]
  split_ifs <;> exact ⟨rfl, rfl, rfl, rfl⟩

theorem count_then_list (params : ProductQueryParams) (countQ listQ : Query) (count : Int)
    (rowsOf : Store → Except Error (List database.Product)) (s : Store) :
    (match database.query countQ (.ok count) s with
      | (.error err, s₁) => (.error err, s₁)
      | (.ok count, s₁) =>
        match database.query listQ (rowsOf s₁) s₁ with
        | (.error err, s₂) => (.error err, s₂)
        | (.ok dbProducts, s₂) =>
          (.ok (response params count (dbProducts.map convertDbProductToModel)), s₂)) =
      pagedListing params countQ listQ count (rowsOf (s.ask countQ)) s := by
  unfold pagedListing
  cases hf₁ : s.readFault s.queries.length with
  | some cause => simp [database.query, hf₁]
  | none =>
    have hl : (s.ask countQ).readFault (s.ask countQ).queries.length =
        s.readFault (s.queries.length + 1) := by simp [Store.ask]
    cases hf₂ : s.readFault (s.queries.length + 1) with
    | some cause =>
      rw [hf₂] at hl
      simp [database.query, hf₁, hl]
    | none =>
      rw [hf₂] at hl
      simp only [database.query, hf₁, hl]
      cases rowsOf (s.ask countQ) <;> rfl

theorem FindAllProducts_run (params : ProductQueryParams) (s : Store) :
    FindAllProducts params s =
      pagedListing (setDefaultPagination params)
        (Filter.choose params.ProductType params.Keyword).countQuery
        ((Filter.choose params.ProductType params.Keyword).listQuery
          (int32 (setDefaultPagination params).Limit)
          (int32 (((setDefaultPagination params).Page - 1) * (setDefaultPagination params).Limit)))
        ((s.products.filter
          (Filter.choose params.ProductType params.Keyword).selects).length : Int)
        (database.page (int32 (setDefaultPagination params).Limit)
          (int32 (((setDefaultPagination params).Page - 1) * (setDefaultPagination params).Limit))
          (s.products.filter (Filter.choose params.ProductType params.Keyword).selects))
        (s.record (.FindAllProducts params)) := by
  have hT := (setDefaultPagination_fields params).2.2.1
  have hK := (setDefaultPagination_fields params).2.2.2
  unfold FindAllProducts
  simp only [hT, hK, int32_int64]
  by_cases h₁ : params.ProductType = ""
  · by_cases h₂ : params.Keyword = ""
    · simp only [h₁, h₂, Filter.choose, ne_eq, not_true_eq_false, if_false,
        Filter.countQuery, Filter.listQuery, Filter.selects,
        database.CountAllPublishedProducts, database.ListAllPublishedProducts]
      exact count_then_list _ _ _ _
        (fun s₁ => database.page (int32 (setDefaultPagination params).Limit)
          (int32 (((setDefaultPagination params).Page - 1) * (setDefaultPagination params).Limit))
          (s₁.products.filter (fun r => r.IsPublished))) _
    · simp only [h₁, h₂, Filter.choose, ne_eq, not_true_eq_false, not_false_eq_true, if_false,
        if_true, Filter.countQuery, Filter.listQuery, Filter.selects,
        database.CountSearchProductsByName, database.SearchProductsByName]
      exact count_then_list _ _ _ _
        (fun s₁ => database.page (int32 (setDefaultPagination params).Limit)
          (int32 (((setDefaultPagination params).Page - 1) * (setDefaultPagination params).Limit))
          (s₁.products.filter
            (fun r => database.like ("%" ++ params.Keyword ++ "%") r.ProductName))) _
  · simp only [h₁, Filter.choose, ne_eq, not_false_eq_true, if_true,
      Filter.countQuery, Filter.listQuery, Filter.selects,
      database.CountProductsByType, database.ListProductsByType]
    exact count_then_list _ _ _ _
      (fun s₁ => database.page (int32 (setDefaultPagination params).Limit)
        (int32 (((setDefaultPagination params).Page - 1) * (setDefaultPagination params).Limit))
        (s₁.products.filter (fun r => r.ProductType == params.ProductType))) _

theorem FindProductsByDiscount_run (params : ProductQueryParams) (s : Store) :
    FindProductsByDiscount params s =
      pagedListing (setDefaultPagination params) .CountAllPublishedProducts
        (.ListProductsByDiscount
          { Limit := int32 (setDefaultPagination params).Limit,
            Offset := int32
              (((setDefaultPagination params).Page - 1) * (setDefaultPagination params).Limit) })
        ((s.products.filter (fun r => r.IsPublished)).length : Int)
        (database.page (int32 (setDefaultPagination params).Limit)
          (int32 (((setDefaultPagination params).Page - 1) * (setDefaultPagination params).Limit))
          ((s.products.filter (fun r => r.IsPublished)).insertionSort
            (fun a b => database.discountKey b ≤ database.discountKey a)))
        (s.record (.FindProductsByDiscount params)) := by
  unfold FindProductsByDiscount
  simp only [int32_int64, database.CountAllPublishedProducts, database.ListProductsByDiscount]
  exact count_then_list _ _ _ _
    (fun s₁ => database.page (int32 (setDefaultPagination params).Limit)
      (int32 (((setDefaultPagination params).Page - 1) * (setDefaultPagination params).Limit))
      ((s₁.products.filter (fun r => r.IsPublished)).insertionSort
        (fun a b => database.discountKey b ≤ database.discountKey a))) _

theorem FindProductsBySelled_run (params : ProductQueryParams) (s : Store) :
    FindProductsBySelled params s =
      pagedListing (setDefaultPagination params) .CountAllPublishedProducts
        (.ListProductsBySelled
          { Limit := int32 (setDefaultPagination params).Limit,
            Offset := int32
              (((setDefaultPagination params).Page - 1) * (setDefaultPagination params).Limit) })
        ((s.products.filter (fun r => r.IsPublished)).length : Int)
        (database.page (int32 (setDefaultPagination params).Limit)
          (int32 (((setDefaultPagination params).Page - 1) * (setDefaultPagination params).Limit))
          ((s.products.filter (fun r => r.IsPublished)).insertionSort
            (fun a b => b.ProductSelled ≤ a.ProductSelled)))
        (s.record (.FindProductsBySelled params)) := by
  unfold FindProductsBySelled
  simp only [int32_int64, database.CountAllPublishedProducts, database.ListProductsBySelled]
  exact count_then_list _ _ _ _
    (fun s₁ => database.page (int32 (setDefaultPagination params).Limit)
      (int32 (((setDefaultPagination params).Page - 1) * (setDefaultPagination params).Limit))
      ((s₁.products.filter (fun r => r.IsPublished)).insertionSort
        (fun a b => b.ProductSelled ≤ a.ProductSelled))) _

end productRepository

namespace database

theorem likeTokens_lit (c : Char) (cs : List Char) (h₁ : c ≠ '%') (h₂ : c ≠ '_')
    (h₃ : c ≠ '\\') : likeTokens (c :: cs) = LikeToken.lit c :: likeTokens cs := by
  rw [likeTokens.eq_def]
  simp only [h₁, h₂, h₃, if_false]

theorem likeTokens_any (cs : List Char) :
    likeTokens ('%' :: cs) = LikeToken.any :: likeTokens cs := by
  rw [likeTokens.eq_def]
  simp only [if_true]

theorem likeTokens_plain (keyword rest : List Char)
    (h : ∀ c ∈ keyword, c ≠ '%' ∧ c ≠ '_' ∧ c ≠ '\\') :
    likeTokens (keyword ++ rest) = keyword.map LikeToken.lit ++ likeTokens rest := by
  induction keyword with
  | nil => rfl
  | cons c cs ih =>
    have hc := h c (by simp)
    have ih' := ih (fun d hd => h d (by simp [hd]))
    simp only [List.cons_append, List.map_cons]
    rw [likeTokens_lit c _ hc.1 hc.2.1 hc.2.2, ih']

theorem prefix_of_likeMatch (keyword text : List Char)
    (h : likeMatch (keyword.map LikeToken.lit ++ [LikeToken.any]) text = true) :
    keyword.map caseFold <+: text.map caseFold := by
  induction keyword generalizing text with
  | nil => simp
  | cons c cs ih =>
    cases text with
    | nil => simp [likeMatch] at h
    | cons d ds =>
      simp only [List.map_cons, List.cons_append, likeMatch, Bool.and_eq_true,
        beq_iff_eq] at h
      simp only [List.map_cons]
      rw [h.1]
      exact (List.prefix_cons_inj _).mpr (ih ds h.2)

/-- A name that matches the pattern `%keyword%`, for a keyword without the
characters `%`, `_` and backslash, contains the keyword up to case. -/
theorem containsFold_of_like (keyword name : String)
    (h : ∀ c ∈ keyword.data, c ≠ '%' ∧ c ≠ '_' ∧ c ≠ '\\')
    (hl : like ("%" ++ keyword ++ "%") name = true) : containsFold name keyword := by
  unfold like at hl
  have hd : ("%" ++ keyword ++ "%").data = '%' :: (keyword.data ++ ['%']) := by
    simp [String.data_append]
  have ht : likeTokens ['%'] = [LikeToken.any] := by decide
  rw [hd, likeTokens_any, likeTokens_plain _ _ h, ht] at hl
  simp only [likeMatch, List.any_eq_true] at hl
  obtain ⟨u, hu, hm⟩ := hl
  have hp := prefix_of_likeMatch _ _ hm
  have hs : u.map caseFold <:+ name.data.map caseFold := ((List.mem_tails _ _).mp hu).map _
  exact List.infix_iff_prefix_suffix.mpr ⟨_, hp, hs⟩

end database

theorem pagedListing_answered (params : ProductQueryParams) (countQ listQ : Query) (count : Int)
    (rows : Except Error (List database.Product)) (s : Store)
    (h : s.readFault s.queries.length = none) :
    (pagedListing params countQ listQ count rows s).2.queries = s.queries ++ [countQ, listQ] := by
  unfold pagedListing
  rw [h]
  cases s.readFault (s.queries.length + 1) with
  | some cause => simp [Store.ask]
  | none => cases rows <;> simp [Store.ask]

namespace productRepository

theorem setDefaultPagination_Page (params : ProductQueryParams) :
    (setDefaultPagination params).Page = effectivePage params.Page :=
  (setDefaultPagination_fields params).1

theorem setDefaultPagination_Limit (params : ProductQueryParams) :
    (setDefaultPagination params).Limit = effectiveLimit params.Limit :=
  (setDefaultPagination_fields params).2.1

end productRepository

namespace productService

/-! ## Filter paths -/

/-- C18. For every query parameters and every Store, `FindAllProducts` runs the
one filter path chosen by the precedence of the spec: by product type when
`ProductType` is not empty, whatever the keyword; otherwise by keyword, with the
pattern `"%" ++ Keyword ++ "%"`, when `Keyword` is not empty; otherwise all
published products. The queries it adds are the count query of that path and
then the list query of the same path (the list query is left out only when the
count query fails, and it is there whenever the count query is answered), with
`limit` and `offset` the narrowed effective limit and offset. When the call
returns a response, `Total` is the number of rows that the path selects and
`Data` is the conversion of the page of those same rows. The call returns a
response when both queries are answered and limit and offset are not
negative. -/
theorem FindAllProducts_one_path (params : ProductQueryParams) (s : Store) (limit offset : Int)
    (hl : limit = int32 (effectiveLimit params.Limit))
    (ho : offset = int32 ((effectivePage params.Page - 1) * effectiveLimit params.Limit)) :
    (params.ProductType ≠ "" →
      Filter.choose params.ProductType params.Keyword = .byType params.ProductType) ∧
    (params.ProductType = "" → params.Keyword ≠ "" →
      Filter.choose params.ProductType params.Keyword = .byKeyword params.Keyword) ∧
    (params.ProductType = "" → params.Keyword = "" →
      Filter.choose params.ProductType params.Keyword = .allPublished) ∧
    (Filter.byKeyword params.Keyword).countQuery =
      .CountSearchProductsByName ("%" ++ params.Keyword ++ "%") ∧
    ((FindAllProducts params s).2.queries =
        s.queries ++ [(Filter.choose params.ProductType params.Keyword).countQuery] ∨
      (FindAllProducts params s).2.queries =
        s.queries ++ [(Filter.choose params.ProductType params.Keyword).countQuery,
          (Filter.choose params.ProductType params.Keyword).listQuery limit offset]) ∧
    (s.readFault s.queries.length = none →
      (FindAllProducts params s).2.queries =
        s.queries ++ [(Filter.choose params.ProductType params.Keyword).countQuery,
          (Filter.choose params.ProductType params.Keyword).listQuery limit offset]) ∧
    (∀ resp, (FindAllProducts params s).1 = .ok resp →
      (FindAllProducts params s).2.queries =
        s.queries ++ [(Filter.choose params.ProductType params.Keyword).countQuery,
          (Filter.choose params.ProductType params.Keyword).listQuery limit offset] ∧
      resp.Total =
        (s.products.filter (Filter.choose params.ProductType params.Keyword).selects).length ∧
      ∃ rows, database.page limit offset
          (s.products.filter (Filter.choose params.ProductType params.Keyword).selects) =
            .ok rows ∧
        resp.Data = rows.map productRepository.convertDbProductToModel) ∧
    (s.readFault s.queries.length = none → s.readFault (s.queries.length + 1) = none →
      0 ≤ limit → 0 ≤ offset → ∃ resp, (FindAllProducts params s).1 = .ok resp) := by
  refine ⟨fun h => by simp [Filter.choose, h], fun h₁ h₂ => by simp [Filter.choose, h₁, h₂],
    fun h₁ h₂ => by simp [Filter.choose, h₁, h₂], rfl, ?_⟩
  have hrun : FindAllProducts params s = _ := productRepository.FindAllProducts_run params s
  rw [hrun, productRepository.setDefaultPagination_Page,
    productRepository.setDefaultPagination_Limit, ← hl, ← ho]
  have hq : (s.record (.FindAllProducts params)).queries = s.queries := rfl
  have hf : (s.record (.FindAllProducts params)).readFault = s.readFault := rfl
  refine ⟨?_, ?_, ?_, ?_⟩
  · rw [← hq]
    exact pagedListing_queries _ _ _ _ _ _
  · intro h₁
    rw [← hq]
    exact pagedListing_answered _ _ _ _ _ _ h₁
  · intro resp h
    obtain ⟨rows, hrows, hresp, hqs⟩ := pagedListing_ok _ _ _ _ _ _ _ h
    rw [hq] at hqs
    refine ⟨hqs, ?_, rows, hrows, ?_⟩
    · rw [hresp]; rfl
    · rw [hresp]; rfl
  · intro h₁ h₂ h₃ h₄
    unfold pagedListing
    rw [hf, hq, h₁, h₂]
    simp only [database.page, not_or.mpr ⟨not_lt.mpr h₃, not_lt.mpr h₄⟩, if_false]
    exact ⟨_, rfl⟩

/-- Witness of C18: a query without filters on the Store with one published
product runs the all-published path, count then list, and returns a
response. -/
theorem FindAllProducts_one_path_witness :
    (FindAllProducts sample.blankQuery sample.published).2.queries =
      [.CountAllPublishedProducts, .ListAllPublishedProducts { Limit := 10, Offset := 0 }] ∧
    ∃ resp, (FindAllProducts sample.blankQuery sample.published).1 = .ok resp := by
  have h := FindAllProducts_one_path sample.blankQuery sample.published 10 0 (by decide)
    (by decide)
  exact ⟨h.2.2.2.2.2.1 rfl, h.2.2.2.2.2.2.2 rfl rfl (by decide) (by decide)⟩

/-! ## Keyword search -/

/-- C20. For every keyword and every Store, `SearchProducts` sends the Store one
query, `SearchProductsByName` with the pattern `"%" ++ keyword ++ "%"`, limit
100 and offset 0. Unless that query fails, it returns the conversion of the rows
of the Store, one product per row in the order of the rows: the first hundred
of the rows whose name matches the pattern. A returned list has at most 100
products. -/
theorem SearchProducts_cap (keyword : String) (s : Store) :
    (SearchProducts keyword s).2.queries =
      s.queries ++ [.SearchProductsByName
        { ProductName := "%" ++ keyword ++ "%", Limit := 100, Offset := 0 }] ∧
    (SearchProducts keyword s).2.log = s.log ++ [.SearchProducts keyword] ∧
    (SearchProducts keyword s).1 =
      (match s.readFault s.queries.length with
        | some cause => .error (.StoreError cause)
        | none =>
          .ok (((s.products.filter
            (fun r => database.like ("%" ++ keyword ++ "%") r.ProductName)).take 100).map
              productRepository.convertDbProductToModel)) ∧
    (∀ products, (SearchProducts keyword s).1 = .ok products → products.length ≤ 100) := by
  have hrun : (SearchProducts keyword s).1 =
      (match s.readFault s.queries.length with
        | some cause => .error (.StoreError cause)
        | none =>
          .ok (((s.products.filter
            (fun r => database.like ("%" ++ keyword ++ "%") r.ProductName)).take 100).map
              productRepository.convertDbProductToModel)) := by
    simp only [SearchProducts, productRepository.SearchProducts, database.SearchProductsByName,
      database.query, Store.record]
    cases s.readFault s.queries.length with
    | some cause => rfl
    | none => simp [database.page]
  refine ⟨?_, ?_, hrun, ?_⟩
  · simp only [SearchProducts, productRepository.SearchProducts, database.SearchProductsByName]
    split <;> simp [database.query_store, Store.ask, Store.record]
  · simp only [SearchProducts, productRepository.SearchProducts, database.SearchProductsByName]
    split <;> simp [database.query_store, Store.ask, Store.record]
  · intro products h
    rw [hrun] at h
    cases hf : s.readFault s.queries.length with
    | some cause => simp [hf] at h
    | none =>
      simp only [hf, Except.ok.injEq] at h
      rw [← h]
      simp

end productService

/-! ## Pagination -/

theorem effectivePage_pos (page : Int) : 1 ≤ effectivePage page := by
  unfold effectivePage
  split_ifs <;> omega

theorem effectiveLimit_pos (limit : Int) : 1 ≤ effectiveLimit limit := by
  unfold effectiveLimit
  split_ifs <;> omega

theorem pagedListing_page (params : ProductQueryParams) (countQ listQ : Query) (count : Int)
    (rows : Except Error (List database.Product)) (s : Store) (resp : ProductResponse)
    (h : (pagedListing params countQ listQ count rows s).1 = .ok resp) :
    resp.CurrentPage = params.Page ∧ resp.Total = count ∧
      resp.TotalPages = productRepository.totalPages count params.Limit := by
  obtain ⟨rows, -, hresp, -⟩ := pagedListing_ok _ _ _ _ _ _ _ h
  rw [hresp]
  exact ⟨rfl, rfl, rfl⟩

namespace database

theorem mem_of_page (limit offset : Int) (rows out : List Product)
    (h : page limit offset rows = .ok out) : ∀ r ∈ out, r ∈ rows := by
  unfold page at h
  split_ifs at h
  simp only [Except.ok.injEq] at h
  intro r hr
  rw [← h] at hr
  exact List.mem_of_mem_drop (List.mem_of_mem_take hr)

end database

namespace productService

/-- C16, the code at an input that the claim does not survive. Page 2147483649
of one row each has the effective page 2147483649, the effective limit 1 and so
the offset 2147483648, which is `2^31`; the repository narrows the offset with
`int32(offset)` and the offset requested from the Store is -2147483648, both
in `FindAllProducts` and in `FindAllDraftsForShop`. -/
theorem FindAllProducts_far_page :
    (FindAllProducts sample.farPage sample.store).2.queries =
      [.CountAllPublishedProducts,
        .ListAllPublishedProducts { Limit := 1, Offset := -2147483648 }] ∧
    (FindAllDraftsForShop "shopA" 2147483649 1 sample.store).2.queries =
      [.ListDraftProducts { ProductShop := "shopA", Limit := 1, Offset := -2147483648 }] ∧
    (effectivePage 2147483649 - 1) * effectiveLimit 1 = 2147483648 ∧
    sample.farPage.Page = 2147483649 ∧ sample.farPage.Limit = 1 := by
  refine ⟨by decide, by decide, by decide, rfl, rfl⟩

/-- C16, amended. The effective page is 1 when the given page is below 1 and
the given page otherwise; the effective limit is 10 when the given limit is
below 1 and the given limit otherwise. Let `limit` be the effective limit and
`offset` be (effective page - 1) * effective limit. For every page and limit,
the `CurrentPage` of a response of `FindAllProducts`, `GetProductsByDiscount`
and `GetProductsBySelled` is the effective page, and the limit and the offset
requested from the Store are `int32(limit)` and `int32(offset)`:
`FindAllDraftsForShop` and `FindAllPublishForShop` send one list query with
these two, the three paged listings send the count query and then, unless the
count query fails, the list query with these two. When `limit` and `offset` are
both below `2^31`, narrowing changes neither, and the limit and the offset
requested from the Store are `limit` and `offset` themselves. -/
theorem listing_pagination (shopID : String) (params : ProductQueryParams) (s : Store)
    (limit offset : Int) (hl : limit = effectiveLimit params.Limit)
    (ho : offset = (effectivePage params.Page - 1) * effectiveLimit params.Limit) :
    effectivePage params.Page = (if params.Page < 1 then 1 else params.Page) ∧
    effectiveLimit params.Limit = (if params.Limit < 1 then 10 else params.Limit) ∧
    (∀ resp, (FindAllProducts params s).1 = .ok resp ∨
        (GetProductsByDiscount params s).1 = .ok resp ∨
        (GetProductsBySelled params s).1 = .ok resp →
      resp.CurrentPage = effectivePage params.Page) ∧
    (FindAllDraftsForShop shopID params.Page params.Limit s).2.queries =
      s.queries ++ [.ListDraftProducts
        { ProductShop := shopID, Limit := int32 limit, Offset := int32 offset }] ∧
    (FindAllPublishForShop shopID params.Page params.Limit s).2.queries =
      s.queries ++ [.ListPublishedProducts
        { ProductShop := shopID, Limit := int32 limit, Offset := int32 offset }] ∧
    ((FindAllProducts params s).2.queries =
        s.queries ++ [(Filter.choose params.ProductType params.Keyword).countQuery] ∨
      (FindAllProducts params s).2.queries =
        s.queries ++ [(Filter.choose params.ProductType params.Keyword).countQuery,
          (Filter.choose params.ProductType params.Keyword).listQuery
            (int32 limit) (int32 offset)]) ∧
    ((GetProductsByDiscount params s).2.queries = s.queries ++ [.CountAllPublishedProducts] ∨
      (GetProductsByDiscount params s).2.queries =
        s.queries ++ [.CountAllPublishedProducts,
          .ListProductsByDiscount { Limit := int32 limit, Offset := int32 offset }]) ∧
    ((GetProductsBySelled params s).2.queries = s.queries ++ [.CountAllPublishedProducts] ∨
      (GetProductsBySelled params s).2.queries =
        s.queries ++ [.CountAllPublishedProducts,
          .ListProductsBySelled { Limit := int32 limit, Offset := int32 offset }]) ∧
    (limit < 2 ^ 31 → offset < 2 ^ 31 →
      int32 limit = limit ∧ int32 offset = offset ∧
      (FindAllDraftsForShop shopID params.Page params.Limit s).2.queries =
        s.queries ++ [.ListDraftProducts
          { ProductShop := shopID, Limit := limit, Offset := offset }] ∧
      (FindAllPublishForShop shopID params.Page params.Limit s).2.queries =
        s.queries ++ [.ListPublishedProducts
          { ProductShop := shopID, Limit := limit, Offset := offset }] ∧
      ((FindAllProducts params s).2.queries =
          s.queries ++ [(Filter.choose params.ProductType params.Keyword).countQuery] ∨
        (FindAllProducts params s).2.queries =
          s.queries ++ [(Filter.choose params.ProductType params.Keyword).countQuery,
            (Filter.choose params.ProductType params.Keyword).listQuery limit offset]) ∧
      ((GetProductsByDiscount params s).2.queries =
          s.queries ++ [.CountAllPublishedProducts] ∨
        (GetProductsByDiscount params s).2.queries =
          s.queries ++ [.CountAllPublishedProducts,
            .ListProductsByDiscount { Limit := limit, Offset := offset }]) ∧
      ((GetProductsBySelled params s).2.queries =
          s.queries ++ [.CountAllPublishedProducts] ∨
        (GetProductsBySelled params s).2.queries =
          s.queries ++ [.CountAllPublishedProducts,
            .ListProductsBySelled { Limit := limit, Offset := offset }])) := by
  have hA : FindAllProducts params s = _ := productRepository.FindAllProducts_run params s
  have hD : GetProductsByDiscount params s = _ :=
    productRepository.FindProductsByDiscount_run params s
  have hS : GetProductsBySelled params s = _ :=
    productRepository.FindProductsBySelled_run params s
  rw [productRepository.setDefaultPagination_Page,
    productRepository.setDefaultPagination_Limit, ← ho, ← hl] at hA hD hS
  have hpage : ∀ resp, (FindAllProducts params s).1 = .ok resp ∨
      (GetProductsByDiscount params s).1 = .ok resp ∨
      (GetProductsBySelled params s).1 = .ok resp →
      resp.CurrentPage = effectivePage params.Page := by
    intro resp h
    rw [hA, hD, hS] at h
    rcases h with h | h | h
    · exact (pagedListing_page _ _ _ _ _ _ _ h).1.trans
        (productRepository.setDefaultPagination_Page params)
    · exact (pagedListing_page _ _ _ _ _ _ _ h).1.trans
        (productRepository.setDefaultPagination_Page params)
    · exact (pagedListing_page _ _ _ _ _ _ _ h).1.trans
        (productRepository.setDefaultPagination_Page params)
  have hdrafts : (FindAllDraftsForShop shopID params.Page params.Limit s).2.queries =
      s.queries ++ [.ListDraftProducts
        { ProductShop := shopID, Limit := int32 limit, Offset := int32 offset }] := by
    simp only [FindAllDraftsForShop, productRepository.FindAllDraftsForShop,
      database.ListDraftProducts, int32_int64]
    have hL' : (if params.Limit < 1 then 10 else params.Limit) = limit := hl.symm
    have hO' : (((if params.Page < 1 then 1 else params.Page) - 1) *
        (if params.Limit < 1 then 10 else params.Limit)) = offset := ho.symm
    rw [hO', hL']
    split <;> simp [database.query_store, Store.ask, Store.record]
  have hpublish : (FindAllPublishForShop shopID params.Page params.Limit s).2.queries =
      s.queries ++ [.ListPublishedProducts
        { ProductShop := shopID, Limit := int32 limit, Offset := int32 offset }] := by
    simp only [FindAllPublishForShop, productRepository.FindAllPublishForShop,
      database.ListPublishedProducts, int32_int64]
    have hL' : (if params.Limit < 1 then 10 else params.Limit) = limit := hl.symm
    have hO' : (((if params.Page < 1 then 1 else params.Page) - 1) *
        (if params.Limit < 1 then 10 else params.Limit)) = offset := ho.symm
    rw [hO', hL']
    split <;> simp [database.query_store, Store.ask, Store.record]
  have hall : (FindAllProducts params s).2.queries =
        s.queries ++ [(Filter.choose params.ProductType params.Keyword).countQuery] ∨
      (FindAllProducts params s).2.queries =
        s.queries ++ [(Filter.choose params.ProductType params.Keyword).countQuery,
          (Filter.choose params.ProductType params.Keyword).listQuery
            (int32 limit) (int32 offset)] := by
    rw [hA]
    exact pagedListing_queries _ _ _ _ _ _
  have hdisc : (GetProductsByDiscount params s).2.queries =
        s.queries ++ [.CountAllPublishedProducts] ∨
      (GetProductsByDiscount params s).2.queries =
        s.queries ++ [.CountAllPublishedProducts,
          .ListProductsByDiscount { Limit := int32 limit, Offset := int32 offset }] := by
    rw [hD]
    exact pagedListing_queries _ _ _ _ _ _
  have hsell : (GetProductsBySelled params s).2.queries =
        s.queries ++ [.CountAllPublishedProducts] ∨
      (GetProductsBySelled params s).2.queries =
        s.queries ++ [.CountAllPublishedProducts,
          .ListProductsBySelled { Limit := int32 limit, Offset := int32 offset }] := by
    rw [hS]
    exact pagedListing_queries _ _ _ _ _ _
  refine ⟨rfl, rfl, hpage, hdrafts, hpublish, hall, hdisc, hsell, ?_⟩
  intro hl₁ ho₁
  have hL : int32 limit = limit :=
    int32_of_range _ (by rw [hl]; have := effectiveLimit_pos params.Limit; omega) hl₁
  have hO : int32 offset = offset := by
    refine int32_of_range _ ?_ ho₁
    rw [ho]
    exact mul_nonneg (by have := effectivePage_pos params.Page; omega)
      (by have := effectiveLimit_pos params.Limit; omega)
  rw [hL, hO] at hdrafts hpublish hall hdisc hsell
  exact ⟨hL, hO, hdrafts, hpublish, hall, hdisc, hsell⟩

/-- Witness of C16: the third page of five rows each is requested with limit 5
and offset 10, and a response carries page 3; page 1 with limit 4294967306,
which is `2^32 + 10`, is requested with limit 10 and offset 0, and the response
carries page 1. -/
theorem listing_pagination_witness :
    (FindAllDraftsForShop "shopA" 3 5 sample.listed).2.queries =
      [.ListDraftProducts { ProductShop := "shopA", Limit := 5, Offset := 10 }] ∧
    ((FindAllProducts sample.thirdPage sample.listed).2.queries =
        [.CountAllPublishedProducts] ∨
      (FindAllProducts sample.thirdPage sample.listed).2.queries =
        [.CountAllPublishedProducts,
          .ListAllPublishedProducts { Limit := 5, Offset := 10 }]) ∧
    (∀ resp, (FindAllProducts sample.thirdPage sample.listed).1 = .ok resp →
      resp.CurrentPage = 3) ∧
    ∃ resp, (FindAllProducts { Page := 1, Limit := 4294967306, ProductType := "", Keyword := "" }
        sample.listed).1 = .ok resp ∧
      resp.CurrentPage = 1 ∧
      (FindAllProducts { Page := 1, Limit := 4294967306, ProductType := "", Keyword := "" }
        sample.listed).2.queries =
        [.CountAllPublishedProducts, .ListAllPublishedProducts { Limit := 10, Offset := 0 }] := by
  have h := listing_pagination "shopA" sample.thirdPage sample.listed 5 10 (by decide)
    (by decide)
  have hr := h.2.2.2.2.2.2.2.2 (by decide) (by decide)
  have g := listing_pagination "shopA"
    { Page := 1, Limit := 4294967306, ProductType := "", Keyword := "" } sample.listed
    4294967306 0 (by decide) (by decide)
  refine ⟨hr.2.2.1, hr.2.2.2.2.1, fun resp hresp => h.2.2.1 resp (Or.inl hresp), ?_⟩
  refine ⟨productRepository.response
    (productRepository.setDefaultPagination
      { Page := 1, Limit := 4294967306, ProductType := "", Keyword := "" }) 0 [], rfl, ?_, by decide⟩
  exact g.2.2.1 _ (Or.inl rfl)

/-! ## Keyword match -/

theorem SearchProducts_rows (keyword : String) (s : Store) (products : List ProductModel)
    (h : (SearchProducts keyword s).1 = .ok products) :
    ∀ p ∈ products, ∃ r ∈ s.products,
      database.like ("%" ++ keyword ++ "%") r.ProductName = true ∧
      p = productRepository.convertDbProductToModel r := by
  have hrun : (SearchProducts keyword s).1 =
      (match s.readFault s.queries.length with
        | some cause => .error (.StoreError cause)
        | none =>
          .ok (((s.products.filter
            (fun r => database.like ("%" ++ keyword ++ "%") r.ProductName)).take 100).map
              productRepository.convertDbProductToModel)) := by
    simp only [SearchProducts, productRepository.SearchProducts, database.SearchProductsByName,
      database.query, Store.record]
    cases s.readFault s.queries.length with
    | some cause => rfl
    | none => simp [database.page]
  rw [hrun] at h
  cases hf : s.readFault s.queries.length with
  | some cause => simp [hf] at h
  | none =>
    simp only [hf, Except.ok.injEq] at h
    intro p hp
    rw [← h] at hp
    obtain ⟨r, hr, rfl⟩ := List.mem_map.mp hp
    have hr' := List.mem_of_mem_take hr
    rw [List.mem_filter] at hr'
    exact ⟨r, hr'.1, hr'.2, rfl⟩

theorem FindAllProducts_keyword_rows (params : ProductQueryParams) (s : Store)
    (resp : ProductResponse) (ht : params.ProductType = "") (hk : params.Keyword ≠ "")
    (h : (FindAllProducts params s).1 = .ok resp) :
    ∀ p ∈ resp.Data, ∃ r ∈ s.products,
      database.like ("%" ++ params.Keyword ++ "%") r.ProductName = true ∧
      p = productRepository.convertDbProductToModel r := by
  have hrun : FindAllProducts params s = _ := productRepository.FindAllProducts_run params s
  rw [hrun] at h
  obtain ⟨rows, hrows, hresp, -⟩ := pagedListing_ok _ _ _ _ _ _ _ h
  have hF : Filter.choose params.ProductType params.Keyword = .byKeyword params.Keyword := by
    simp [Filter.choose, ht, hk]
  rw [hF] at hrows
  intro p hp
  rw [hresp] at hp
  obtain ⟨r, hr, rfl⟩ := List.mem_map.mp hp
  have hr' := database.mem_of_page _ _ _ _ hrows r hr
  rw [List.mem_filter] at hr'
  exact ⟨r, hr'.1, hr'.2, rfl⟩

/-- C19, the code at a failing input, and the keywords for which the claim
holds. The keyword goes into the pattern `"%" ++ keyword ++ "%"` as it is, so
a `%` or a `_` in the keyword is a wildcard of the match. `SearchProducts "%"`
on the Store that holds the one product "Shiitake" returns that product, and so
does the keyword path of `FindAllProducts`, while the name "Shiitake" does not
contain the keyword "%". For every keyword without `%`, `_` and backslash,
every product returned by `SearchProducts`, and by `FindAllProducts` on its
keyword path, has a name that contains the keyword up to case. -/
theorem SearchProducts_wildcard :
    (SearchProducts "%" sample.listed).1 =
      .ok [productRepository.convertDbProductToModel sample.listedRow] ∧
    (Except.map ProductResponse.Data (FindAllProducts sample.percent sample.listed).1) =
      .ok [productRepository.convertDbProductToModel sample.listedRow] ∧
    (productRepository.convertDbProductToModel sample.listedRow).ProductName = "Shiitake" ∧
    ¬ containsFold "Shiitake" "%" ∧
    (∀ (keyword : String) (s : Store) (products : List ProductModel),
      (∀ c ∈ keyword.data, c ≠ '%' ∧ c ≠ '_' ∧ c ≠ '\\') →
      (SearchProducts keyword s).1 = .ok products →
      ∀ p ∈ products, containsFold p.ProductName keyword) ∧
    (∀ (params : ProductQueryParams) (s : Store) (resp : ProductResponse),
      (∀ c ∈ params.Keyword.data, c ≠ '%' ∧ c ≠ '_' ∧ c ≠ '\\') →
      params.ProductType = "" → params.Keyword ≠ "" →
      (FindAllProducts params s).1 = .ok resp →
      ∀ p ∈ resp.Data, containsFold p.ProductName params.Keyword) := by
  refine ⟨rfl, rfl, rfl, by unfold containsFold; decide, ?_, ?_⟩
  · intro keyword s products hk h p hp
    obtain ⟨r, -, hl, rfl⟩ := SearchProducts_rows keyword s products h p hp
    exact database.containsFold_of_like keyword r.ProductName hk hl
  · intro params s resp hc ht hk h p hp
    obtain ⟨r, -, hl, rfl⟩ := FindAllProducts_keyword_rows params s resp ht hk h p hp
    exact database.containsFold_of_like params.Keyword r.ProductName hc hl

end productService

/-! ## Rounding to `float64` -/

theorem roundHalfEven_cases (r : ℚ) :
    roundHalfEven r = ⌊r⌋₊ ∨ roundHalfEven r = ⌊r⌋₊ + 1 := by
  unfold roundHalfEven
  simp only [Int.floor_toNat]
  split_ifs <;> simp

theorem roundHalfEven_natCast (n : ℕ) : roundHalfEven (n : ℚ) = n := by
  unfold roundHalfEven
  simp

theorem le_roundHalfEven (r : ℚ) (N : ℕ) (h : (N : ℚ) ≤ r) : N ≤ roundHalfEven r := by
  have hf : N ≤ ⌊r⌋₊ := Nat.le_floor h
  rcases roundHalfEven_cases r with h₁ | h₁ <;> omega

theorem roundHalfEven_le (r : ℚ) (N : ℕ) (h₀ : 0 ≤ r) (h : r ≤ N) : roundHalfEven r ≤ N := by
  have hf : ⌊r⌋₊ ≤ N := Nat.floor_le_of_le h
  rcases Nat.lt_or_ge ⌊r⌋₊ N with hlt | hge
  · rcases roundHalfEven_cases r with h₁ | h₁ <;> omega
  · have hN : ⌊r⌋₊ = N := le_antisymm hf hge
    have hr : r = N := le_antisymm h (by rw [← hN]; exact Nat.floor_le h₀)
    rw [hr, roundHalfEven_natCast]

theorem succ_le_roundHalfEven (r : ℚ) (N : ℕ) (h : (N : ℚ) + 1 / 2 < r) :
    N + 1 ≤ roundHalfEven r := by
  have hN : (N : ℚ) ≤ r := by linarith
  have hf : N ≤ ⌊r⌋₊ := Nat.le_floor hN
  rcases Nat.lt_or_ge N ⌊r⌋₊ with hlt | hge
  · rcases roundHalfEven_cases r with h₁ | h₁ <;> omega
  · have hN' : ⌊r⌋₊ = N := le_antisymm hge hf
    unfold roundHalfEven
    simp only [Int.floor_toNat, hN']
    have h₁ : ¬ r - (N : ℚ) < 1 / 2 := by linarith
    have h₂ : 1 / 2 < r - (N : ℚ) := by linarith
    simp only [h₁, h₂, if_false, if_true, le_refl]

theorem log_eq (x : ℚ) (e : Int) (h₁ : (2 : ℚ) ^ e ≤ x) (h₂ : x < (2 : ℚ) ^ (e + 1)) :
    Int.log 2 x = e := by
  have hx : 0 < x := lt_of_lt_of_le (by positivity) h₁
  apply le_antisymm
  · have := (Int.lt_zpow_iff_log_lt (b := 2) (by norm_num) hx).mp (by exact_mod_cast h₂)
    omega
  · exact (Int.zpow_le_iff_le_log (b := 2) (by norm_num) hx).mp (by exact_mod_cast h₁)

namespace Float64

theorem round_binade (x : ℚ) (e : Int) (h₁ : (2 : ℚ) ^ e ≤ x) (h₂ : x < (2 : ℚ) ^ (e + 1))
    (he₁ : -1022 ≤ e) (he₂ : e ≤ 1022) :
    round x = num ((roundHalfEven (x * (2 : ℚ) ^ (52 - e)) : ℚ) * (2 : ℚ) ^ (e - 52)) ∧
    2 ^ 52 ≤ roundHalfEven (x * (2 : ℚ) ^ (52 - e)) ∧
    roundHalfEven (x * (2 : ℚ) ^ (52 - e)) ≤ 2 ^ 53 := by
  have hx : 0 < x := lt_of_lt_of_le (by positivity) h₁
  have hp : (0 : ℚ) < (2 : ℚ) ^ (52 - e) := by positivity
  have hy₁ : ((2 ^ 52 : ℕ) : ℚ) ≤ x * (2 : ℚ) ^ (52 - e) := by
    have h : (2 : ℚ) ^ e * (2 : ℚ) ^ (52 - e) = ((2 ^ 52 : ℕ) : ℚ) := by
      rw [← zpow_add₀ (by norm_num : (2 : ℚ) ≠ 0)]
      have : e + (52 - e) = ((52 : ℕ) : ℤ) := by push_cast; ring
      rw [this, zpow_natCast]
      push_cast
      rfl
    rw [← h]
    exact mul_le_mul_of_nonneg_right h₁ hp.le
  have hy₂ : x * (2 : ℚ) ^ (52 - e) ≤ ((2 ^ 53 : ℕ) : ℚ) := by
    have h : (2 : ℚ) ^ (e + 1) * (2 : ℚ) ^ (52 - e) = ((2 ^ 53 : ℕ) : ℚ) := by
      rw [← zpow_add₀ (by norm_num : (2 : ℚ) ≠ 0)]
      have : e + 1 + (52 - e) = ((53 : ℕ) : ℤ) := by push_cast; ring
      rw [this, zpow_natCast]
      push_cast
      rfl
    rw [← h]
    exact mul_le_mul_of_nonneg_right h₂.le hp.le
  have hm₁ := le_roundHalfEven _ _ hy₁
  have hm₂ := roundHalfEven_le _ _ (mul_nonneg hx.le hp.le) hy₂
  refine ⟨?_, hm₁, hm₂⟩
  have hr : ¬ (2 : ℚ) ^ (1024 : Int) ≤
      (roundHalfEven (x * (2 : ℚ) ^ (52 - e)) : ℚ) * (2 : ℚ) ^ (e - 52) := by
    rw [not_le]
    have hq : (0 : ℚ) < (2 : ℚ) ^ (e - 52) := by positivity
    have h₃ : (roundHalfEven (x * (2 : ℚ) ^ (52 - e)) : ℚ) ≤ (2 : ℚ) ^ (53 : ℤ) := by
      have : (roundHalfEven (x * (2 : ℚ) ^ (52 - e)) : ℚ) ≤ ((2 ^ 53 : ℕ) : ℚ) := by
        exact_mod_cast hm₂
      refine this.trans (le_of_eq ?_)
      norm_num
    calc (roundHalfEven (x * (2 : ℚ) ^ (52 - e)) : ℚ) * (2 : ℚ) ^ (e - 52)
        ≤ (2 : ℚ) ^ (53 : ℤ) * (2 : ℚ) ^ (e - 52) := mul_le_mul_of_nonneg_right h₃ hq.le
      _ = (2 : ℚ) ^ (e + 1) := by
        rw [← zpow_add₀ (by norm_num : (2 : ℚ) ≠ 0)]
        congr 1
        ring
      _ < (2 : ℚ) ^ (1024 : ℤ) := zpow_lt_zpow_right₀ (by norm_num) (by omega)
  unfold round
  have hlog : Int.log 2 x = e := log_eq x e h₁ h₂
  simp only [hx.ne', if_false, abs_of_pos hx, hlog, max_eq_left he₁, hr, not_lt.mpr hx.le]

end Float64

namespace Float64

theorem round_bounds (x : ℚ) (e : Int) (h₁ : (2 : ℚ) ^ e ≤ x) (h₂ : x < (2 : ℚ) ^ (e + 1))
    (he₁ : -1022 ≤ e) (he₂ : e ≤ 1022) :
    ∃ r : ℚ, round x = num r ∧ (2 : ℚ) ^ e ≤ r ∧ r ≤ (2 : ℚ) ^ (e + 1) := by
  obtain ⟨hr, hm₁, hm₂⟩ := round_binade x e h₁ h₂ he₁ he₂
  refine ⟨_, hr, ?_, ?_⟩
  · have hq : (0 : ℚ) < (2 : ℚ) ^ (e - 52) := by positivity
    have h₃ : (2 : ℚ) ^ (52 : ℤ) ≤ (roundHalfEven (x * (2 : ℚ) ^ (52 - e)) : ℚ) := by
      have : ((2 ^ 52 : ℕ) : ℚ) ≤ (roundHalfEven (x * (2 : ℚ) ^ (52 - e)) : ℚ) := by
        exact_mod_cast hm₁
      refine (le_of_eq ?_).trans this
      norm_num
    calc (2 : ℚ) ^ e = (2 : ℚ) ^ (52 : ℤ) * (2 : ℚ) ^ (e - 52) := by
          rw [← zpow_add₀ (by norm_num : (2 : ℚ) ≠ 0)]
          congr 1
          ring
      _ ≤ _ := mul_le_mul_of_nonneg_right h₃ hq.le
  · have hq : (0 : ℚ) < (2 : ℚ) ^ (e - 52) := by positivity
    have h₃ : (roundHalfEven (x * (2 : ℚ) ^ (52 - e)) : ℚ) ≤ (2 : ℚ) ^ (53 : ℤ) := by
      have : (roundHalfEven (x * (2 : ℚ) ^ (52 - e)) : ℚ) ≤ ((2 ^ 53 : ℕ) : ℚ) := by
        exact_mod_cast hm₂
      refine this.trans (le_of_eq ?_)
      norm_num
    calc (roundHalfEven (x * (2 : ℚ) ^ (52 - e)) : ℚ) * (2 : ℚ) ^ (e - 52)
        ≤ (2 : ℚ) ^ (53 : ℤ) * (2 : ℚ) ^ (e - 52) := mul_le_mul_of_nonneg_right h₃ hq.le
      _ = (2 : ℚ) ^ (e + 1) := by
        rw [← zpow_add₀ (by norm_num : (2 : ℚ) ≠ 0)]
        congr 1
        ring

theorem round_exact (x : ℚ) (e : Int) (M : ℕ) (h₁ : (2 : ℚ) ^ e ≤ x)
    (h₂ : x < (2 : ℚ) ^ (e + 1)) (he₁ : -1022 ≤ e) (he₂ : e ≤ 1022)
    (hM : x * (2 : ℚ) ^ (52 - e) = M) : round x = num x := by
  obtain ⟨hr, -, -⟩ := round_binade x e h₁ h₂ he₁ he₂
  rw [hr, hM, roundHalfEven_natCast, ← hM, mul_assoc,
    ← zpow_add₀ (by norm_num : (2 : ℚ) ≠ 0)]
  have : 52 - e + (e - 52) = 0 := by ring
  rw [this, zpow_zero, mul_one]

theorem binade (x : ℚ) (hx : 0 < x) :
    (2 : ℚ) ^ Int.log 2 x ≤ x ∧ x < (2 : ℚ) ^ (Int.log 2 x + 1) := by
  constructor
  · exact_mod_cast Int.zpow_log_le_self (b := 2) (by norm_num) hx
  · exact_mod_cast Int.lt_zpow_succ_log_self (b := 2) (by norm_num) x

theorem round_natCast (n : ℕ) (h : n ≤ 2 ^ 53) : round (n : ℚ) = num n := by
  rcases Nat.eq_zero_or_pos n with h₀ | h₀
  · subst h₀
    simp [round]
  have hx : (0 : ℚ) < n := by exact_mod_cast h₀
  obtain ⟨h₁, h₂⟩ := binade n hx
  have he₀ : 0 ≤ Int.log 2 (n : ℚ) := by
    refine (Int.zpow_le_iff_le_log (b := 2) (by norm_num) hx).mp ?_
    simp only [zpow_zero]
    exact_mod_cast h₀
  have he₁ : Int.log 2 (n : ℚ) < 54 := by
    refine (Int.lt_zpow_iff_log_lt (b := 2) (by norm_num) hx).mp ?_
    have : (n : ℚ) ≤ ((2 ^ 53 : ℕ) : ℚ) := by exact_mod_cast h
    refine lt_of_le_of_lt this ?_
    norm_num
  obtain ⟨E, hE⟩ := Int.eq_ofNat_of_zero_le he₀
  rw [hE] at h₁ h₂ he₁
  rcases Nat.lt_or_ge E 53 with hlt | hge
  · refine round_exact n E (n * 2 ^ (52 - E)) h₁ h₂ (by omega) (by omega) ?_
    have : (52 : ℤ) - (E : ℤ) = ((52 - E : ℕ) : ℤ) := by omega
    rw [this, zpow_natCast]
    push_cast
    rfl
  · have hE' : E = 53 := by omega
    subst hE'
    have hn : n = 2 ^ 53 := by
      refine le_antisymm h ?_
      have : ((2 ^ 53 : ℕ) : ℚ) ≤ (n : ℚ) := by
        refine le_trans (le_of_eq ?_) h₁
        norm_num
      exact_mod_cast this
    refine round_exact n (53 : ℕ) (2 ^ 52) h₁ h₂ (by omega) (by omega) ?_
    rw [hn]
    norm_num

theorem round_unit (q : ℚ) (h₀ : (2 : ℚ) ^ (-1022 : ℤ) ≤ q) (h₁ : q < 1) :
    ∃ r : ℚ, round q = num r ∧ 0 < r ∧ r ≤ 1 := by
  have hq : 0 < q := lt_of_lt_of_le (by positivity) h₀
  obtain ⟨hb₁, hb₂⟩ := binade q hq
  have he₁ : -1022 ≤ Int.log 2 q :=
    (Int.zpow_le_iff_le_log (b := 2) (by norm_num) hq).mp (by exact_mod_cast h₀)
  have he₂ : Int.log 2 q < 0 := by
    refine (Int.lt_zpow_iff_log_lt (b := 2) (by norm_num) hq).mp ?_
    simpa using h₁
  obtain ⟨r, hr, hr₁, hr₂⟩ := round_bounds q _ hb₁ hb₂ he₁ (by omega)
  refine ⟨r, hr, lt_of_lt_of_le (by positivity) hr₁, hr₂.trans ?_⟩
  have : (2 : ℚ) ^ (Int.log 2 q + 1) ≤ (2 : ℚ) ^ (0 : ℤ) :=
    zpow_le_zpow_right₀ (by norm_num) (by omega)
  simpa using this

end Float64

namespace Float64

theorem round_between (q : ℚ) (j l : ℕ) (hj : 1 ≤ j) (hl : 1 ≤ l)
    (h₁ : (j : ℚ) + 1 / (l : ℚ) ≤ q) (h₂ : q < (j : ℚ) + 1) (hjl : l * j < 2 ^ 53) :
    ∃ r : ℚ, round q = num r ∧ (j : ℚ) < r ∧ r ≤ (j : ℚ) + 1 := by
  have hl₀ : (0 : ℚ) < l := by exact_mod_cast hl
  have hjq : (j : ℚ) < q := lt_of_lt_of_le (by linarith [one_div_pos.mpr hl₀]) h₁
  have hq : 0 < q := lt_of_le_of_lt (by positivity) hjq
  obtain ⟨hb₁, hb₂⟩ := binade q hq
  have he₀ : 0 ≤ Int.log 2 q := by
    refine (Int.zpow_le_iff_le_log (b := 2) (by norm_num) hq).mp ?_
    simp only [zpow_zero]
    have : (1 : ℚ) ≤ j := by exact_mod_cast hj
    linarith
  obtain ⟨E, hE⟩ := Int.eq_ofNat_of_zero_le he₀
  rw [hE] at hb₁ hb₂
  have h2E : 2 ^ E ≤ j := by
    have : ((2 ^ E : ℕ) : ℚ) < ((j + 1 : ℕ) : ℚ) := by
      push_cast
      rw [zpow_natCast] at hb₁
      linarith
    have := Nat.cast_lt.mp this
    omega
  have hjl' : j ≤ l * j := Nat.le_mul_of_pos_left j hl
  have hE52 : E ≤ 52 := by
    have : 2 ^ E < 2 ^ 53 := by omega
    have := (Nat.pow_lt_pow_iff_right (by norm_num : 1 < 2)).mp this
    omega
  have hS : (2 : ℚ) ^ ((52 : ℤ) - (E : ℤ)) = ((2 ^ (52 - E) : ℕ) : ℚ) := by
    have : (52 : ℤ) - (E : ℤ) = ((52 - E : ℕ) : ℤ) := by omega
    rw [this, zpow_natCast]
    push_cast
    rfl
  have hS' : (2 : ℚ) ^ ((E : ℤ) - 52) = ((2 ^ (52 - E) : ℕ) : ℚ)⁻¹ := by
    rw [← hS, ← zpow_neg]
    congr 1
    ring
  have hSpos : (0 : ℚ) < ((2 ^ (52 - E) : ℕ) : ℚ) := by positivity
  have hlS : l < 2 * 2 ^ (52 - E) := by
    have h53 : 2 * 2 ^ (52 - E) * 2 ^ E = 2 ^ 53 := by
      rw [← pow_succ', ← pow_add]
      congr 1
      omega
    have h₃ : l * 2 ^ E ≤ l * j := Nat.mul_le_mul_left l h2E
    have h₄ : l * 2 ^ E < 2 * 2 ^ (52 - E) * 2 ^ E := by omega
    exact Nat.lt_of_mul_lt_mul_right h₄
  obtain ⟨hr, -, -⟩ := round_binade q E hb₁ hb₂ (by omega) (by omega)
  rw [hS, hS'] at hr
  have hy₁ : ((j * 2 ^ (52 - E) : ℕ) : ℚ) + 1 / 2 < q * ((2 ^ (52 - E) : ℕ) : ℚ) := by
    have hlS' : (l : ℚ) < 2 * ((2 ^ (52 - E) : ℕ) : ℚ) := by exact_mod_cast hlS
    have h₅ : (1 : ℚ) / 2 < ((2 ^ (52 - E) : ℕ) : ℚ) / l := by
      rw [lt_div_iff₀ hl₀]
      linarith
    have h₆ : ((j : ℚ) + 1 / (l : ℚ)) * ((2 ^ (52 - E) : ℕ) : ℚ) ≤
        q * ((2 ^ (52 - E) : ℕ) : ℚ) := mul_le_mul_of_nonneg_right h₁ hSpos.le
    have h₇ : ((j : ℚ) + 1 / (l : ℚ)) * ((2 ^ (52 - E) : ℕ) : ℚ) =
        ((j * 2 ^ (52 - E) : ℕ) : ℚ) + ((2 ^ (52 - E) : ℕ) : ℚ) / l := by
      push_cast
      ring
    linarith
  have hy₂ : q * ((2 ^ (52 - E) : ℕ) : ℚ) ≤ (((j + 1) * 2 ^ (52 - E) : ℕ) : ℚ) := by
    have : q * ((2 ^ (52 - E) : ℕ) : ℚ) ≤ ((j : ℚ) + 1) * ((2 ^ (52 - E) : ℕ) : ℚ) :=
      mul_le_mul_of_nonneg_right h₂.le hSpos.le
    refine this.trans (le_of_eq ?_)
    push_cast
    ring
  have hm₁ := succ_le_roundHalfEven _ _ hy₁
  have hm₂ := roundHalfEven_le _ _ (mul_nonneg hq.le hSpos.le) hy₂
  refine ⟨_, hr, ?_, ?_⟩
  · rw [← div_eq_mul_inv, lt_div_iff₀ hSpos]
    have : ((j * 2 ^ (52 - E) + 1 : ℕ) : ℚ) ≤
        (roundHalfEven (q * ((2 ^ (52 - E) : ℕ) : ℚ)) : ℚ) := by exact_mod_cast hm₁
    push_cast at this ⊢
    linarith
  · rw [← div_eq_mul_inv, div_le_iff₀ hSpos]
    have : (roundHalfEven (q * ((2 ^ (52 - E) : ℕ) : ℚ)) : ℚ) ≤
        (((j + 1) * 2 ^ (52 - E) : ℕ) : ℚ) := by exact_mod_cast hm₂
    push_cast at this ⊢
    linarith

end Float64

namespace Float64

theorem ceil_round_unit (q : ℚ) (h₀ : (2 : ℚ) ^ (-1022 : ℤ) ≤ q) (h₁ : q ≤ 1) :
    ∃ r : ℚ, round q = num r ∧ ⌈r⌉ = 1 := by
  rcases h₁.lt_or_eq with h | h
  · obtain ⟨r, hr, hr₀, hr₁⟩ := round_unit q h₀ h
    refine ⟨r, hr, ?_⟩
    rw [Int.ceil_eq_iff]
    constructor
    · simpa using hr₀
    · simpa using hr₁
  · refine ⟨1, ?_, by simp⟩
    rw [h]
    have := round_natCast 1 (by norm_num)
    simpa using this

theorem ofInt_limit (L : ℕ) (h₁ : 1 ≤ L) (h₂ : L < 2 ^ 63) :
    ∃ r : ℚ, ofInt (L : ℤ) = num r ∧ (L < 2 ^ 53 → r = L) ∧
      (2 ^ 53 ≤ L → (2 : ℚ) ^ (53 : ℤ) ≤ r ∧ r ≤ (2 : ℚ) ^ (63 : ℤ)) := by
  unfold ofInt
  rw [Int.cast_natCast]
  rcases Nat.lt_or_ge L (2 ^ 53) with h | h
  · exact ⟨L, round_natCast L h.le, fun _ => rfl, fun h' => absurd h (by omega)⟩
  · have hx : (0 : ℚ) < L := by exact_mod_cast h₁
    obtain ⟨hb₁, hb₂⟩ := binade L hx
    have he₁ : 53 ≤ Int.log 2 (L : ℚ) := by
      refine (Int.zpow_le_iff_le_log (b := 2) (by norm_num) hx).mp ?_
      have : ((2 ^ 53 : ℕ) : ℚ) ≤ (L : ℚ) := by exact_mod_cast h
      refine le_trans (le_of_eq ?_) this
      norm_num
    have he₂ : Int.log 2 (L : ℚ) < 63 := by
      refine (Int.lt_zpow_iff_log_lt (b := 2) (by norm_num) hx).mp ?_
      have : (L : ℚ) < ((2 ^ 63 : ℕ) : ℚ) := by exact_mod_cast h₂
      refine lt_of_lt_of_le this (le_of_eq ?_)
      norm_num
    obtain ⟨r, hr, hr₁, hr₂⟩ := round_bounds L _ hb₁ hb₂ (by omega) (by omega)
    refine ⟨r, hr, fun h' => absurd h (by omega), fun _ => ⟨?_, ?_⟩⟩
    · exact le_trans (zpow_le_zpow_right₀ (by norm_num) he₁) hr₁
    · exact le_trans hr₂ (zpow_le_zpow_right₀ (by norm_num) (by omega))

theorem ceil_div (T L : ℕ) (hT : T ≤ 2 ^ 53) (hL₁ : 1 ≤ L) (hL₂ : L < 2 ^ 63) :
    ∃ r : ℚ, div (ofInt (T : ℤ)) (ofInt (L : ℤ)) = num r ∧ ⌈r⌉ = ⌈(T : ℚ) / (L : ℚ)⌉ := by
  obtain ⟨l', hl', hsmall, hbig⟩ := ofInt_limit L hL₁ hL₂
  have hTr : ofInt (T : ℤ) = num T := by
    unfold ofInt
    rw [Int.cast_natCast]
    exact round_natCast T hT
  have hL₀ : (0 : ℚ) < L := by exact_mod_cast hL₁
  have hl'₀ : 0 < l' := by
    rcases Nat.lt_or_ge L (2 ^ 53) with h | h
    · rw [hsmall h]; exact hL₀
    · exact lt_of_lt_of_le (by positivity) (hbig h).1
  rw [hTr, hl']
  simp only [div, hl'₀.ne', if_false]
  rcases Nat.eq_zero_or_pos T with hT₀ | hT₀
  · subst hT₀
    refine ⟨0, by simp [round], by simp⟩
  have hTq : (1 : ℚ) ≤ T := by exact_mod_cast hT₀
  have hT53 : (T : ℚ) ≤ (2 : ℚ) ^ (53 : ℤ) := by
    have : (T : ℚ) ≤ ((2 ^ 53 : ℕ) : ℚ) := by exact_mod_cast hT
    refine this.trans (le_of_eq ?_)
    norm_num
  rcases Nat.lt_or_ge L (2 ^ 53) with h | h
  · rw [hsmall h]
    have hdm : L * (T / L) + T % L = T := Nat.div_add_mod T L
    have hq : (T : ℚ) / (L : ℚ) = ((T / L : ℕ) : ℚ) + ((T % L : ℕ) : ℚ) / (L : ℚ) := by
      have : ((L * (T / L) + T % L : ℕ) : ℚ) = (T : ℚ) := by rw [hdm]
      rw [Nat.cast_add, Nat.cast_mul] at this
      rw [eq_comm, eq_div_iff hL₀.ne', add_mul, div_mul_cancel₀ _ hL₀.ne']
      linarith
    rcases Nat.eq_zero_or_pos (T % L) with hr | hr
    · rw [hr] at hq
      simp only [Nat.cast_zero, zero_div, add_zero] at hq
      rw [hq]
      refine ⟨_, round_natCast _ ?_, rfl⟩
      exact le_trans (Nat.div_le_self T L) hT
    · have hrem : (1 : ℚ) ≤ ((T % L : ℕ) : ℚ) := by exact_mod_cast hr
      have hrem' : ((T % L : ℕ) : ℚ) < (L : ℚ) := by exact_mod_cast Nat.mod_lt T hL₁
      have hlow : ((T / L : ℕ) : ℚ) + 1 / (L : ℚ) ≤ (T : ℚ) / (L : ℚ) := by
        rw [hq]
        have : 1 / (L : ℚ) ≤ ((T % L : ℕ) : ℚ) / (L : ℚ) :=
          div_le_div_of_nonneg_right hrem hL₀.le
        linarith
      have hhigh : (T : ℚ) / (L : ℚ) < ((T / L : ℕ) : ℚ) + 1 := by
        rw [hq]
        have : ((T % L : ℕ) : ℚ) / (L : ℚ) < 1 := (div_lt_one hL₀).mpr hrem'
        linarith
      have hceil : ⌈(T : ℚ) / (L : ℚ)⌉ = ((T / L : ℕ) : ℤ) + 1 := by
        rw [Int.ceil_eq_iff]
        simp only [Int.cast_add, Int.cast_one, Int.cast_natCast, add_sub_cancel_right]
        constructor
        · have := one_div_pos.mpr hL₀
          linarith
        · exact hhigh.le
      rcases Nat.eq_zero_or_pos (T / L) with hj | hj
      · have hlt : (T : ℚ) / (L : ℚ) ≤ 1 := by
          rw [hj] at hhigh
          simpa using hhigh.le
        have hge : (2 : ℚ) ^ (-1022 : ℤ) ≤ (T : ℚ) / (L : ℚ) := by
          have h₁ : (2 : ℚ) ^ (-1022 : ℤ) ≤ (2 : ℚ) ^ (-53 : ℤ) :=
            zpow_le_zpow_right₀ (by norm_num) (by norm_num)
          have h₂ : (2 : ℚ) ^ (-53 : ℤ) ≤ 1 / (L : ℚ) := by
            rw [zpow_neg, ← one_div]
            refine one_div_le_one_div_of_le hL₀ ?_
            have : (L : ℚ) ≤ ((2 ^ 53 : ℕ) : ℚ) := by exact_mod_cast h.le
            refine this.trans (le_of_eq ?_)
            norm_num
          have h₃ : 1 / (L : ℚ) ≤ (T : ℚ) / (L : ℚ) := div_le_div_of_nonneg_right hTq hL₀.le
          linarith
        obtain ⟨r, hr₁, hr₂⟩ := ceil_round_unit _ hge hlt
        refine ⟨r, hr₁, ?_⟩
        rw [hr₂, hceil, hj]
        rfl
      · have hjl : L * (T / L) < 2 ^ 53 := by omega
        obtain ⟨r, hr₁, hr₂, hr₃⟩ := round_between _ (T / L) L hj hL₁ hlow hhigh hjl
        refine ⟨r, hr₁, ?_⟩
        rw [hceil, Int.ceil_eq_iff]
        simp only [Int.cast_add, Int.cast_one, Int.cast_natCast, add_sub_cancel_right]
        exact ⟨hr₂, hr₃⟩
  · obtain ⟨hl₁, hl₂⟩ := hbig h
    have hLq : (T : ℚ) ≤ (L : ℚ) := by
      have : T ≤ L := le_trans hT h
      exact_mod_cast this
    have hc : ⌈(T : ℚ) / (L : ℚ)⌉ = 1 := by
      rw [Int.ceil_eq_iff]
      constructor
      · simp only [Int.cast_one, sub_self]
        positivity
      · simpa using (div_le_one hL₀).mpr hLq
    have hlt : (T : ℚ) / l' ≤ 1 := (div_le_one hl'₀).mpr (hT53.trans hl₁)
    have hge : (2 : ℚ) ^ (-1022 : ℤ) ≤ (T : ℚ) / l' := by
      have h₁ : (2 : ℚ) ^ (-1022 : ℤ) ≤ (2 : ℚ) ^ (-63 : ℤ) :=
        zpow_le_zpow_right₀ (by norm_num) (by norm_num)
      have h₂ : (2 : ℚ) ^ (-63 : ℤ) ≤ 1 / l' := by
        rw [zpow_neg, ← one_div]
        exact one_div_le_one_div_of_le hl'₀ hl₂
      have h₃ : 1 / l' ≤ (T : ℚ) / l' := div_le_div_of_nonneg_right hTq hl'₀.le
      linarith
    obtain ⟨r, hr₁, hr₂⟩ := ceil_round_unit _ hge hlt
    exact ⟨r, hr₁, hr₂.trans hc.symm⟩

end Float64

namespace productRepository

theorem toInt_intCast (k : Int) (h₀ : 0 ≤ k) (h₁ : k < 2 ^ 63) :
    Float64.toInt (.num (k : ℚ)) = k := by
  have hk : (0 : ℚ) ≤ (k : ℚ) := by exact_mod_cast h₀
  simp only [Float64.toInt, hk, if_true, Int.floor_intCast]
  rw [if_pos ⟨by omega, h₁⟩]

theorem totalPages_ceil (t l : Int) (ht₀ : 0 ≤ t) (ht : t ≤ 2 ^ 53) (hl₀ : 1 ≤ l)
    (hl : l < 2 ^ 63) : totalPages t l = ⌈(t : ℚ) / (l : ℚ)⌉ := by
  obtain ⟨T, rfl⟩ := Int.eq_ofNat_of_zero_le ht₀
  obtain ⟨L, rfl⟩ := Int.eq_ofNat_of_zero_le (by omega : 0 ≤ l)
  have hT : T ≤ 2 ^ 53 := by exact_mod_cast ht
  have hL₁ : 1 ≤ L := by exact_mod_cast hl₀
  have hL₂ : L < 2 ^ 63 := by exact_mod_cast hl
  obtain ⟨r, hr, hc⟩ := Float64.ceil_div T L hT hL₁ hL₂
  have hL₀ : (0 : ℚ) < L := by exact_mod_cast hL₁
  have hc₀ : 0 ≤ ⌈(T : ℚ) / (L : ℚ)⌉ := Int.ceil_nonneg (by positivity)
  have hc₁ : ⌈(T : ℚ) / (L : ℚ)⌉ ≤ (T : ℤ) := by
    rw [Int.ceil_le, Int.cast_natCast]
    exact div_le_self (by positivity) (by exact_mod_cast hL₁)
  unfold totalPages
  rw [hr]
  simp only [Float64.Ceil, hc, Int.cast_natCast]
  exact toInt_intCast _ hc₀ (by omega)

theorem ceil_least (t l : Int) (hl : 1 ≤ l) :
    t ≤ ⌈(t : ℚ) / (l : ℚ)⌉ * l ∧ ∀ n : Int, t ≤ n * l → ⌈(t : ℚ) / (l : ℚ)⌉ ≤ n := by
  have hl₀ : (0 : ℚ) < (l : ℚ) := by exact_mod_cast (by omega : 0 < l)
  constructor
  · have h := Int.le_ceil ((t : ℚ) / (l : ℚ))
    rw [div_le_iff₀ hl₀] at h
    exact_mod_cast h
  · intro n hn
    rw [Int.ceil_le, div_le_iff₀ hl₀]
    exact_mod_cast hn

end productRepository

/-! ## Page count -/

namespace Float64

theorem round_odd : round 9007199254740993 = num 9007199254740992 := by
  obtain ⟨hr, -, -⟩ := round_binade 9007199254740993 53 (by norm_num) (by norm_num)
    (by norm_num) (by norm_num)
  rw [hr]
  have hf : ⌊(9007199254740993 : ℚ) * 2 ^ ((52 : ℤ) - 53)⌋₊ = 4503599627370496 := by
    rw [Nat.floor_eq_iff (by positivity)]
    norm_num
  have hm : roundHalfEven ((9007199254740993 : ℚ) * 2 ^ ((52 : ℤ) - 53)) = 4503599627370496 := by
    unfold roundHalfEven
    simp only [Int.floor_toNat, hf]
    norm_num
  rw [hm]
  norm_num

end Float64

namespace productRepository

theorem totalPages_odd : totalPages 9007199254740993 1 = 9007199254740992 := by
  have h₁ : Float64.round ((1 : ℤ) : ℚ) = .num 1 := by
    have := Float64.round_natCast 1 (by norm_num)
    simpa using this
  have h₂ : Float64.round ((9007199254740993 : ℤ) : ℚ) = .num 9007199254740992 := by
    have := Float64.round_odd
    simpa using this
  have h₃ : Float64.round (9007199254740992 / 1) = .num 9007199254740992 := by
    have := Float64.round_natCast 9007199254740992 (by norm_num)
    simpa using this
  have h₄ : Float64.toInt (.num 9007199254740992) = 9007199254740992 := by
    have := toInt_intCast 9007199254740992 (by norm_num) (by norm_num)
    simpa using this
  have hd : Float64.div (.num 9007199254740992) (.num 1) =
      Float64.round (9007199254740992 / 1) := by
    simp only [Float64.div, one_ne_zero, if_false]
  have hc : ⌈(9007199254740992 : ℚ)⌉ = 9007199254740992 := by
    rw [Int.ceil_eq_iff]
    norm_num
  have hC : Float64.Ceil (.num 9007199254740992) = .num 9007199254740992 := by
    simp only [Float64.Ceil, hc]
    norm_num
  unfold totalPages Float64.ofInt
  rw [h₁, h₂, hd, h₃, hC, h₄]

end productRepository

namespace productService

/-- C17, the code at an input that the claim does not survive. The Store holds
9007199254740993 published products (`2^53 + 1`) and the query asks for pages
of one row. The count goes through `float64(count)`, which has 53 significant
bits and is 9007199254740992, so `TotalPages` is 9007199254740992 while `Total`
is 9007199254740993: `TotalPages * limit` is below `Total`. -/
theorem FindAllProducts_crowded :
    ∃ resp, (FindAllProducts sample.firstOne sample.crowded).1 = .ok resp ∧
      resp.Total = 9007199254740993 ∧ resp.TotalPages = 9007199254740992 ∧
      effectiveLimit sample.firstOne.Limit = 1 ∧
      ¬ resp.Total ≤ resp.TotalPages * effectiveLimit sample.firstOne.Limit := by
  have hrun : FindAllProducts sample.firstOne sample.crowded = _ :=
    productRepository.FindAllProducts_run sample.firstOne sample.crowded
  have hF : Filter.choose sample.firstOne.ProductType sample.firstOne.Keyword =
      .allPublished := by decide
  have hP : productRepository.setDefaultPagination sample.firstOne = sample.firstOne := by
    decide
  have hrows : List.filter Filter.allPublished.selects sample.crowded.products =
      List.replicate 9007199254740993 sample.shelfRow :=
    List.filter_replicate_of_pos (by decide)
  rw [hF, hP, hrows, List.length_replicate] at hrun
  have hpage : database.page (int32 sample.firstOne.Limit)
      (int32 ((sample.firstOne.Page - 1) * sample.firstOne.Limit))
      (List.replicate 9007199254740993 sample.shelfRow) = .ok [sample.shelfRow] := by
    have h₁ : int32 sample.firstOne.Limit = 1 := by decide
    have h₂ : int32 ((sample.firstOne.Page - 1) * sample.firstOne.Limit) = 0 := by decide
    rw [h₁, h₂]
    simp only [database.page]
    norm_num
  rw [hpage] at hrun
  refine ⟨productRepository.response sample.firstOne 9007199254740993
    [productRepository.convertDbProductToModel sample.shelfRow], ?_, rfl, ?_, by decide, ?_⟩
  · rw [hrun]
    rfl
  · exact productRepository.totalPages_odd
  · have h : (productRepository.response sample.firstOne 9007199254740993
        [productRepository.convertDbProductToModel sample.shelfRow]).TotalPages =
        9007199254740992 := productRepository.totalPages_odd
    rw [h]
    decide

end productService

namespace productService

/-- C17, amended. For every response of `FindAllProducts`,
`GetProductsByDiscount` and `GetProductsBySelled` whose `Total` is at most
`2^53`, and every limit of the range of `int` (below `2^63`): the divisor, the
effective limit, is at least 1; `TotalPages` is the ceiling of `Total` divided
by the effective limit, that is the least integer `n` with
`n * limit >= Total`; and `Total` is the count of the Store, the number of rows
that the listing selects. -/
theorem listing_total_pages (params : ProductQueryParams) (s : Store) (resp : ProductResponse)
    (hlim : params.Limit < 2 ^ 63) (htot : resp.Total ≤ 2 ^ 53)
    (h : (FindAllProducts params s).1 = .ok resp ∨
      (GetProductsByDiscount params s).1 = .ok resp ∨
      (GetProductsBySelled params s).1 = .ok resp) :
    1 ≤ effectiveLimit params.Limit ∧
    0 ≤ resp.Total ∧
    resp.TotalPages = ⌈(resp.Total : ℚ) / (effectiveLimit params.Limit : ℚ)⌉ ∧
    resp.Total ≤ resp.TotalPages * effectiveLimit params.Limit ∧
    (∀ n : Int, resp.Total ≤ n * effectiveLimit params.Limit → resp.TotalPages ≤ n) ∧
    ((FindAllProducts params s).1 = .ok resp →
      resp.Total =
        (s.products.filter (Filter.choose params.ProductType params.Keyword).selects).length) ∧
    ((GetProductsByDiscount params s).1 = .ok resp →
      resp.Total = (s.products.filter (fun r => r.IsPublished)).length) ∧
    ((GetProductsBySelled params s).1 = .ok resp →
      resp.Total = (s.products.filter (fun r => r.IsPublished)).length) := by
  have hA : FindAllProducts params s = _ := productRepository.FindAllProducts_run params s
  have hD : GetProductsByDiscount params s = _ :=
    productRepository.FindProductsByDiscount_run params s
  have hS : GetProductsBySelled params s = _ :=
    productRepository.FindProductsBySelled_run params s
  have hL₁ := effectiveLimit_pos params.Limit
  have hL₂ : effectiveLimit params.Limit < 2 ^ 63 := by
    unfold effectiveLimit
    split_ifs
    · norm_num
    · exact hlim
  have key : ∃ count : ℕ, resp.Total = count ∧
      resp.TotalPages = productRepository.totalPages count (effectiveLimit params.Limit) := by
    rw [hA, hD, hS] at h
    rcases h with h | h | h
    · obtain ⟨-, h₁, h₂⟩ := pagedListing_page _ _ _ _ _ _ _ h
      rw [productRepository.setDefaultPagination_Limit] at h₂
      exact ⟨_, h₁, h₂⟩
    · obtain ⟨-, h₁, h₂⟩ := pagedListing_page _ _ _ _ _ _ _ h
      rw [productRepository.setDefaultPagination_Limit] at h₂
      exact ⟨_, h₁, h₂⟩
    · obtain ⟨-, h₁, h₂⟩ := pagedListing_page _ _ _ _ _ _ _ h
      rw [productRepository.setDefaultPagination_Limit] at h₂
      exact ⟨_, h₁, h₂⟩
  obtain ⟨count, hc₁, hc₂⟩ := key
  have h₀ : 0 ≤ resp.Total := by rw [hc₁]; exact Int.natCast_nonneg count
  have hTP : resp.TotalPages = ⌈(resp.Total : ℚ) / (effectiveLimit params.Limit : ℚ)⌉ := by
    rw [hc₂, ← hc₁]
    exact productRepository.totalPages_ceil _ _ h₀ htot hL₁ hL₂
  obtain ⟨hle, hleast⟩ := productRepository.ceil_least resp.Total _ hL₁
  rw [← hTP] at hle hleast
  refine ⟨hL₁, h₀, hTP, hle, hleast, ?_, ?_, ?_⟩
  · intro h'
    rw [hA] at h'
    exact (pagedListing_page _ _ _ _ _ _ _ h').2.1
  · intro h'
    rw [hD] at h'
    exact (pagedListing_page _ _ _ _ _ _ _ h').2.1
  · intro h'
    rw [hS] at h'
    exact (pagedListing_page _ _ _ _ _ _ _ h').2.1

/-- Witness of C17: one published product listed without page and limit has
`Total` 1, the effective limit 10 and one page. -/
theorem listing_total_pages_witness :
    ∃ resp, (FindAllProducts sample.blankQuery sample.published).1 = .ok resp ∧
      resp.Total = 1 ∧ effectiveLimit sample.blankQuery.Limit = 10 ∧ resp.TotalPages = 1 := by
  refine ⟨productRepository.response
    (productRepository.setDefaultPagination sample.blankQuery) 1
    (sample.published.products.map productRepository.convertDbProductToModel),
    rfl, rfl, rfl, ?_⟩
  have h := listing_total_pages sample.blankQuery sample.published
    (productRepository.response
      (productRepository.setDefaultPagination sample.blankQuery) 1
      (sample.published.products.map productRepository.convertDbProductToModel))
    (by decide) (by decide) (Or.inl rfl)
  have h₁ := h.2.2.2.1
  have h₂ := h.2.2.2.2.1 1 (by decide)
  have h₃ : effectiveLimit sample.blankQuery.Limit = 10 := rfl
  have h₄ : (productRepository.response
      (productRepository.setDefaultPagination sample.blankQuery) 1
      (sample.published.products.map productRepository.convertDbProductToModel)).Total = 1 := rfl
  rw [h₃, h₄] at h₁
  omega

end productService

namespace productService

/-! ## Ranked listings -/

/-- C29. The result of `GetProductsByDiscount` and of `GetProductsBySelled` does
not depend on the fields `ProductType` and `Keyword` of the query parameters:
for every Store, page and limit, replacing the two fields by any other values
gives the same result (response or error) and the same queries sent to the
Store; `Total` of a response is the number of all published products; and both
calls return a response when the two queries are answered and limit and offset
are not negative. -/
theorem ranked_listing_ignores_filters (params : ProductQueryParams) (productType keyword : String)
    (s : Store) :
    (GetProductsByDiscount { params with ProductType := productType, Keyword := keyword } s).1 =
      (GetProductsByDiscount params s).1 ∧
    (GetProductsByDiscount { params with ProductType := productType, Keyword := keyword }
      s).2.queries = (GetProductsByDiscount params s).2.queries ∧
    (GetProductsBySelled { params with ProductType := productType, Keyword := keyword } s).1 =
      (GetProductsBySelled params s).1 ∧
    (GetProductsBySelled { params with ProductType := productType, Keyword := keyword }
      s).2.queries = (GetProductsBySelled params s).2.queries ∧
    (∀ resp, (GetProductsByDiscount params s).1 = .ok resp ∨
        (GetProductsBySelled params s).1 = .ok resp →
      resp.Total = (s.products.filter (fun r => r.IsPublished)).length) ∧
    (s.readFault s.queries.length = none → s.readFault (s.queries.length + 1) = none →
      0 ≤ int32 (effectiveLimit params.Limit) →
      0 ≤ int32 ((effectivePage params.Page - 1) * effectiveLimit params.Limit) →
      (∃ resp, (GetProductsByDiscount params s).1 = .ok resp) ∧
      ∃ resp, (GetProductsBySelled params s).1 = .ok resp) := by
  have hD : ∀ p : ProductQueryParams, GetProductsByDiscount p s = _ :=
    fun p => productRepository.FindProductsByDiscount_run p s
  have hS : ∀ p : ProductQueryParams, GetProductsBySelled p s = _ :=
    fun p => productRepository.FindProductsBySelled_run p s
  have hPage : ∀ p : ProductQueryParams, (productRepository.setDefaultPagination p).Page =
      effectivePage p.Page := productRepository.setDefaultPagination_Page
  have hLimit : ∀ p : ProductQueryParams, (productRepository.setDefaultPagination p).Limit =
      effectiveLimit p.Limit := productRepository.setDefaultPagination_Limit
  have hresp : ∀ (p q : ProductQueryParams) (count : Int) (data : List ProductModel),
      p.Page = q.Page → p.Limit = q.Limit →
      productRepository.response p count data = productRepository.response q count data := by
    intro p q count data h₁ h₂
    simp only [productRepository.response, h₁, h₂]
  have hpl : ∀ (p q : ProductQueryParams) (countQ listQ : Query) (count : Int)
      (rows : Except Error (List database.Product)) (s₁ s₂ : Store),
      p.Page = q.Page → p.Limit = q.Limit → s₁.queries = s₂.queries →
      s₁.readFault = s₂.readFault →
      (pagedListing p countQ listQ count rows s₁).1 =
        (pagedListing q countQ listQ count rows s₂).1 ∧
      (pagedListing p countQ listQ count rows s₁).2.queries =
        (pagedListing q countQ listQ count rows s₂).2.queries := by
    intro p q countQ listQ count rows s₁ s₂ h₁ h₂ h₃ h₄
    unfold pagedListing
    rw [h₃, h₄]
    cases s₂.readFault s₂.queries.length with
    | some cause => simp [Store.ask, h₃]
    | none =>
      cases s₂.readFault (s₂.queries.length + 1) with
      | some cause => simp [Store.ask, h₃]
      | none =>
        cases rows with
        | error err => simp [Store.ask, h₃]
        | ok dbProducts => simp [Store.ask, h₃, hresp p q _ _ h₁ h₂]
  have e₁ : (productRepository.setDefaultPagination
      { params with ProductType := productType, Keyword := keyword }).Page =
      (productRepository.setDefaultPagination params).Page := by rw [hPage, hPage]
  have e₂ : (productRepository.setDefaultPagination
      { params with ProductType := productType, Keyword := keyword }).Limit =
      (productRepository.setDefaultPagination params).Limit := by rw [hLimit, hLimit]
  refine ⟨?_, ?_, ?_, ?_, ?_, ?_⟩
  · rw [hD, hD, e₁, e₂]
    exact (hpl _ _ _ _ _ _ _ _ e₁ e₂ (by rfl) (by rfl)).1
  · rw [hD, hD, e₁, e₂]
    exact (hpl _ _ _ _ _ _ _ _ e₁ e₂ (by rfl) (by rfl)).2
  · rw [hS, hS, e₁, e₂]
    exact (hpl _ _ _ _ _ _ _ _ e₁ e₂ (by rfl) (by rfl)).1
  · rw [hS, hS, e₁, e₂]
    exact (hpl _ _ _ _ _ _ _ _ e₁ e₂ (by rfl) (by rfl)).2
  · intro resp h
    rw [hD, hS] at h
    rcases h with h | h
    · exact (pagedListing_page _ _ _ _ _ _ _ h).2.1
    · exact (pagedListing_page _ _ _ _ _ _ _ h).2.1
  · intro h₁ h₂ h₃ h₄
    rw [hD, hS, hPage, hLimit]
    have hq : ∀ c : Call, (s.record c).queries = s.queries := fun _ => rfl
    have hf : ∀ c : Call, (s.record c).readFault = s.readFault := fun _ => rfl
    constructor
    · unfold pagedListing
      rw [hf, hq, h₁, h₂]
      simp only [database.page, not_or.mpr ⟨not_lt.mpr h₃, not_lt.mpr h₄⟩, if_false]
      exact ⟨_, rfl⟩
    · unfold pagedListing
      rw [hf, hq, h₁, h₂]
      simp only [database.page, not_or.mpr ⟨not_lt.mpr h₃, not_lt.mpr h₄⟩, if_false]
      exact ⟨_, rfl⟩

end productService

namespace productService

/-! ## Narrowing of limit and offset -/

/-- C30, the code at an input that the claim does not survive. Page 1 with
limit 2147483648, which is `2^31`, has page and limit at least 1, yet the limit
handed to the Store is `int32(limit)`, which is -2147483648: narrowing changes
it and makes it negative, in `FindAllPublishForShop` and in `FindAllProducts`
alike, and the Store rejects the statement. -/
theorem FindAllPublishForShop_wide_page :
    (FindAllPublishForShop "shopA" 1 2147483648 sample.store).2.queries =
      [.ListPublishedProducts
        { ProductShop := "shopA", Limit := -2147483648, Offset := 0 }] ∧
    (FindAllProducts sample.widePage sample.store).2.queries =
      [.CountAllPublishedProducts,
        .ListAllPublishedProducts { Limit := -2147483648, Offset := 0 }] ∧
    sample.widePage.Page = 1 ∧ sample.widePage.Limit = 2147483648 ∧
    (FindAllPublishForShop "shopA" 1 2147483648 sample.store).1 =
      .error (.StoreError "negative LIMIT or OFFSET") := by
  refine ⟨by decide, by decide, rfl, rfl, rfl⟩

/-- C30, amended. For every page of at least 1 and limit of at least 1 such that
the limit and the offset (page - 1) * limit are both below `2^31`: narrowing to
32 bits changes neither of them, both are non-negative, and they are the limit
and the offset of the list query that each listing operation hands to the
Store. The per-shop listings send that one list query; the three paged listings
send the count query and, whenever it is answered, that list query. -/
theorem listing_narrowing (shopID : String) (params : ProductQueryParams) (s : Store)
    (hp : 1 ≤ params.Page) (hl : 1 ≤ params.Limit) (hl₁ : params.Limit < 2 ^ 31)
    (ho₁ : (params.Page - 1) * params.Limit < 2 ^ 31) :
    int32 params.Limit = params.Limit ∧
    int32 (int64 ((params.Page - 1) * params.Limit)) = (params.Page - 1) * params.Limit ∧
    0 ≤ params.Limit ∧ 0 ≤ (params.Page - 1) * params.Limit ∧
    (FindAllDraftsForShop shopID params.Page params.Limit s).2.queries =
      s.queries ++ [.ListDraftProducts
        { ProductShop := shopID, Limit := params.Limit,
          Offset := (params.Page - 1) * params.Limit }] ∧
    (FindAllPublishForShop shopID params.Page params.Limit s).2.queries =
      s.queries ++ [.ListPublishedProducts
        { ProductShop := shopID, Limit := params.Limit,
          Offset := (params.Page - 1) * params.Limit }] ∧
    (∀ q ∈ (FindAllProducts params s).2.queries.drop s.queries.length,
      q.page = none ∨ q.page = some (params.Limit, (params.Page - 1) * params.Limit)) ∧
    (∀ q ∈ (GetProductsByDiscount params s).2.queries.drop s.queries.length,
      q.page = none ∨ q.page = some (params.Limit, (params.Page - 1) * params.Limit)) ∧
    (∀ q ∈ (GetProductsBySelled params s).2.queries.drop s.queries.length,
      q.page = none ∨ q.page = some (params.Limit, (params.Page - 1) * params.Limit)) ∧
    (s.readFault s.queries.length = none →
      (FindAllProducts params s).2.queries.length = s.queries.length + 2 ∧
      (GetProductsByDiscount params s).2.queries.length = s.queries.length + 2 ∧
      (GetProductsBySelled params s).2.queries.length = s.queries.length + 2) := by
  have hO₀ : 0 ≤ (params.Page - 1) * params.Limit :=
    mul_nonneg (by omega) (by omega)
  have hL : int32 params.Limit = params.Limit := int32_of_range _ (by omega) hl₁
  have hO : int32 ((params.Page - 1) * params.Limit) = (params.Page - 1) * params.Limit :=
    int32_of_range _ hO₀ ho₁
  have hP : productRepository.setDefaultPagination params = params := by
    simp only [productRepository.setDefaultPagination, if_neg (not_lt.mpr hp),
      if_neg (not_lt.mpr hl)]
  have hA : FindAllProducts params s = _ := productRepository.FindAllProducts_run params s
  have hD : GetProductsByDiscount params s = _ :=
    productRepository.FindProductsByDiscount_run params s
  have hS : GetProductsBySelled params s = _ :=
    productRepository.FindProductsBySelled_run params s
  rw [hP, hL, hO] at hA hD hS
  have hlist : ∀ (countQ listQ : Query) (count : Int)
      (rows : Except Error (List database.Product)) (c : Call),
      countQ.page = none →
      listQ.page = some (params.Limit, (params.Page - 1) * params.Limit) →
      ∀ q ∈ (pagedListing params countQ listQ count rows (s.record c)).2.queries.drop
          s.queries.length,
        q.page = none ∨ q.page = some (params.Limit, (params.Page - 1) * params.Limit) := by
    intro countQ listQ count rows c h₁ h₂ q hq
    have hqs : (s.record c).queries = s.queries := rfl
    rcases pagedListing_queries params countQ listQ count rows (s.record c) with h | h
    · rw [h, hqs, List.drop_left] at hq
      simp only [List.mem_singleton] at hq
      rw [hq]
      exact Or.inl h₁
    · rw [h, hqs, List.drop_left] at hq
      simp only [List.mem_cons, List.mem_singleton, List.not_mem_nil, or_false] at hq
      rcases hq with rfl | rfl
      · exact Or.inl h₁
      · exact Or.inr h₂
  have hlen : ∀ (countQ listQ : Query) (count : Int)
      (rows : Except Error (List database.Product)) (c : Call),
      s.readFault s.queries.length = none →
      (pagedListing params countQ listQ count rows (s.record c)).2.queries.length =
        s.queries.length + 2 := by
    intro countQ listQ count rows c h
    rw [pagedListing_answered params countQ listQ count rows (s.record c) h]
    simp [Store.record]
  refine ⟨hL, by rw [int32_int64]; exact hO, by omega, hO₀, ?_, ?_, ?_, ?_, ?_, ?_⟩
  · simp only [FindAllDraftsForShop, productRepository.FindAllDraftsForShop,
      database.ListDraftProducts, int32_int64]
    rw [if_neg (by omega), if_neg (by omega), hL, hO]
    split <;> simp [database.query_store, Store.ask, Store.record]
  · simp only [FindAllPublishForShop, productRepository.FindAllPublishForShop,
      database.ListPublishedProducts, int32_int64]
    rw [if_neg (by omega), if_neg (by omega), hL, hO]
    split <;> simp [database.query_store, Store.ask, Store.record]
  · rw [hA]
    refine hlist _ _ _ _ _ ?_ ?_
    · unfold Filter.choose
      split_ifs <;> rfl
    · unfold Filter.choose
      split_ifs <;> rfl
  · rw [hD]
    exact hlist _ _ _ _ _ rfl rfl
  · rw [hS]
    exact hlist _ _ _ _ _ rfl rfl
  · intro h
    rw [hA, hD, hS]
    exact ⟨hlen _ _ _ _ _ h, hlen _ _ _ _ _ h, hlen _ _ _ _ _ h⟩

/-- Witness of C30: page 3 of five rows each is handed to the Store as limit 5
and offset 10. -/
theorem listing_narrowing_witness :
    (FindAllDraftsForShop "shopA" 3 5 sample.listed).2.queries =
      [.ListDraftProducts { ProductShop := "shopA", Limit := 5, Offset := 10 }] ∧
    (GetProductsByDiscount sample.thirdPage sample.listed).2.queries.length = 2 ∧
    ∀ q ∈ (GetProductsByDiscount sample.thirdPage sample.listed).2.queries,
      q.page = none ∨ q.page = some (5, 10) := by
  have h := listing_narrowing "shopA" sample.thirdPage sample.listed (by decide) (by decide)
    (by decide) (by decide)
  exact ⟨h.2.2.2.2.1, (h.2.2.2.2.2.2.2.2.2 rfl).2.1, h.2.2.2.2.2.2.2.1⟩

end productService


namespace GoMap

theorem get_mem (m : GoMap) (k : String) (v : Value) (h : m.get k = some v) : (k, v) ∈ m := by
  unfold get at h
  cases hf : m.find? (fun e => e.1 == k) with
  | none => simp [hf] at h
  | some e =>
    simp only [hf, Option.map_some', Option.some.injEq] at h
    have h₁ := List.mem_of_find?_eq_some hf
    have h₂ := List.find?_some hf
    simp only [beq_iff_eq] at h₂
    rw [← h₂, ← h]
    exact h₁

theorem int_of_jsonNumbers (bag : GoMap) (k : String) (h : bag.jsonNumbers = true) :
    bag.int k = none := by
  unfold GoMap.int
  cases hg : bag.get k with
  | none => rfl
  | some v =>
    have hm := get_mem bag k v hg
    unfold jsonNumbers at h
    rw [List.all_eq_true] at h
    have := h _ hm
    cases v <;> simp_all

end GoMap

namespace productService

/-! ## Numbers of a decoded attribute bag -/

/-- C26. For every attribute bag in which every number is a `float64` (no value
of dynamic type `int` or `uint`, as after decoding a JSON body): the Bonsai
record that `CreateProduct` builds and writes has `Age` 0 and `Height` 0, the
row written leaves both columns NULL, and the variant patch of `UpdateProduct`
for a Bonsai product holds neither `age` nor `height`. For every bag at all,
the two fields are exactly what the bag holds under `age` and `height` with
dynamic type `int`. -/
theorem bonsai_json_numbers (productID userId : String) (bag : GoMap) (s : Store)
    (h : bag.jsonNumbers = true) :
    (bonsai productID userId bag).Age = 0 ∧
    (bonsai productID userId bag).Height = 0 ∧
    createVariant "Bonsai" productID userId bag s =
      some (productRepository.CreateBonsai (bonsai productID userId bag) s) ∧
    (productRepository.bonsaiParams (bonsai productID userId bag)).row.Age =
      { Int32 := 0, Valid := false } ∧
    (productRepository.bonsaiParams (bonsai productID userId bag)).row.Height =
      { Int32 := 0, Valid := false } ∧
    (bonsaiAttrs bag).get "age" = none ∧
    (bonsaiAttrs bag).get "height" = none ∧
    (∀ bag' : GoMap, (bonsai productID userId bag').Age = (bag'.int "age").getD 0 ∧
      (bonsai productID userId bag').Height = (bag'.int "height").getD 0 ∧
      (bonsaiAttrs bag').get "age" = (bag'.int "age").map Value.int ∧
      (bonsaiAttrs bag').get "height" = (bag'.int "height").map Value.int) := by
  have ha := GoMap.int_of_jsonNumbers bag "age" h
  have hh := GoMap.int_of_jsonNumbers bag "height" h
  have hget : ∀ bag' : GoMap,
      (bonsaiAttrs bag').get "age" = (bag'.int "age").map Value.int ∧
      (bonsaiAttrs bag').get "height" = (bag'.int "height").map Value.int := by
    intro bag'
    constructor
    · simp only [bonsaiAttrs, get_putString, get_putInt, GoMap.get_nil]
      cases bag'.int "age" <;> simp
    · simp only [bonsaiAttrs, get_putString, get_putInt, GoMap.get_nil]
      cases bag'.int "height" <;> simp
  refine ⟨by simp [bonsai, ha], by simp [bonsai, hh], by simp [createVariant], ?_, ?_, ?_, ?_, ?_⟩
  · simp [productRepository.bonsaiParams, database.CreateBonsaiParams.row, NullInt32.column,
      bonsai, ha]
  · simp [productRepository.bonsaiParams, database.CreateBonsaiParams.row, NullInt32.column,
      bonsai, hh]
  · rw [(hget bag).1, ha]; rfl
  · rw [(hget bag).2, hh]; rfl
  · intro bag'
    exact ⟨rfl, rfl, (hget bag').1, (hget bag').2⟩

/-- Witness of C26: the bag decoded from `{"age": 5, "height": 30, "style":
"moyogi"}` gives a Bonsai row with the style and without age and height. -/
theorem bonsai_json_numbers_witness :
    (bonsai "id2" "shopA" sample.bonsaiBag).Age = 0 ∧
    (bonsai "id2" "shopA" sample.bonsaiBag).Height = 0 ∧
    (bonsaiAttrs sample.bonsaiBag).get "age" = none ∧
    (CreateProduct sample.ctxA sample.juniper "id2" 1 2 sample.store).2.bonsais =
      [{ ID := "id2", ProductShop := "shopA", Age := { Int32 := 0, Valid := false },
         Height := { Int32 := 0, Valid := false },
         Style := { String := "moyogi", Valid := true },
         Species := { String := "", Valid := false },
         PotType := { String := "", Valid := false } }] := by
  have h := bonsai_json_numbers "id2" "shopA" sample.bonsaiBag sample.store (by decide)
  exact ⟨h.1, h.2.1, h.2.2.2.2.2.1, by decide⟩

end productService

/-! ## Blank descriptions -/

namespace strings

theorem mem_of_mem_Split (sep : Char) (cs : List Char) :
    ∀ l ∈ Split sep cs, ∀ c ∈ l, c ∈ cs := by
  induction cs with
  | nil =>
    intro l hl c hc
    simp only [Split, List.mem_singleton] at hl
    subst hl
    exact hc
  | cons d ds ih =>
    intro l hl c hc
    unfold Split at hl
    split at hl
    · simp only [List.mem_cons] at hl
      rcases hl with rfl | hl
      · simp at hc
      · exact List.mem_cons_of_mem _ (ih l hl c hc)
    · split at hl
      · simp only [List.mem_singleton] at hl
        subst hl
        simp only [List.mem_singleton] at hc
        subst hc
        exact List.mem_cons_self _ _
      · rename_i l₀ ls heq
        simp only [List.mem_cons] at hl
        rcases hl with rfl | hl
        · simp only [List.mem_cons] at hc
          rcases hc with rfl | hc
          · exact List.mem_cons_self _ _
          · exact List.mem_cons_of_mem _ (ih l₀ (by rw [heq]; simp) c hc)
        · exact List.mem_cons_of_mem _ (ih l (by rw [heq]; simp [hl]) c hc)

theorem TrimSpace_blank (l : List Char) (h : ∀ c ∈ l, IsSpace c = true) : TrimSpace l = [] := by
  unfold TrimSpace
  have : l.dropWhile IsSpace = [] := List.dropWhile_eq_nil_iff.mpr h
  rw [this]
  rfl

end strings

theorem htmlContent_blank (d : String) (h : ∀ c ∈ d.data, strings.IsSpace c = true) :
    htmlContent d = "" := by
  rw [htmlContent_eq_paragraphs]
  unfold paragraphs
  have hf : ((strings.Split '\n' d.data).map strings.TrimSpace).filter (fun line => line ≠ []) =
      [] := by
    rw [List.filter_eq_nil_iff]
    intro l hl
    obtain ⟨l₀, hl₀, rfl⟩ := List.mem_map.mp hl
    have := strings.TrimSpace_blank l₀
      (fun c hc => h c (strings.mem_of_mem_Split '\n' d.data l₀ hl₀ c hc))
    simp [this]
  rw [hf]
  rfl

namespace productService

/-- C28. For every description that is not empty and holds nothing but white
space and line breaks, the normalised description is the empty string: the
product built by `CreateProduct` has an empty description and the row written
keeps the column NULL, and the main patch of `UpdateProduct` holds the key
`product_description` with the empty string as its value, an assignment that
sets the stored description to the empty string. -/
theorem blank_description (input : ProductInput) (productID userId : String)
    (now₁ now₂ now : Nat) (hd : input.ProductDescription ≠ "")
    (hb : ∀ c ∈ input.ProductDescription.data, strings.IsSpace c = true) :
    htmlContent input.ProductDescription = "" ∧
    (product input productID userId now₁ now₂).ProductDescription = "" ∧
    (productRepository.productParams
      (product input productID userId now₁ now₂)).row.ProductDescription =
      { String := "", Valid := false } ∧
    (updateData input now).get "product_description" = some (.string "") ∧
    (gorm.productColumn "product_description" (.string "")).map
        (fun f => fun r : database.Product => (f r).ProductDescription) =
      some (fun _ => { String := "", Valid := true }) := by
  have h := htmlContent_blank input.ProductDescription hb
  have hp : (product input productID userId now₁ now₂).ProductDescription = "" := by
    simp only [product, if_pos hd, h]
  refine ⟨h, hp, ?_, ?_, rfl⟩
  · simp [productRepository.productParams, database.CreateProductParams.row, NullString.column,
      hp]
  · simp [updateData, get_putIf, GoMap.get_set, GoMap.get_nil, hd, h]

/-- Witness of C28: the product created with the description of two lines is
updated with a description of blanks and line breaks, and its stored
description becomes the empty string. -/
theorem blank_description_witness :
    htmlContent sample.blanked.ProductDescription = "" ∧
    (updateData sample.blanked 9).get "product_description" = some (.string "") ∧
    (CreateProduct sample.ctxA sample.described "id1" 1 2 sample.store).2.products.map
        (fun r => r.ProductDescription) =
      [{ String := "<p>Fresh</p><p>from Dalat</p>", Valid := true }] ∧
    (UpdateProduct sample.ctxA "id1" sample.blanked 9
        (CreateProduct sample.ctxA sample.described "id1" 1 2 sample.store).2).2.products.map
        (fun r => r.ProductDescription) =
      [{ String := "", Valid := true }] := by
  have h := blank_description sample.blanked "id1" "shopA" 1 2 9 (by decide) (by decide)
  exact ⟨h.1, h.2.2.2.1, by decide, by decide⟩

end productService

/-! ## Columns that no update names -/

namespace GoMap

theorem set_keys (P : String → Prop) (m : GoMap) (k : String) (v : Value)
    (hm : ∀ e ∈ m, P e.1) (hk : P k) : ∀ e ∈ m.set k v, P e.1 := by
  induction m with
  | nil =>
    intro e he
    simp only [set, List.mem_singleton] at he
    rw [he]
    exact hk
  | cons a m ih =>
    intro e he
    obtain ⟨k', v'⟩ := a
    unfold set at he
    split_ifs at he with h
    · simp only [List.mem_cons] at he
      rcases he with rfl | he
      · exact hk
      · exact hm e (List.mem_cons_of_mem _ he)
    · simp only [List.mem_cons] at he
      rcases he with rfl | he
      · exact hm _ (List.mem_cons_self _ _)
      · exact ih (fun e he => hm e (List.mem_cons_of_mem _ he)) e he

theorem get_of_keys (P : String → Prop) (m : GoMap) (k : String)
    (hm : ∀ e ∈ m, P e.1) (hk : ¬ P k) : m.get k = none := by
  cases hg : m.get k with
  | none => rfl
  | some v => exact absurd (hm _ (get_mem m k v hg)) hk

end GoMap

namespace gorm

theorem productColumn_fixed (k : String) (v : Value) (f : database.Product → database.Product)
    (hk : k ∈ productService.mainKeys ∨ k ∈ productService.variantKeys)
    (h : productColumn k v = some f) (r : database.Product) :
    (f r).fixedColumns = r.fixedColumns := by
  simp only [productService.mainKeys, productService.variantKeys, List.mem_cons,
    List.mem_singleton, List.not_mem_nil, or_false] at hk
  rcases hk with (rfl | rfl | rfl | rfl | rfl | rfl | rfl | rfl | rfl | rfl | rfl) |
    (rfl | rfl | rfl | rfl | rfl | rfl | rfl | rfl | rfl)
  all_goals
    cases v
    all_goals first
      | (cases h; rfl)
      | cases h
      | (rename_i n
         by_cases hn : int32 n = n
         · have h' : some (fun r : database.Product => { r with ProductQuantity := n }) =
               some f := by
             rw [← h]
             show _ = (if int32 n = n then _ else _)
             rw [if_pos hn]
           cases h'
           rfl
         · have h' : (none : Option (database.Product → database.Product)) = some f := by
             rw [← h]
             show _ = (if int32 n = n then _ else _)
             rw [if_neg hn]
           cases h')

theorem assignments_fixed (m : GoMap) (fs : List (database.Product → database.Product))
    (h : assignments productColumn m = .ok fs)
    (hm : ∀ e ∈ m, e.1 ∈ productService.mainKeys ∨ e.1 ∈ productService.variantKeys) :
    ∀ f ∈ fs, ∀ r, (f r).fixedColumns = r.fixedColumns := by
  induction m generalizing fs with
  | nil =>
    simp only [assignments, Except.ok.injEq] at h
    subst h
    simp
  | cons a m ih =>
    obtain ⟨k, v⟩ := a
    unfold assignments at h
    cases hc : productColumn k v with
    | none => simp [hc] at h
    | some f₀ =>
      cases ha : assignments productColumn m with
      | error e => simp [hc, ha] at h
      | ok fs₀ =>
        simp only [hc, ha, Except.ok.injEq] at h
        subst h
        intro f hf r
        simp only [List.mem_cons] at hf
        rcases hf with rfl | hf
        · exact productColumn_fixed k v f (hm (k, v) (List.mem_cons_self _ _)) hc r
        · exact ih fs₀ ha (fun e he => hm e (List.mem_cons_of_mem _ he)) f hf r

theorem foldl_fixed (fs : List (database.Product → database.Product))
    (h : ∀ f ∈ fs, ∀ r, (f r).fixedColumns = r.fixedColumns) (r : database.Product) :
    (fs.foldl (fun r f => f r) r).fixedColumns = r.fixedColumns := by
  induction fs generalizing r with
  | nil => rfl
  | cons f fs ih =>
    simp only [List.foldl_cons]
    rw [ih (fun g hg => h g (List.mem_cons_of_mem _ hg)), h f (List.mem_cons_self _ _)]

theorem Updates_products_fixed (id : String) (values : GoMap) (s : Store)
    (hm : ∀ e ∈ values, e.1 ∈ productService.mainKeys ∨ e.1 ∈ productService.variantKeys) :
    (Updates "products" id values s).2.products.map database.Product.fixedColumns =
      s.products.map database.Product.fixedColumns := by
  unfold Updates
  cases s.failure with
  | some e => rfl
  | none =>
    simp only [if_true]
    cases ha : assignments productColumn values with
    | error e => rfl
    | ok fs =>
      simp only [patch, List.map_map]
      apply List.map_congr_left
      intro r _
      simp only [Function.comp]
      split_ifs
      · exact foldl_fixed fs (assignments_fixed values fs ha hm) r
      · rfl

end gorm

namespace productService

theorem putIf_keys (P : String → Prop) (c : Prop) [Decidable c] (m : GoMap) (k : String)
    (v : Value) (hm : ∀ e ∈ m, P e.1) (hk : P k) : ∀ e ∈ putIf c m k v, P e.1 := by
  unfold putIf
  split_ifs
  · exact GoMap.set_keys P m k v hm hk
  · exact hm

theorem putFloat64_keys (P : String → Prop) (bag : GoMap) (k : String) (m : GoMap)
    (hm : ∀ e ∈ m, P e.1) (hk : P k) : ∀ e ∈ putFloat64 bag k m, P e.1 := by
  unfold putFloat64
  split
  · exact GoMap.set_keys P m k _ hm hk
  · exact hm

theorem putString_keys (P : String → Prop) (bag : GoMap) (k : String) (m : GoMap)
    (hm : ∀ e ∈ m, P e.1) (hk : P k) : ∀ e ∈ putString bag k m, P e.1 := by
  unfold putString
  split
  · exact GoMap.set_keys P m k _ hm hk
  · exact hm

theorem putInt_keys (P : String → Prop) (bag : GoMap) (k : String) (m : GoMap)
    (hm : ∀ e ∈ m, P e.1) (hk : P k) : ∀ e ∈ putInt bag k m, P e.1 := by
  unfold putInt
  split
  · exact GoMap.set_keys P m k _ hm hk
  · exact hm

theorem updateData_keys (input : ProductInput) (now : Nat) :
    ∀ e ∈ updateData input now, e.1 ∈ mainKeys := by
  unfold updateData
  refine GoMap.set_keys _ _ _ _ ?_ (by decide)
  iterate 10 refine putIf_keys _ _ _ _ _ ?_ (by decide)
  simp

theorem mushroomAttrs_keys (bag : GoMap) : ∀ e ∈ mushroomAttrs bag, e.1 ∈ variantKeys := by
  unfold mushroomAttrs
  iterate 3 refine putString_keys _ _ _ _ ?_ (by decide)
  refine putFloat64_keys _ _ _ _ ?_ (by decide)
  simp

theorem vegetableAttrs_keys (bag : GoMap) : ∀ e ∈ vegetableAttrs bag, e.1 ∈ variantKeys := by
  unfold vegetableAttrs
  iterate 3 refine putString_keys _ _ _ _ ?_ (by decide)
  refine putFloat64_keys _ _ _ _ ?_ (by decide)
  simp

theorem bonsaiAttrs_keys (bag : GoMap) : ∀ e ∈ bonsaiAttrs bag, e.1 ∈ variantKeys := by
  unfold bonsaiAttrs
  iterate 3 refine putString_keys _ _ _ _ ?_ (by decide)
  iterate 2 refine putInt_keys _ _ _ _ ?_ (by decide)
  simp

theorem UpdateProductByID_fixed (productID : String) (values : GoMap) (s : Store)
    (hm : ∀ e ∈ values, e.1 ∈ mainKeys ∨ e.1 ∈ variantKeys) :
    (productRepository.UpdateProductByID productID values s).2.products.map
        database.Product.fixedColumns =
      s.products.map database.Product.fixedColumns :=
  gorm.Updates_products_fixed productID values s hm

theorem updateAttributes_fixed (productType productID : String) (attributes : GoMap)
    (s : Store) :
    (updateAttributes productType productID attributes s).2.products.map
        database.Product.fixedColumns =
      s.products.map database.Product.fixedColumns := by
  simp only [updateAttributes]
  split_ifs
  all_goals first
    | rfl
    | exact UpdateProductByID_fixed _ _ _ (fun e he => Or.inr (mushroomAttrs_keys _ e he))
    | exact UpdateProductByID_fixed _ _ _ (fun e he => Or.inr (vegetableAttrs_keys _ e he))
    | exact UpdateProductByID_fixed _ _ _ (fun e he => Or.inr (bonsaiAttrs_keys _ e he))

theorem UpdateProduct_fixed (ctx : Context) (productID : String) (input : ProductInput)
    (now : Nat) (s : Store) :
    (UpdateProduct ctx productID input now s).2.products.map database.Product.fixedColumns =
      s.products.map database.Product.fixedColumns := by
  unfold UpdateProduct
  cases hc : auth.ExtractUserID ctx with
  | error err => rfl
  | ok userId =>
    have hstore := productRepository.FindProduct_store productID s
    cases hf : productRepository.FindProduct productID s with
    | mk r s₁ =>
      rw [hf] at hstore
      simp only at hstore
      have hs₁ : s₁.products = s.products := by rw [hstore]; rfl
      cases r with
      | error err =>
        simp only
        rw [hs₁]
      | ok product =>
        simp only
        split
        · rw [hs₁]
        · have h₁ := updateAttributes_fixed product.ProductType productID
            input.ProductAttributes s₁
          cases hu : updateAttributes product.ProductType productID input.ProductAttributes s₁ with
          | mk e s₂ =>
            rw [hu] at h₁
            simp only at h₁
            cases e with
            | some err =>
              simp only
              rw [h₁, hs₁]
            | none =>
              simp only
              rw [if_pos (updateData_len_pos input now),
                UpdateProductByID_fixed _ _ _ (fun e he => Or.inl (updateData_keys _ _ e he)),
                h₁, hs₁]

end productService

/-! ## Products after each write operation -/

namespace productRepository

theorem CreateMushroom_products (mushroom : MushroomModel) (s : Store) :
    (CreateMushroom mushroom s).2.products = s.products := by
  unfold CreateMushroom database.CreateMushroom
  cases s.failure <;> rfl

theorem CreateVegetable_products (vegetable : VegetableModel) (s : Store) :
    (CreateVegetable vegetable s).2.products = s.products := by
  unfold CreateVegetable database.CreateVegetable
  cases s.failure <;> rfl

theorem CreateBonsai_products (bonsai : BonsaiModel) (s : Store) :
    (CreateBonsai bonsai s).2.products = s.products := by
  unfold CreateBonsai database.CreateBonsai
  cases s.failure <;> rfl

theorem InsertInventory_products (inventory : InventoryInput) (s : Store) :
    (InsertInventory inventory s).2.products = s.products := by
  unfold InsertInventory database.CreateInventory
  cases s.failure <;> rfl

theorem CreateProduct_appends (product : ProductModel) (s : Store) :
    (CreateProduct product s).2.products = s.products ∨
    (CreateProduct product s).2.products = s.products ++ [(productParams product).row] := by
  unfold CreateProduct database.CreateProduct
  cases s.failure with
  | some e => exact Or.inl rfl
  | none =>
    simp only
    split_ifs
    · exact Or.inl rfl
    · exact Or.inr rfl

end productRepository

namespace productService

theorem createVariant_products (productType productID userId : String) (attributes : GoMap)
    (s : Store) (r : Option Error × Store)
    (h : createVariant productType productID userId attributes s = some r) :
    r.2.products = s.products := by
  unfold createVariant at h
  split_ifs at h
  all_goals
    simp only [Option.some.injEq] at h
    subst h
  · exact productRepository.CreateMushroom_products _ _
  · exact productRepository.CreateVegetable_products _ _
  · exact productRepository.CreateBonsai_products _ _

theorem CreateProduct_products (ctx : Context) (input : ProductInput) (productID : String)
    (now₁ now₂ : Nat) (s : Store) :
    (CreateProduct ctx input productID now₁ now₂ s).2.products = s.products ∨
    ∃ userId, (CreateProduct ctx input productID now₁ now₂ s).2.products =
      s.products ++
        [(productRepository.productParams (product input productID userId now₁ now₂)).row] := by
  unfold CreateProduct
  split_ifs
  · exact Or.inl rfl
  · cases auth.ExtractUserID ctx with
    | error err => exact Or.inl rfl
    | ok userId =>
      simp only
      cases hv : createVariant input.ProductType productID userId input.ProductAttributes s with
      | none => exact Or.inl rfl
      | some r =>
        have h₁ := createVariant_products _ _ _ _ _ r hv
        obtain ⟨e, s₁⟩ := r
        simp only at h₁
        cases e with
        | some err => exact Or.inl h₁
        | none =>
          simp only
          have h₂ := productRepository.CreateProduct_appends
            (product input productID userId now₁ now₂) s₁
          cases hp : productRepository.CreateProduct
              (product input productID userId now₁ now₂) s₁ with
          | mk e₂ s₂ =>
            rw [hp] at h₂
            simp only at h₂
            rw [h₁] at h₂
            cases e₂ with
            | some err =>
              simp only
              rcases h₂ with h₂ | h₂
              · exact Or.inl h₂
              · exact Or.inr ⟨userId, h₂⟩
            | none =>
              simp only
              have h₃ := productRepository.InsertInventory_products
                (inventory input productID userId) s₂
              cases hi : productRepository.InsertInventory
                  (inventory input productID userId) s₂ with
              | mk e₃ s₃ =>
                rw [hi] at h₃
                simp only at h₃
                have h₄ : s₃.products = s.products ∨ s₃.products = s.products ++
                    [(productRepository.productParams
                      (product input productID userId now₁ now₂)).row] := by
                  rw [h₃]
                  exact h₂
                cases e₃ with
                | some err =>
                  simp only
                  rcases h₄ with h₄ | h₄
                  · exact Or.inl h₄
                  · exact Or.inr ⟨userId, h₄⟩
                | none =>
                  simp only
                  rcases h₄ with h₄ | h₄
                  · exact Or.inl h₄
                  · exact Or.inr ⟨userId, h₄⟩

theorem PublishProduct_products (productID shopID : String) (s : Store) :
    (PublishProduct productID shopID s).2.products = s.products ∨
    (PublishProduct productID shopID s).2.products =
      s.products.map (fun r =>
        if (r.ID == productID && r.ProductShop == shopID) = true then
          { r with IsDraft := false, IsPublished := true }
        else r) := by
  unfold PublishProduct productRepository.PublishProductByShop database.PublishProduct
  cases s.failure with
  | some e => exact Or.inl rfl
  | none => exact Or.inr rfl

theorem UnPublishProduct_products (productID shopID : String) (s : Store) :
    (UnPublishProduct productID shopID s).2.products = s.products ∨
    (UnPublishProduct productID shopID s).2.products =
      s.products.map (fun r =>
        if (r.ID == productID && r.ProductShop == shopID) = true then
          { r with IsDraft := true, IsPublished := false }
        else r) := by
  unfold UnPublishProduct productRepository.UnPublishProductByShop database.UnpublishProduct
  cases s.failure with
  | some e => exact Or.inl rfl
  | none => exact Or.inr rfl

end productService

theorem flagsConsistent_iff (s : Store) :
    s.flagsConsistent = true ↔
      ∀ r ∈ s.products, ¬ (r.IsPublished = true ∧ r.IsDraft = true) := by
  simp only [Store.flagsConsistent, List.all_eq_true]
  constructor
  · intro h r hr hpd
    have := h r hr
    simp [hpd.1, hpd.2] at this
  · intro h r hr
    have := h r hr
    cases hp : r.IsPublished <;> cases hd : r.IsDraft <;> simp_all

theorem flagsConsistent_fixed (s₁ s₂ : Store)
    (h : s₁.products.map database.Product.fixedColumns =
      s₂.products.map database.Product.fixedColumns) :
    s₁.flagsConsistent = s₂.flagsConsistent := by
  have key : ∀ s : Store, s.flagsConsistent =
      (s.products.map database.Product.fixedColumns).all
        (fun c => !(c.2.2.2.2 && c.2.2.2.1)) := by
    intro s
    unfold Store.flagsConsistent
    induction s.products with
    | nil => rfl
    | cons r rs ih =>
      simp only [List.all_cons, List.map_cons, ih]
      rfl
  rw [key, key, h]

theorem Op.run_flagsConsistent (op : Op) (s : Store) (h : s.flagsConsistent = true) :
    (op.run s).flagsConsistent = true := by
  cases op with
  | CreateProduct ctx input productID now₁ now₂ =>
    simp only [Op.run]
    rcases productService.CreateProduct_products ctx input productID now₁ now₂ s with
      hp | ⟨userId, hp⟩
    · rw [flagsConsistent_iff] at h ⊢
      rw [hp]
      exact h
    · rw [flagsConsistent_iff] at h ⊢
      rw [hp]
      intro r hr
      simp only [List.mem_append, List.mem_singleton] at hr
      rcases hr with hr | rfl
      · exact h r hr
      · simp [productRepository.productParams, database.CreateProductParams.row,
          productService.product]
  | UpdateProduct ctx productID input now =>
    simp only [Op.run]
    rw [flagsConsistent_fixed _ s (productService.UpdateProduct_fixed ctx productID input now s)]
    exact h
  | PublishProduct productID shopID =>
    simp only [Op.run]
    rw [flagsConsistent_iff] at h ⊢
    rcases productService.PublishProduct_products productID shopID s with hp | hp
    · rw [hp]
      exact h
    · rw [hp]
      intro r hr
      obtain ⟨r₀, hr₀, rfl⟩ := List.mem_map.mp hr
      split_ifs
      · simp
      · exact h r₀ hr₀
  | UnPublishProduct productID shopID =>
    simp only [Op.run]
    rw [flagsConsistent_iff] at h ⊢
    rcases productService.UnPublishProduct_products productID shopID s with hp | hp
    · rw [hp]
      exact h
    · rw [hp]
      intro r hr
      obtain ⟨r₀, hr₀, rfl⟩ := List.mem_map.mp hr
      split_ifs
      · simp
      · exact h r₀ hr₀

theorem after_flagsConsistent (ops : List Op) (s : Store) (h : s.flagsConsistent = true) :
    (s.after ops).flagsConsistent = true := by
  induction ops generalizing s with
  | nil => exact h
  | cons op ops ih =>
    simp only [Store.after, List.foldl_cons]
    exact ih (op.run s) (Op.run_flagsConsistent op s h)

namespace productService

/-! ## What an update cannot change -/

theorem patch_keys_none (input : ProductInput) (now : Nat) (k : String)
    (h₁ : k ∉ mainKeys) (h₂ : k ∉ variantKeys) :
    (updateData input now).get k = none ∧
    (mushroomAttrs input.ProductAttributes).get k = none ∧
    (vegetableAttrs input.ProductAttributes).get k = none ∧
    (bonsaiAttrs input.ProductAttributes).get k = none :=
  ⟨GoMap.get_of_keys (· ∈ mainKeys) _ k (updateData_keys input now) h₁,
    GoMap.get_of_keys (· ∈ variantKeys) _ k (mushroomAttrs_keys _) h₂,
    GoMap.get_of_keys (· ∈ variantKeys) _ k (vegetableAttrs_keys _) h₂,
    GoMap.get_of_keys (· ∈ variantKeys) _ k (bonsaiAttrs_keys _) h₂⟩

theorem find_of_same_identity (productID : String) (before after : List database.Product)
    (h : after.map (fun r => (r.ID, r.ProductType, r.ProductShop)) =
      before.map (fun r => (r.ID, r.ProductType, r.ProductShop)))
    (row : database.Product) (hrow : before.find? (fun r => r.ID == productID) = some row) :
    ∃ row', after.find? (fun r => r.ID == productID) = some row' ∧
      row'.ID = row.ID ∧ row'.ProductType = row.ProductType ∧
      row'.ProductShop = row.ProductShop := by
  induction before generalizing after with
  | nil => simp at hrow
  | cons r rs ih =>
    cases after with
    | nil => simp at h
    | cons a as =>
      simp only [List.map_cons, List.cons.injEq, Prod.mk.injEq] at h
      obtain ⟨⟨h₁, h₂, h₃⟩, htail⟩ := h
      simp only [List.find?_cons] at hrow ⊢
      rw [h₁]
      cases hid : r.ID == productID with
      | true =>
        simp only [hid, Option.some.injEq] at hrow
        subst hrow
        exact ⟨a, rfl, h₁, h₂, h₃⟩
      | false =>
        simp only [hid] at hrow
        exact ih as htail hrow

/-- C24. For every context, product identifier, update input (whatever its
`ProductType`) and Store: neither the main patch `updateData` nor the attribute
map of any variant kind holds the key `product_type`, `id` or `product_shop`;
after `UpdateProduct` every stored product has the identifier, the type tag and
the owning shop it had before, row by row; in particular the product looked up
by the identifier keeps the three. -/
theorem UpdateProduct_keeps_identity (ctx : Context) (productID : String)
    (input : ProductInput) (now : Nat) (s : Store) :
    (∀ k ∈ ["product_type", "id", "product_shop"],
      (updateData input now).get k = none ∧
      (mushroomAttrs input.ProductAttributes).get k = none ∧
      (vegetableAttrs input.ProductAttributes).get k = none ∧
      (bonsaiAttrs input.ProductAttributes).get k = none) ∧
    (UpdateProduct ctx productID input now s).2.products.map
        (fun r => (r.ID, r.ProductType, r.ProductShop)) =
      s.products.map (fun r => (r.ID, r.ProductType, r.ProductShop)) ∧
    (∀ row, s.products.find? (fun r => r.ID == productID) = some row →
      ∃ row', (UpdateProduct ctx productID input now s).2.products.find?
          (fun r => r.ID == productID) = some row' ∧
        row'.ID = row.ID ∧ row'.ProductType = row.ProductType ∧
        row'.ProductShop = row.ProductShop) := by
  have hfix := UpdateProduct_fixed ctx productID input now s
  have htriple : (UpdateProduct ctx productID input now s).2.products.map
        (fun r => (r.ID, r.ProductType, r.ProductShop)) =
      s.products.map (fun r => (r.ID, r.ProductType, r.ProductShop)) := by
    have h := congrArg (List.map (fun c : String × String × String × Bool × Bool =>
      (c.1, c.2.1, c.2.2.1))) hfix
    simpa only [List.map_map] using h
  refine ⟨?_, htriple, ?_⟩
  · intro k hk
    simp only [List.mem_cons, List.mem_singleton, List.not_mem_nil, or_false] at hk
    rcases hk with rfl | rfl | rfl <;> exact patch_keys_none input now _ (by decide) (by decide)
  · intro row hrow
    exact find_of_same_identity productID _ _ htriple row hrow

end productService

namespace productService

/-! ## Draft and published flags -/

/-- C23. Starting from any Store in which no product is published and a draft
at once, after every sequence of calls of `CreateProduct`, `UpdateProduct`,
`PublishProduct` and `UnPublishProduct`, whatever their arguments and results,
no stored product has `published=true` together with `draft=true`. The three
reasons: the product that `CreateProduct` builds and the row it writes have
`draft=true` and `published=false`; no patch of `UpdateProduct` holds the key
`is_draft` or `is_published`; and every row after `PublishProduct` is a row
from before or has `draft=false`, `published=true`, every row after
`UnPublishProduct` is a row from before or has `draft=true`,
`published=false`. -/
theorem flags_invariant (ops : List Op) (s : Store) (h : s.flagsConsistent = true) :
    (s.after ops).flagsConsistent = true ∧
    (∀ r ∈ (s.after ops).products, ¬ (r.IsPublished = true ∧ r.IsDraft = true)) ∧
    (∀ (input : ProductInput) (productID userId : String) (now₁ now₂ : Nat),
      (product input productID userId now₁ now₂).IsDraft = true ∧
      (product input productID userId now₁ now₂).IsPublished = false ∧
      (productRepository.productParams (product input productID userId now₁ now₂)).row.IsDraft =
        true ∧
      (productRepository.productParams
        (product input productID userId now₁ now₂)).row.IsPublished = false) ∧
    (∀ (input : ProductInput) (now : Nat), ∀ k ∈ ["is_draft", "is_published"],
      (updateData input now).get k = none ∧
      (mushroomAttrs input.ProductAttributes).get k = none ∧
      (vegetableAttrs input.ProductAttributes).get k = none ∧
      (bonsaiAttrs input.ProductAttributes).get k = none) ∧
    (∀ (productID shopID : String) (s₀ : Store),
      ∀ r ∈ (PublishProduct productID shopID s₀).2.products,
        r ∈ s₀.products ∨ (r.IsDraft = false ∧ r.IsPublished = true)) ∧
    (∀ (productID shopID : String) (s₀ : Store),
      ∀ r ∈ (UnPublishProduct productID shopID s₀).2.products,
        r ∈ s₀.products ∨ (r.IsDraft = true ∧ r.IsPublished = false)) := by
  have hinv := after_flagsConsistent ops s h
  refine ⟨hinv, (flagsConsistent_iff _).mp hinv, fun _ _ _ _ _ => ⟨rfl, rfl, rfl, rfl⟩, ?_, ?_, ?_⟩
  · intro input now k hk
    simp only [List.mem_cons, List.mem_singleton, List.not_mem_nil, or_false] at hk
    rcases hk with rfl | rfl <;> exact patch_keys_none input now _ (by decide) (by decide)
  · intro productID shopID s₀ r hr
    rcases PublishProduct_products productID shopID s₀ with hp | hp
    · rw [hp] at hr
      exact Or.inl hr
    · rw [hp] at hr
      obtain ⟨r₀, hr₀, rfl⟩ := List.mem_map.mp hr
      split_ifs
      · exact Or.inr ⟨rfl, rfl⟩
      · exact Or.inl hr₀
  · intro productID shopID s₀ r hr
    rcases UnPublishProduct_products productID shopID s₀ with hp | hp
    · rw [hp] at hr
      exact Or.inl hr
    · rw [hp] at hr
      obtain ⟨r₀, hr₀, rfl⟩ := List.mem_map.mp hr
      split_ifs
      · exact Or.inr ⟨rfl, rfl⟩
      · exact Or.inl hr₀

/-- Witness of C23: from the empty Store, shop A creates a product, publishes
it, renames it and takes it back; the product ends as a draft. -/
theorem flags_invariant_witness :
    (sample.store.after sample.history).flagsConsistent = true ∧
    (sample.store.after sample.history).products.map
        (fun r => (r.ID, r.ProductName, r.IsDraft, r.IsPublished)) =
      [("id1", "Shiitake dried", true, false)] :=
  ⟨(flags_invariant sample.history sample.store (by decide)).1, by decide⟩

end productService

namespace productService

/-! ## Publishing twice -/

theorem PublishProduct_run (productID shopID : String) (s : Store)
    (hf : s.fault s.log.length = none) :
    PublishProduct productID shopID s =
      (none, { s with
        products := s.products.map (fun r =>
          if (r.ID == productID && r.ProductShop == shopID) = true then
            { r with IsDraft := false, IsPublished := true }
          else r),
        log := s.log ++ [.PublishProductByShop productID shopID] }) := by
  simp [PublishProduct, productRepository.PublishProductByShop, database.PublishProduct,
    Store.failure, hf, errOf, Store.record]

theorem UnPublishProduct_run (productID shopID : String) (s : Store)
    (hf : s.fault s.log.length = none) :
    UnPublishProduct productID shopID s =
      (none, { s with
        products := s.products.map (fun r =>
          if (r.ID == productID && r.ProductShop == shopID) = true then
            { r with IsDraft := true, IsPublished := false }
          else r),
        log := s.log ++ [.UnPublishProductByShop productID shopID] }) := by
  simp [UnPublishProduct, productRepository.UnPublishProductByShop, database.UnpublishProduct,
    Store.failure, hf, errOf, Store.record]

theorem PublishProduct_frame (productID shopID : String) (s : Store) :
    (PublishProduct productID shopID s).2.mushrooms = s.mushrooms ∧
    (PublishProduct productID shopID s).2.vegetables = s.vegetables ∧
    (PublishProduct productID shopID s).2.bonsais = s.bonsais ∧
    (PublishProduct productID shopID s).2.inventories = s.inventories := by
  unfold PublishProduct productRepository.PublishProductByShop database.PublishProduct
  cases s.failure <;> exact ⟨rfl, rfl, rfl, rfl⟩

theorem UnPublishProduct_frame (productID shopID : String) (s : Store) :
    (UnPublishProduct productID shopID s).2.mushrooms = s.mushrooms ∧
    (UnPublishProduct productID shopID s).2.vegetables = s.vegetables ∧
    (UnPublishProduct productID shopID s).2.bonsais = s.bonsais ∧
    (UnPublishProduct productID shopID s).2.inventories = s.inventories := by
  unfold UnPublishProduct productRepository.UnPublishProductByShop database.UnpublishProduct
  cases s.failure <;> exact ⟨rfl, rfl, rfl, rfl⟩

theorem map_flags_idem (productID shopID : String) (d p : Bool) (rows : List database.Product) :
    (rows.map (fun r =>
        if (r.ID == productID && r.ProductShop == shopID) = true then
          { r with IsDraft := d, IsPublished := p }
        else r)).map (fun r =>
        if (r.ID == productID && r.ProductShop == shopID) = true then
          { r with IsDraft := d, IsPublished := p }
        else r) =
      rows.map (fun r =>
        if (r.ID == productID && r.ProductShop == shopID) = true then
          { r with IsDraft := d, IsPublished := p }
        else r) := by
  rw [List.map_map]
  apply List.map_congr_left
  intro r _
  simp only [Function.comp]
  by_cases h : (r.ID == productID && r.ProductShop == shopID) = true
  · simp [h]
  · simp [h]

theorem map_flags_same (productID shopID : String) (d p : Bool) (rows : List database.Product)
    (h : ∀ r ∈ rows, r.ID = productID → r.ProductShop = shopID →
      r.IsDraft = d ∧ r.IsPublished = p) :
    rows.map (fun r =>
        if (r.ID == productID && r.ProductShop == shopID) = true then
          { r with IsDraft := d, IsPublished := p }
        else r) = rows := by
  conv_rhs => rw [← List.map_id rows]
  apply List.map_congr_left
  intro r hr
  by_cases hh : (r.ID == productID && r.ProductShop == shopID) = true
  · have hh' := hh
    simp only [Bool.and_eq_true, beq_iff_eq] at hh'
    obtain ⟨h₁, h₂⟩ := h r hr hh'.1 hh'.2
    simp only [hh, if_true, id]
    cases r
    simp only at h₁ h₂
    subst h₁ h₂
    rfl
  · simp [hh]

/-- C22. For every product identifier, shop and Store whose next statement does
not fail: `PublishProduct` succeeds and leaves every product of that identifier
and shop with `draft=false`, `published=true`; applying it a second time gives
the same products as applying it once, whether the second statement fails or
not; and when the product is already published, the products are the same
after as before. The same holds for `UnPublishProduct` with `draft=true`,
`published=false`. Neither operation changes another table, for any Store. -/
theorem publish_idempotent (productID shopID : String) (s : Store)
    (hf : s.fault s.log.length = none) :
    (PublishProduct productID shopID s).1 = none ∧
    (∀ r ∈ (PublishProduct productID shopID s).2.products,
      r.ID = productID → r.ProductShop = shopID → r.IsDraft = false ∧ r.IsPublished = true) ∧
    (PublishProduct productID shopID (PublishProduct productID shopID s).2).2.products =
      (PublishProduct productID shopID s).2.products ∧
    ((∀ r ∈ s.products, r.ID = productID → r.ProductShop = shopID →
        r.IsDraft = false ∧ r.IsPublished = true) →
      (PublishProduct productID shopID s).2.products = s.products) ∧
    (UnPublishProduct productID shopID s).1 = none ∧
    (∀ r ∈ (UnPublishProduct productID shopID s).2.products,
      r.ID = productID → r.ProductShop = shopID → r.IsDraft = true ∧ r.IsPublished = false) ∧
    (UnPublishProduct productID shopID (UnPublishProduct productID shopID s).2).2.products =
      (UnPublishProduct productID shopID s).2.products ∧
    ((∀ r ∈ s.products, r.ID = productID → r.ProductShop = shopID →
        r.IsDraft = true ∧ r.IsPublished = false) →
      (UnPublishProduct productID shopID s).2.products = s.products) ∧
    (∀ s₀ : Store,
      (PublishProduct productID shopID s₀).2.mushrooms = s₀.mushrooms ∧
      (PublishProduct productID shopID s₀).2.vegetables = s₀.vegetables ∧
      (PublishProduct productID shopID s₀).2.bonsais = s₀.bonsais ∧
      (PublishProduct productID shopID s₀).2.inventories = s₀.inventories ∧
      (UnPublishProduct productID shopID s₀).2.mushrooms = s₀.mushrooms ∧
      (UnPublishProduct productID shopID s₀).2.vegetables = s₀.vegetables ∧
      (UnPublishProduct productID shopID s₀).2.bonsais = s₀.bonsais ∧
      (UnPublishProduct productID shopID s₀).2.inventories = s₀.inventories) := by
  have hP := PublishProduct_run productID shopID s hf
  have hU := UnPublishProduct_run productID shopID s hf
  have hhit : ∀ (d p : Bool) (rows : List database.Product),
      ∀ r ∈ rows.map (fun r =>
        if (r.ID == productID && r.ProductShop == shopID) = true then
          { r with IsDraft := d, IsPublished := p }
        else r), r.ID = productID → r.ProductShop = shopID →
        r.IsDraft = d ∧ r.IsPublished = p := by
    intro d p rows r hr h₁ h₂
    obtain ⟨r₀, -, rfl⟩ := List.mem_map.mp hr
    by_cases hh : (r₀.ID == productID && r₀.ProductShop == shopID) = true
    · simp [hh]
    · rw [if_neg hh] at h₁ h₂
      exact absurd (by simp [h₁, h₂]) hh
  refine ⟨by rw [hP], ?_, ?_, ?_, by rw [hU], ?_, ?_, ?_, ?_⟩
  · rw [hP]
    exact hhit false true s.products
  · rcases PublishProduct_products productID shopID (PublishProduct productID shopID s).2 with
      h | h
    · exact h
    · rw [h, hP]
      exact map_flags_idem productID shopID false true s.products
  · intro hall
    rw [hP]
    exact map_flags_same productID shopID false true s.products hall
  · rw [hU]
    exact hhit true false s.products
  · rcases UnPublishProduct_products productID shopID (UnPublishProduct productID shopID s).2
      with h | h
    · exact h
    · rw [h, hU]
      exact map_flags_idem productID shopID true false s.products
  · intro hall
    rw [hU]
    exact map_flags_same productID shopID true false s.products hall
  · intro s₀
    obtain ⟨a₁, a₂, a₃, a₄⟩ := PublishProduct_frame productID shopID s₀
    obtain ⟨b₁, b₂, b₃, b₄⟩ := UnPublishProduct_frame productID shopID s₀
    exact ⟨a₁, a₂, a₃, a₄, b₁, b₂, b₃, b₄⟩

/-- Witness of C22: publishing the published product "id1" again changes no
product, and taking back the draft "id1" changes no product. -/
theorem publish_idempotent_witness :
    (PublishProduct "id1" "shopA" sample.published).2.products = sample.published.products ∧
    sample.published.products.map (fun r => (r.ID, r.IsDraft, r.IsPublished)) =
      [("id1", false, true)] ∧
    (UnPublishProduct "id1" "shopA" sample.listed).2.products = sample.listed.products :=
  ⟨(publish_idempotent "id1" "shopA" sample.listed rfl).2.2.1, by decide,
    (publish_idempotent "id1" "shopA" sample.listed rfl).2.2.2.2.2.2.2.1 (by decide)⟩

end productService

namespace productService

/-! ## The main update -/

/-- C27, the code at an input that the claim does not survive. Shop A, the
owner, updates its existing Mushroom product "id1" with an attribute bag that
carries a weight. The attribute map is written first; that write fails, and
`UpdateProduct` returns its error at once: the calls made are the read and the
attribute write, and the main update, whose map holds `updated_at`, is not
issued. -/
theorem UpdateProduct_attribute_failure :
    auth.ExtractUserID sample.ctxA = .ok "shopA" ∧
    sample.listed.products.map (fun r => (r.ID, r.ProductShop)) = [("id1", "shopA")] ∧
    (UpdateProduct sample.ctxA "id1" sample.reweigh 9 sample.listed).1 =
      some (.StoreError "cannot assign column weight") ∧
    (UpdateProduct sample.ctxA "id1" sample.reweigh 9 sample.listed).2.log.drop
        sample.listed.log.length =
      [.FindProduct "id1",
        .UpdateProductByID "id1" (mushroomAttrs sample.reweigh.ProductAttributes)] ∧
    (mushroomAttrs sample.reweigh.ProductAttributes).get "updated_at" = none ∧
    (updateData sample.reweigh 9).get "updated_at" = some (.time 9) := by
  refine ⟨rfl, rfl, rfl, rfl, rfl, rfl⟩

/-- C27, amended. For every `UpdateProduct` call by the owning shop on an
existing product, the main patch holds the key `updated_at`, so it is never
empty and the guard on its length never skips the main update: whenever the
variant step returns no error (no attribute of the stored type is supplied, or
the attribute write succeeds), the call ends with the main update, the last
call made on the Store, also for an input with every field empty or zero. When
the variant step returns an error, the call returns that error and the main
update is not issued. -/
theorem UpdateProduct_main_update (ctx : Context) (productID : String) (input : ProductInput)
    (now : Nat) (s : Store) (caller : String) (row : database.Product)
    (hcaller : auth.ExtractUserID ctx = .ok caller)
    (hread : s.fault s.log.length = none)
    (hrow : s.products.find? (fun r => r.ID == productID) = some row)
    (howner : row.ProductShop = caller) :
    (updateData input now).get "updated_at" = some (.time now) ∧
    0 < (updateData input now).len ∧
    ((updateAttributes row.ProductType productID input.ProductAttributes
        (s.record (.FindProduct productID))).1 = none →
      UpdateProduct ctx productID input now s =
        productRepository.UpdateProductByID productID (updateData input now)
          (updateAttributes row.ProductType productID input.ProductAttributes
            (s.record (.FindProduct productID))).2 ∧
      (UpdateProduct ctx productID input now s).2.log.getLast? =
        some (.UpdateProductByID productID (updateData input now))) ∧
    (∀ err, (updateAttributes row.ProductType productID input.ProductAttributes
        (s.record (.FindProduct productID))).1 = some err →
      UpdateProduct ctx productID input now s =
        (some err, (updateAttributes row.ProductType productID input.ProductAttributes
          (s.record (.FindProduct productID))).2)) := by
  obtain ⟨product, hshop, htype, hfind⟩ :=
    productRepository.FindProduct_found productID s row hread hrow
  have hrun : UpdateProduct ctx productID input now s =
      (match updateAttributes row.ProductType productID input.ProductAttributes
          (s.record (.FindProduct productID)) with
        | (some err, s₂) => (some err, s₂)
        | (none, s₂) => productRepository.UpdateProductByID productID (updateData input now) s₂) := by
    simp only [UpdateProduct, hcaller, hfind]
    rw [if_neg (by rw [hshop, howner]; simp), htype]
    cases hu : updateAttributes row.ProductType productID input.ProductAttributes
        (s.record (.FindProduct productID)) with
    | mk e s₂ =>
      cases e with
      | some err => rfl
      | none =>
        simp only
        rw [if_pos (updateData_len_pos input now)]
  refine ⟨?_, updateData_len_pos input now, ?_, ?_⟩
  · simp [updateData, GoMap.get_set]
  · intro hv
    cases hu : updateAttributes row.ProductType productID input.ProductAttributes
        (s.record (.FindProduct productID)) with
    | mk e s₂ =>
      rw [hu] at hv hrun
      simp only at hv
      subst hv
      simp only at hrun
      rw [hrun]
      refine ⟨rfl, ?_⟩
      rw [(productRepository.UpdateProductByID_frame _ _ _).2.2.2.2.1]
      simp
  · intro err hv
    cases hu : updateAttributes row.ProductType productID input.ProductAttributes
        (s.record (.FindProduct productID)) with
    | mk e s₂ =>
      rw [hu] at hv hrun
      simp only at hv
      subst hv
      exact hrun

/-- Witness of C27: the owner's update with every field empty or zero issues
the main update with the map that holds `updated_at` alone. -/
theorem UpdateProduct_main_update_witness :
    updateData sample.emptyUpdate 9 = [("updated_at", .time 9)] ∧
    (UpdateProduct sample.ctxA "id1" sample.emptyUpdate 9 sample.listed).2.log.getLast? =
      some (.UpdateProductByID "id1" (updateData sample.emptyUpdate 9)) := by
  have h := UpdateProduct_main_update sample.ctxA "id1" sample.emptyUpdate 9 sample.listed
    "shopA" sample.listedRow rfl rfl rfl rfl
  exact ⟨by decide, (h.2.2.1 rfl).2⟩

end productService

/-! ## Discount price and price -/

theorem Sprintf2f_natCast (n : ℕ) :
    Sprintf2f (.num (n : ℚ)) = toString n ++ "." ++ "00" := by
  have h₁ : |(n : ℚ)| * 100 = ((n * 100 : ℕ) : ℚ) := by
    rw [abs_of_nonneg (by positivity)]
    push_cast
    ring
  have h₂ : ¬ ((n : ℚ) < 0) := not_lt.mpr (by positivity)
  simp only [Sprintf2f, h₁, roundHalfEven_natCast, h₂, if_false]
  rw [Nat.mul_div_cancel _ (by norm_num), Nat.mul_mod_left]
  rfl

namespace productService

/-- C25, the code at an input that the claim does not survive. Shop A creates
a product with price 100 and discount price 200: `CreateProduct` succeeds,
returns the product with the two values, and the row written holds price
"100.00" and discount price "200.00". Shop A then updates its product "id1",
of price "50000.00", with an input that carries the discount price 80000:
`UpdateProduct` succeeds and the row holds the discount price "80000.00" next
to the price "50000.00". Neither operation compares the two prices. -/
theorem CreateProduct_discount_above_price :
    sample.overpriced.ProductPrice = .num 100 ∧
    sample.overpriced.ProductDiscountPrice = .num 200 ∧
    (CreateProduct sample.ctxA sample.overpriced "id1" 1 2 sample.store).1 =
      .ok (product sample.overpriced "id1" "shopA" 1 2) ∧
    (product sample.overpriced "id1" "shopA" 1 2).ProductPrice = .num 100 ∧
    (product sample.overpriced "id1" "shopA" 1 2).ProductDiscountPrice = .num 200 ∧
    (CreateProduct sample.ctxA sample.overpriced "id1" 1 2 sample.store).2.products.map
        (fun r => (r.ID, r.ProductPrice, r.ProductDiscountedPrice)) =
      [("id1", "100.00", { String := "200.00", Valid := true })] ∧
    sample.marked.ProductDiscountPrice = .num 80000 ∧
    sample.listed.products.map (fun r => (r.ID, r.ProductPrice, r.ProductDiscountedPrice)) =
      [("id1", "50000.00", { String := "", Valid := false })] ∧
    (UpdateProduct sample.ctxA "id1" sample.marked 9 sample.listed).1 = none ∧
    (UpdateProduct sample.ctxA "id1" sample.marked 9 sample.listed).2.products.map
        (fun r => (r.ID, r.ProductPrice, r.ProductDiscountedPrice)) =
      [("id1", "50000.00", { String := "80000.00", Valid := true })] := by
  have h100 : Sprintf2f (.num 100) = "100.00" := by
    have := Sprintf2f_natCast 100
    simpa using this
  have h200 : Sprintf2f (.num 200) = "200.00" := by
    have := Sprintf2f_natCast 200
    simpa using this
  have h50000 : Sprintf2f (.num 50000) = "50000.00" := by
    have := Sprintf2f_natCast 50000
    simpa using this
  have h80000 : Sprintf2f (.num 80000) = "80000.00" := by
    have := Sprintf2f_natCast 80000
    simpa using this
  have hc : (CreateProduct sample.ctxA sample.overpriced "id1" 1 2 sample.store).2.products.map
        (fun r => (r.ID, r.ProductPrice, r.ProductDiscountedPrice)) =
      [("id1", Sprintf2f (.num 100), { String := Sprintf2f (.num 200), Valid := true })] := rfl
  have hl : sample.listed.products.map
        (fun r => (r.ID, r.ProductPrice, r.ProductDiscountedPrice)) =
      [("id1", Sprintf2f (.num 50000), { String := "", Valid := false })] := rfl
  have hu : (UpdateProduct sample.ctxA "id1" sample.marked 9 sample.listed).2.products.map
        (fun r => (r.ID, r.ProductPrice, r.ProductDiscountedPrice)) =
      [("id1", Sprintf2f (.num 50000), { String := Sprintf2f (.num 80000), Valid := true })] :=
    rfl
  rw [h100, h200] at hc
  rw [h50000] at hl
  rw [h50000, h80000] at hu
  exact ⟨rfl, rfl, rfl, rfl, rfl, hc, rfl, hl, rfl, hu⟩

end productService

/-! ## Prices after a create and after an update -/

namespace GoMap

theorem set_entries (P : String × Value → Prop) (m : GoMap) (k : String) (v : Value)
    (hm : ∀ e ∈ m, P e) (hk : P (k, v)) : ∀ e ∈ m.set k v, P e := by
  induction m with
  | nil =>
    intro e he
    simp only [set, List.mem_singleton] at he
    rw [he]
    exact hk
  | cons a m ih =>
    intro e he
    obtain ⟨k', v'⟩ := a
    unfold set at he
    split_ifs at he with h
    · simp only [List.mem_cons] at he
      rcases he with rfl | he
      · exact hk
      · exact hm e (List.mem_cons_of_mem _ he)
    · simp only [List.mem_cons] at he
      rcases he with rfl | he
      · exact hm _ (List.mem_cons_self _ _)
      · exact ih (fun e he => hm e (List.mem_cons_of_mem _ he)) e he

end GoMap

namespace gorm

theorem productColumn_other (k : String) (v : Value) (f : database.Product → database.Product)
    (hk : k ∈ productService.mainKeys) (h : productColumn k v = some f) :
    (k ≠ "product_price" → ∀ r, (f r).ProductPrice = r.ProductPrice) ∧
    (k ≠ "product_discounted_price" →
      ∀ r, (f r).ProductDiscountedPrice = r.ProductDiscountedPrice) := by
  simp only [productService.mainKeys, List.mem_cons, List.mem_singleton, List.not_mem_nil,
    or_false] at hk
  rcases hk with rfl | rfl | rfl | rfl | rfl | rfl | rfl | rfl | rfl | rfl | rfl
  all_goals
    cases v
    all_goals first
      | (cases h; exact ⟨fun _ _ => rfl, fun _ _ => rfl⟩)
      | (cases h; exact ⟨fun hne => absurd rfl hne, fun _ _ => rfl⟩)
      | (cases h; exact ⟨fun _ _ => rfl, fun hne => absurd rfl hne⟩)
      | cases h
      | (rename_i n
         by_cases hn : int32 n = n
         · have h' : some (fun r : database.Product => { r with ProductQuantity := n }) =
               some f := by
             rw [← h]
             show _ = (if int32 n = n then _ else _)
             rw [if_pos hn]
           cases h'
           exact ⟨fun _ _ => rfl, fun _ _ => rfl⟩
         · have h' : (none : Option (database.Product → database.Product)) = some f := by
             rw [← h]
             show _ = (if int32 n = n then _ else _)
             rw [if_neg hn]
           cases h')

theorem productColumn_price (x : Float64) (f : database.Product → database.Product)
    (h : productColumn "product_price" (.float64 x) = some f) (r : database.Product) :
    (f r).ProductPrice = Sprintf2f x := by
  cases h
  rfl

theorem productColumn_discount (x : Float64) (f : database.Product → database.Product)
    (h : productColumn "product_discounted_price" (.float64 x) = some f)
    (r : database.Product) :
    (f r).ProductDiscountedPrice = { String := Sprintf2f x, Valid := true } := by
  cases h
  rfl

theorem foldl_column {γ : Type} (col : database.Product → γ) (K : String) (val : γ)
    (m : GoMap) (fs : List (database.Product → database.Product))
    (h : assignments productColumn m = .ok fs)
    (hother : ∀ e ∈ m, e.1 ≠ K → ∀ f, productColumn e.1 e.2 = some f → ∀ r, col (f r) = col r)
    (hsame : ∀ e ∈ m, e.1 = K → ∀ f, productColumn e.1 e.2 = some f → ∀ r, col (f r) = val)
    (r : database.Product) :
    col (fs.foldl (fun r f => f r) r) =
      if m.any (fun e => e.1 == K) = true then val else col r := by
  induction m generalizing fs r with
  | nil =>
    simp only [assignments, Except.ok.injEq] at h
    subst h
    simp
  | cons a m ih =>
    obtain ⟨k, v⟩ := a
    unfold assignments at h
    cases hc : productColumn k v with
    | none => simp [hc] at h
    | some f₀ =>
      cases ha : assignments productColumn m with
      | error e => simp [hc, ha] at h
      | ok fs₀ =>
        simp only [hc, ha, Except.ok.injEq] at h
        subst h
        simp only [List.foldl_cons, List.any_cons]
        rw [ih fs₀ ha (fun e he => hother e (List.mem_cons_of_mem _ he))
          (fun e he => hsame e (List.mem_cons_of_mem _ he)) (f₀ r)]
        by_cases hm : m.any (fun e => e.1 == K) = true
        · simp [hm]
        · by_cases hk : k = K
          · have := hsame (k, v) (List.mem_cons_self _ _) hk f₀ hc r
            simp [hm, hk, this]
          · have := hother (k, v) (List.mem_cons_self _ _) hk f₀ hc r
            simp [hm, hk, this]

theorem Updates_variant_products (id : String) (values : GoMap) (s : Store)
    (hm : ∀ e ∈ values, e.1 ∈ productService.variantKeys) :
    (Updates "products" id values s).2.products = s.products := by
  unfold Updates
  cases s.failure with
  | some e => rfl
  | none =>
    simp only [if_true]
    cases values with
    | nil =>
      simp only [assignments, patch, List.foldl_nil, ite_self, List.map_id']
    | cons a m =>
      obtain ⟨k, v⟩ := a
      have hk := hm (k, v) (List.mem_cons_self _ _)
      have hnone : productColumn k v = none := by
        simp only [productService.variantKeys, List.mem_cons, List.mem_singleton,
          List.not_mem_nil, or_false] at hk
        rcases hk with rfl | rfl | rfl | rfl | rfl | rfl | rfl | rfl | rfl
        all_goals cases v <;> rfl
      simp only [assignments, hnone]

end gorm

namespace productRepository

theorem CreateProduct_none (product : ProductModel) (s : Store)
    (h : (CreateProduct product s).1 = none) :
    (CreateProduct product s).2.products = s.products ++ [(productParams product).row] := by
  unfold CreateProduct database.CreateProduct at h ⊢
  cases hf : s.failure with
  | some e => simp [hf, errOf] at h
  | none =>
    simp only [hf] at h ⊢
    split_ifs at h ⊢ with hany
    · simp [errOf] at h
    · rfl

theorem UpdateProductByID_variant_products (productID : String) (values : GoMap) (s : Store)
    (hm : ∀ e ∈ values, e.1 ∈ productService.variantKeys) :
    (UpdateProductByID productID values s).2.products = s.products :=
  gorm.Updates_variant_products productID values s hm

end productRepository

namespace productService

theorem putIf_entries (P : String × Value → Prop) (c : Prop) [Decidable c] (m : GoMap)
    (k : String) (v : Value) (hm : ∀ e ∈ m, P e) (hk : c → P (k, v)) :
    ∀ e ∈ putIf c m k v, P e := by
  unfold putIf
  split_ifs with hc
  · exact GoMap.set_entries P m k v hm (hk hc)
  · exact hm

theorem updateData_price_entries (input : ProductInput) (now : Nat) :
    ∀ e ∈ updateData input now, e.1 = "product_price" →
      e.2 = .float64 input.ProductPrice ∧ Float64.lt Float64.zero input.ProductPrice = true := by
  unfold updateData
  refine GoMap.set_entries _ _ _ _ ?_ (by intro h; simp at h)
  iterate 10
    refine putIf_entries _ _ _ _ _ ?_ ?_
    swap
    · first
        | (intro c _; exact ⟨rfl, c⟩)
        | (intro _ h; simp at h)
  simp

theorem updateData_discount_entries (input : ProductInput) (now : Nat) :
    ∀ e ∈ updateData input now, e.1 = "product_discounted_price" →
      e.2 = .float64 input.ProductDiscountPrice ∧
      Float64.lt Float64.zero input.ProductDiscountPrice = true := by
  unfold updateData
  refine GoMap.set_entries _ _ _ _ ?_ (by intro h; simp at h)
  iterate 10
    refine putIf_entries _ _ _ _ _ ?_ ?_
    swap
    · first
        | (intro c _; exact ⟨rfl, c⟩)
        | (intro _ h; simp at h)
  simp

theorem updateData_any_price (input : ProductInput) (now : Nat) :
    (updateData input now).any (fun e => e.1 == "product_price") =
      Float64.lt Float64.zero input.ProductPrice := by
  cases hlt : Float64.lt Float64.zero input.ProductPrice with
  | true =>
    have hget : (updateData input now).get "product_price" =
        some (.float64 input.ProductPrice) := by
      simp [updateData, get_putIf, GoMap.get_set, GoMap.get_nil, hlt]
    rw [List.any_eq_true]
    exact ⟨_, GoMap.get_mem _ _ _ hget, by simp⟩
  | false =>
    rw [Bool.eq_false_iff]
    intro hany
    rw [List.any_eq_true] at hany
    obtain ⟨e, he, hk⟩ := hany
    have := (updateData_price_entries input now e he (by simpa using hk)).2
    rw [hlt] at this
    exact absurd this (by decide)

theorem updateData_any_discount (input : ProductInput) (now : Nat) :
    (updateData input now).any (fun e => e.1 == "product_discounted_price") =
      Float64.lt Float64.zero input.ProductDiscountPrice := by
  cases hlt : Float64.lt Float64.zero input.ProductDiscountPrice with
  | true =>
    have hget : (updateData input now).get "product_discounted_price" =
        some (.float64 input.ProductDiscountPrice) := by
      simp [updateData, get_putIf, GoMap.get_set, GoMap.get_nil, hlt]
    rw [List.any_eq_true]
    exact ⟨_, GoMap.get_mem _ _ _ hget, by simp⟩
  | false =>
    rw [Bool.eq_false_iff]
    intro hany
    rw [List.any_eq_true] at hany
    obtain ⟨e, he, hk⟩ := hany
    have := (updateData_discount_entries input now e he (by simpa using hk)).2
    rw [hlt] at this
    exact absurd this (by decide)

theorem updateAttributes_products (productType productID : String) (attributes : GoMap)
    (s : Store) :
    (updateAttributes productType productID attributes s).2.products = s.products := by
  simp only [updateAttributes]
  split_ifs
  all_goals first
    | rfl
    | exact productRepository.UpdateProductByID_variant_products _ _ _ (mushroomAttrs_keys _)
    | exact productRepository.UpdateProductByID_variant_products _ _ _ (vegetableAttrs_keys _)
    | exact productRepository.UpdateProductByID_variant_products _ _ _ (bonsaiAttrs_keys _)

theorem main_update_prices (productID : String) (input : ProductInput) (now : Nat) (s : Store)
    (h : (productRepository.UpdateProductByID productID (updateData input now) s).1 = none) :
    (productRepository.UpdateProductByID productID (updateData input now) s).2.products.map
        (fun r => (r.ID, r.ProductPrice, r.ProductDiscountedPrice)) =
      s.products.map (fun r =>
        (r.ID,
          if (r.ID == productID) = true ∧ Float64.lt Float64.zero input.ProductPrice = true then
            Sprintf2f input.ProductPrice
          else r.ProductPrice,
          if (r.ID == productID) = true ∧
              Float64.lt Float64.zero input.ProductDiscountPrice = true then
            { String := Sprintf2f input.ProductDiscountPrice, Valid := true }
          else r.ProductDiscountedPrice)) := by
  unfold productRepository.UpdateProductByID gorm.Updates at h ⊢
  simp only [ProductModel.TableName, if_true] at h ⊢
  cases hf : s.failure with
  | some e => simp [hf] at h
  | none =>
    simp only [hf] at h ⊢
    cases ha : gorm.assignments gorm.productColumn (updateData input now) with
    | error e => simp [ha] at h
    | ok fs =>
      simp only [Store.record, gorm.patch, List.map_map]
      apply List.map_congr_left
      intro r _
      simp only [Function.comp]
      have hkeys := updateData_keys input now
      by_cases hit : (r.ID == productID) = true
      · simp only [hit, if_true, true_and]
        have hid : (fs.foldl (fun r f => f r) r).ID = r.ID := by
          have := gorm.foldl_fixed fs
            (gorm.assignments_fixed _ fs ha (fun e he => Or.inl (hkeys e he))) r
          exact congrArg (fun c : String × String × String × Bool × Bool => c.1) this
        have hprice := gorm.foldl_column (fun r => r.ProductPrice) "product_price"
          (Sprintf2f input.ProductPrice) (updateData input now) fs ha
          (fun e he hne f hf => (gorm.productColumn_other e.1 e.2 f (hkeys e he) hf).1 hne)
          (fun e he heq f hf r => by
            obtain ⟨k, v⟩ := e
            simp only at heq
            subst heq
            have hv := (updateData_price_entries input now _ he rfl).1
            simp only at hv
            subst hv
            exact gorm.productColumn_price _ f hf r) r
        have hdisc := gorm.foldl_column (fun r => r.ProductDiscountedPrice)
          "product_discounted_price"
          ({ String := Sprintf2f input.ProductDiscountPrice, Valid := true } : NullString)
          (updateData input now) fs ha
          (fun e he hne f hf => (gorm.productColumn_other e.1 e.2 f (hkeys e he) hf).2 hne)
          (fun e he heq f hf r => by
            obtain ⟨k, v⟩ := e
            simp only at heq
            subst heq
            have hv := (updateData_discount_entries input now _ he rfl).1
            simp only at hv
            subst hv
            exact gorm.productColumn_discount _ f hf r) r
        rw [updateData_any_price] at hprice
        rw [updateData_any_discount] at hdisc
        rw [hid, hprice, hdisc]
      · simp [hit]

theorem CreateProduct_result (ctx : Context) (input : ProductInput) (productID : String)
    (now₁ now₂ : Nat) (s : Store) (p : ProductModel)
    (h : (CreateProduct ctx input productID now₁ now₂ s).1 = .ok p) :
    (∃ userId, p = product input productID userId now₁ now₂) ∧
    (CreateProduct ctx input productID now₁ now₂ s).2.products =
      s.products ++ [(productRepository.productParams p).row] := by
  unfold CreateProduct at h ⊢
  by_cases hv0 : (decide (input.ProductName = "") ||
      Float64.le input.ProductPrice Float64.zero) = true
  · rw [if_pos hv0] at h
    simp at h
  · rw [if_neg hv0] at h ⊢
    cases hc : auth.ExtractUserID ctx with
    | error err => simp [hc] at h
    | ok userId =>
      simp only [hc] at h ⊢
      cases hv : createVariant input.ProductType productID userId input.ProductAttributes s with
      | none => simp [hv] at h
      | some r =>
        have h₁ := createVariant_products _ _ _ _ _ r hv
        obtain ⟨e, s₁⟩ := r
        simp only at h₁
        cases e with
        | some err => simp [hv] at h
        | none =>
          simp only [hv] at h ⊢
          have h₂ := productRepository.CreateProduct_none
            (product input productID userId now₁ now₂) s₁
          cases hp : productRepository.CreateProduct
              (product input productID userId now₁ now₂) s₁ with
          | mk e₂ s₂ =>
            rw [hp] at h₂
            simp only at h₂
            cases e₂ with
            | some err => simp [hp] at h
            | none =>
              simp only [hp] at h ⊢
              have h₂' := h₂ rfl
              have h₃ := productRepository.InsertInventory_products
                (inventory input productID userId) s₂
              cases hi : productRepository.InsertInventory
                  (inventory input productID userId) s₂ with
              | mk e₃ s₃ =>
                rw [hi] at h₃
                simp only at h₃
                cases e₃ with
                | some err => simp [hi] at h
                | none =>
                  simp only [hi, Except.ok.injEq] at h ⊢
                  subst h
                  exact ⟨⟨userId, rfl⟩, by rw [h₃, h₂', h₁]⟩

theorem UpdateProduct_result (ctx : Context) (productID : String) (input : ProductInput)
    (now : Nat) (s : Store) (h : (UpdateProduct ctx productID input now s).1 = none) :
    ∃ s₂ : Store, s₂.products = s.products ∧
      (productRepository.UpdateProductByID productID (updateData input now) s₂).1 = none ∧
      UpdateProduct ctx productID input now s =
        productRepository.UpdateProductByID productID (updateData input now) s₂ := by
  unfold UpdateProduct at h ⊢
  cases hc : auth.ExtractUserID ctx with
  | error err => simp [hc] at h
  | ok userId =>
    simp only [hc] at h ⊢
    have hstore := productRepository.FindProduct_store productID s
    cases hf : productRepository.FindProduct productID s with
    | mk r s₁ =>
      rw [hf] at hstore
      simp only at hstore
      have hs₁ : s₁.products = s.products := by rw [hstore]; rfl
      cases r with
      | error err => simp [hf] at h
      | ok product =>
        simp only [hf] at h ⊢
        by_cases hown : product.ProductShop ≠ userId
        · rw [if_pos hown] at h
          simp at h
        · rw [if_neg hown] at h ⊢
          have h₁ := updateAttributes_products product.ProductType productID
            input.ProductAttributes s₁
          cases hu : updateAttributes product.ProductType productID input.ProductAttributes s₁ with
          | mk e s₂ =>
            rw [hu] at h₁
            simp only at h₁
            cases e with
            | some err => simp [hu] at h
            | none =>
              simp only [hu] at h ⊢
              rw [if_pos (updateData_len_pos input now)] at h ⊢
              exact ⟨s₂, h₁.trans hs₁, h, rfl⟩

/-- C25, amended. Neither operation compares the discount price with the price.
A successful `CreateProduct` returns a product whose price and discount price
are the ones of the input, and appends one row to the products, which holds
the price of the input and, as discount price, the one of the input when that
is above 0 and NULL otherwise. After a successful `UpdateProduct` the products
are the same rows in the same order, and of each row: the price is the one of
the input when the row is the updated product and the price of the input is
above 0, and the stored price otherwise; the discount price is the one of the
input when the row is the updated product and the discount price of the input
is above 0, and the stored discount price otherwise. -/
theorem prices_persisted (ctx : Context) (input : ProductInput) (productID : String)
    (now₁ now₂ now : Nat) (s : Store) :
    (∀ p, (CreateProduct ctx input productID now₁ now₂ s).1 = .ok p →
      p.ProductPrice = input.ProductPrice ∧
      p.ProductDiscountPrice = input.ProductDiscountPrice ∧
      (CreateProduct ctx input productID now₁ now₂ s).2.products =
        s.products ++ [(productRepository.productParams p).row] ∧
      (productRepository.productParams p).row.ProductPrice = Sprintf2f input.ProductPrice ∧
      (productRepository.productParams p).row.ProductDiscountedPrice =
        (if Float64.lt Float64.zero input.ProductDiscountPrice = true then
          { String := Sprintf2f input.ProductDiscountPrice, Valid := true }
        else { String := "", Valid := false })) ∧
    ((UpdateProduct ctx productID input now s).1 = none →
      (UpdateProduct ctx productID input now s).2.products.map
          (fun r => (r.ID, r.ProductPrice, r.ProductDiscountedPrice)) =
        s.products.map (fun r =>
          (r.ID,
            if (r.ID == productID) = true ∧
                Float64.lt Float64.zero input.ProductPrice = true then
              Sprintf2f input.ProductPrice
            else r.ProductPrice,
            if (r.ID == productID) = true ∧
                Float64.lt Float64.zero input.ProductDiscountPrice = true then
              { String := Sprintf2f input.ProductDiscountPrice, Valid := true }
            else r.ProductDiscountedPrice))) := by
  constructor
  · intro p h
    obtain ⟨⟨userId, hp⟩, hrows⟩ := CreateProduct_result ctx input productID now₁ now₂ s p h
    refine ⟨by rw [hp]; rfl, by rw [hp]; rfl, hrows, by rw [hp]; rfl, ?_⟩
    rw [hp]
    by_cases hlt : Float64.lt Float64.zero input.ProductDiscountPrice = true
    · simp [productRepository.productParams, database.CreateProductParams.row, product,
        NullString.column, hlt]
    · simp [productRepository.productParams, database.CreateProductParams.row, product,
        NullString.column, hlt]
  · intro h
    obtain ⟨s₂, hs₂, hmain, hrun⟩ := UpdateProduct_result ctx productID input now s h
    rw [hrun, main_update_prices productID input now s₂ hmain, hs₂]

/-- Witness of C25: shop A creates a product with price 100 and discount price
200, and the product returned and the row written hold both values, the
discount price above the price included; shop A then updates its product
"id1" with an input of price 65000 and discount price 0, and the row holds the
price "65000.00" and keeps its discount price, which is NULL. -/
theorem prices_persisted_witness :
    (∃ p, (CreateProduct sample.ctxA sample.overpriced "id1" 1 2 sample.store).1 = .ok p ∧
      p.ProductPrice = .num 100 ∧ p.ProductDiscountPrice = .num 200 ∧
      (CreateProduct sample.ctxA sample.overpriced "id1" 1 2 sample.store).2.products =
        sample.store.products ++ [(productRepository.productParams p).row] ∧
      (productRepository.productParams p).row.ProductPrice = "100.00" ∧
      (productRepository.productParams p).row.ProductDiscountedPrice =
        { String := "200.00", Valid := true }) ∧
    (UpdateProduct sample.ctxA "id1" sample.rename 9 sample.listed).1 = none ∧
    (UpdateProduct sample.ctxA "id1" sample.rename 9 sample.listed).2.products.map
        (fun r => (r.ID, r.ProductPrice, r.ProductDiscountedPrice)) =
      [("id1", "65000.00", { String := "", Valid := false })] := by
  have h100 : Sprintf2f (.num 100) = "100.00" := by
    have := Sprintf2f_natCast 100
    simpa using this
  have h200 : Sprintf2f (.num 200) = "200.00" := by
    have := Sprintf2f_natCast 200
    simpa using this
  have h65000 : Sprintf2f (.num 65000) = "65000.00" := by
    have := Sprintf2f_natCast 65000
    simpa using this
  have h := prices_persisted sample.ctxA sample.overpriced "id1" 1 2 9 sample.store
  have g := prices_persisted sample.ctxA sample.rename "id1" 1 2 9 sample.listed
  have h₁ := h.1 (product sample.overpriced "id1" "shopA" 1 2) rfl
  have hprice : sample.overpriced.ProductPrice = .num 100 := rfl
  have hdisc : sample.overpriced.ProductDiscountPrice = .num 200 := rfl
  have hlt : Float64.lt Float64.zero (.num 200) = true := rfl
  refine ⟨⟨_, rfl, h₁.1, h₁.2.1, h₁.2.2.1, ?_, ?_⟩, rfl, ?_⟩
  · rw [h₁.2.2.2.1, hprice, h100]
  · rw [h₁.2.2.2.2, hdisc, if_pos hlt, h200]
  · have hp : sample.listed.products = [sample.listedRow] := rfl
    have hid : (sample.listedRow.ID == "id1") = true := rfl
    have hd : sample.listedRow.ProductDiscountedPrice = { String := "", Valid := false } := rfl
    have h1 : Float64.lt Float64.zero sample.rename.ProductPrice = true := rfl
    have h2 : ¬ (Float64.lt Float64.zero sample.rename.ProductDiscountPrice = true) := by
      intro h0
      exact absurd h0 (by decide)
    have hi : sample.listedRow.ID = "id1" := rfl
    have hr : sample.rename.ProductPrice = .num 65000 := rfl
    rw [g.2 rfl, hp]
    simp only [List.map]
    rw [if_pos ⟨hid, h1⟩, if_neg (fun h0 => h2 h0.2), hd, hi, hr, h65000]

end productService

/-! ## Ranked listings, the order -/

theorem ParseFloat_num (s : String) (x : Float64) (h : ParseFloat s = some x) :
    ∃ q : ℚ, x = .num q := by
  unfold ParseFloat at h
  simp only at h
  split at h
  · exact absurd h (by simp)
  · split_ifs at h
    all_goals
      simp only [Option.some.injEq] at h
      exact ⟨_, h.symm⟩

namespace productRepository

theorem convert_discount (r : database.Product) :
    (convertDbProductToModel r).ProductDiscountPrice =
      .num (if r.ProductDiscountedPrice.Valid = true then
        database.decimalValue r.ProductDiscountedPrice.String else 0) := by
  simp only [convertDbProductToModel]
  split_ifs
  · unfold database.decimalValue
    cases hp : ParseFloat r.ProductDiscountedPrice.String with
    | none => rfl
    | some x =>
      obtain ⟨q, rfl⟩ := ParseFloat_num _ x hp
      rfl
  · rfl

end productRepository

namespace database

theorem page_sublist (limit offset : Int) (rows out : List Product)
    (h : page limit offset rows = .ok out) : out.Sublist rows := by
  unfold page at h
  split_ifs at h
  simp only [Except.ok.injEq] at h
  rw [← h]
  exact (List.take_sublist _ _).trans (List.drop_sublist _ _)

theorem sorted_discount (rows : List Product) :
    (rows.insertionSort (fun a b => discountKey b ≤ discountKey a)).Pairwise
      (fun a b => discountKey b ≤ discountKey a) := by
  haveI : IsTotal Product (fun a b => discountKey b ≤ discountKey a) :=
    ⟨fun a b => le_total _ _⟩
  haveI : IsTrans Product (fun a b => discountKey b ≤ discountKey a) :=
    ⟨fun a b c h₁ h₂ => le_trans h₂ h₁⟩
  exact List.sorted_insertionSort _ rows

theorem sorted_selled (rows : List Product) :
    (rows.insertionSort (fun a b => b.ProductSelled ≤ a.ProductSelled)).Pairwise
      (fun a b => b.ProductSelled ≤ a.ProductSelled) := by
  haveI : IsTotal Product (fun a b => b.ProductSelled ≤ a.ProductSelled) :=
    ⟨fun a b => le_total _ _⟩
  haveI : IsTrans Product (fun a b => b.ProductSelled ≤ a.ProductSelled) :=
    ⟨fun a b c h₁ h₂ => le_trans h₂ h₁⟩
  exact List.sorted_insertionSort _ rows

theorem discount_le_of_key (a b : Product)
    (ha : a.ProductDiscountedPrice.Valid = true → 0 ≤ decimalValue a.ProductDiscountedPrice.String)
    (h : discountKey b ≤ discountKey a) :
    Float64.le (productRepository.convertDbProductToModel b).ProductDiscountPrice
      (productRepository.convertDbProductToModel a).ProductDiscountPrice = true := by
  rw [productRepository.convert_discount, productRepository.convert_discount]
  simp only [Float64.le, decide_eq_true_eq]
  unfold discountKey at h
  by_cases hva : a.ProductDiscountedPrice.Valid = true
  · by_cases hvb : b.ProductDiscountedPrice.Valid = true
    · simp only [hva, hvb, if_true] at h ⊢
      exact WithBot.coe_le_coe.mp h
    · simp only [hva, hvb, if_true, if_false] at h ⊢
      exact ha hva
  · by_cases hvb : b.ProductDiscountedPrice.Valid = true
    · simp only [hva, hvb, if_true, if_false] at h ⊢
      simp at h
    · simp only [hva, hvb, if_false]
      exact le_refl _

end database

namespace productService

/-- C21. For every query parameters and Store, the `Data` of a response of
`GetProductsByDiscount` is the conversion, one for one and in order, of rows of
the Store that are all published and that stand in non-increasing order of the
discount price column (a row without discount price below every row with one);
when no stored discount price is negative, the discount prices of the products
in `Data` are non-increasing, for any two products and so for any two adjacent
ones. The `Data` of a response of `GetProductsBySelled` holds published
products only, in non-increasing order of units sold. -/
theorem ranked_listing_order (params : ProductQueryParams) (s : Store) :
    (∀ resp, (GetProductsByDiscount params s).1 = .ok resp →
      ∃ rows : List database.Product,
        resp.Data = rows.map productRepository.convertDbProductToModel ∧
        (∀ r ∈ rows, r ∈ s.products ∧ r.IsPublished = true) ∧
        rows.Pairwise (fun a b => database.discountKey b ≤ database.discountKey a) ∧
        (∀ p ∈ resp.Data, p.IsPublished = true) ∧
        ((∀ r ∈ s.products, r.ProductDiscountedPrice.Valid = true →
            0 ≤ database.decimalValue r.ProductDiscountedPrice.String) →
          resp.Data.Pairwise
            (fun a b => Float64.le b.ProductDiscountPrice a.ProductDiscountPrice = true) ∧
          resp.Data.Chain'
            (fun a b => Float64.le b.ProductDiscountPrice a.ProductDiscountPrice = true))) ∧
    (∀ resp, (GetProductsBySelled params s).1 = .ok resp →
      (∀ p ∈ resp.Data, p.IsPublished = true) ∧
      resp.Data.Pairwise (fun a b => b.ProductSelled ≤ a.ProductSelled) ∧
      resp.Data.Chain' (fun a b => b.ProductSelled ≤ a.ProductSelled)) := by
  have hD : GetProductsByDiscount params s = _ :=
    productRepository.FindProductsByDiscount_run params s
  have hS : GetProductsBySelled params s = _ :=
    productRepository.FindProductsBySelled_run params s
  constructor
  · intro resp h
    rw [hD] at h
    obtain ⟨rows, hrows, hresp, -⟩ := pagedListing_ok _ _ _ _ _ _ _ h
    have hsub := database.page_sublist _ _ _ _ hrows
    have hmem : ∀ r ∈ rows, r ∈ s.products ∧ r.IsPublished = true := by
      intro r hr
      have h₁ := (List.perm_insertionSort _ _).subset (hsub.subset hr)
      rw [List.mem_filter] at h₁
      exact h₁
    have hsorted := (database.sorted_discount _).sublist hsub
    have hdata : resp.Data = rows.map productRepository.convertDbProductToModel := by
      rw [hresp]; rfl
    refine ⟨rows, hdata, hmem, hsorted, ?_, ?_⟩
    · intro p hp
      rw [hdata] at hp
      obtain ⟨r, hr, rfl⟩ := List.mem_map.mp hp
      exact (hmem r hr).2
    · intro hpos
      have hpw : resp.Data.Pairwise
          (fun a b => Float64.le b.ProductDiscountPrice a.ProductDiscountPrice = true) := by
        rw [hdata, List.pairwise_map]
        refine List.Pairwise.imp_of_mem ?_ hsorted
        intro a b ha _ hab
        exact database.discount_le_of_key a b (hpos a (hmem a ha).1) hab
      exact ⟨hpw, hpw.chain'⟩
  · intro resp h
    rw [hS] at h
    obtain ⟨rows, hrows, hresp, -⟩ := pagedListing_ok _ _ _ _ _ _ _ h
    have hsub := database.page_sublist _ _ _ _ hrows
    have hmem : ∀ r ∈ rows, r ∈ s.products ∧ r.IsPublished = true := by
      intro r hr
      have h₁ := (List.perm_insertionSort _ _).subset (hsub.subset hr)
      rw [List.mem_filter] at h₁
      exact h₁
    have hsorted := (database.sorted_selled _).sublist hsub
    have hdata : resp.Data = rows.map productRepository.convertDbProductToModel := by
      rw [hresp]; rfl
    have hpw : resp.Data.Pairwise (fun a b => b.ProductSelled ≤ a.ProductSelled) := by
      rw [hdata, List.pairwise_map]
      exact hsorted
    refine ⟨?_, hpw, hpw.chain'⟩
    intro p hp
    rw [hdata] at hp
    obtain ⟨r, hr, rfl⟩ := List.mem_map.mp hp
    exact (hmem r hr).2


/-- Witness of C21, the example of spec §8: of two published products with the
discount prices 5000 and 10000, stored in that order, `GetProductsByDiscount`
returns the one with discount 10000 first. -/
theorem ranked_listing_order_witness :
    ∃ resp, (GetProductsByDiscount sample.blankQuery sample.shelf).1 = .ok resp ∧
      sample.shelf.products.map (fun r => r.ID) = ["id2", "id3"] ∧
      resp.Data.map (fun p => p.ID) = ["id3", "id2"] ∧
      resp.Data.map (fun p => p.ProductDiscountPrice) = [.num 10000, .num 5000] ∧
      resp.Data.Chain'
        (fun a b => Float64.le b.ProductDiscountPrice a.ProductDiscountPrice = true) := by
  have hcheap : database.decimalValue "5000.00" = 5000 := by
    have h : ParseFloat "5000.00" =
        some (.num (((digitsValue "5000".data : ℕ) : ℚ) +
          ((digitsValue "00".data : ℕ) : ℚ) / (10 : ℚ) ^ 2)) := rfl
    have h₁ : digitsValue "5000".data = 5000 := by decide
    have h₂ : digitsValue "00".data = 0 := by decide
    rw [h₁, h₂] at h
    simp only [database.decimalValue, h]
    norm_num
  have hdear : database.decimalValue "10000.00" = 10000 := by
    have h : ParseFloat "10000.00" =
        some (.num (((digitsValue "10000".data : ℕ) : ℚ) +
          ((digitsValue "00".data : ℕ) : ℚ) / (10 : ℚ) ^ 2)) := rfl
    have h₁ : digitsValue "10000".data = 10000 := by decide
    have h₂ : digitsValue "00".data = 0 := by decide
    rw [h₁, h₂] at h
    simp only [database.decimalValue, h]
    norm_num
  have hkc : database.discountKey sample.cheap = ((5000 : ℚ) : WithBot ℚ) := by
    have : database.discountKey sample.cheap =
        ((database.decimalValue "5000.00" : ℚ) : WithBot ℚ) := rfl
    rw [this, hcheap]
  have hkd : database.discountKey sample.dear = ((10000 : ℚ) : WithBot ℚ) := by
    have : database.discountKey sample.dear =
        ((database.decimalValue "10000.00" : ℚ) : WithBot ℚ) := rfl
    rw [this, hdear]
  have hsort : ([sample.cheap, sample.dear].insertionSort
      (fun a b => database.discountKey b ≤ database.discountKey a)) =
      [sample.dear, sample.cheap] := by
    simp only [List.insertionSort, List.orderedInsert, hkc, hkd]
    rw [if_neg]
    rw [WithBot.coe_le_coe]
    norm_num
  have hrun : (GetProductsByDiscount sample.blankQuery sample.shelf).1 =
      .ok (productRepository.response
        (productRepository.setDefaultPagination sample.blankQuery) 2
        ((([sample.cheap, sample.dear].insertionSort
          (fun a b => database.discountKey b ≤ database.discountKey a)).take 10).map
            productRepository.convertDbProductToModel)) := rfl
  rw [hsort] at hrun
  have hpos : ∀ r ∈ sample.shelf.products, r.ProductDiscountedPrice.Valid = true →
      0 ≤ database.decimalValue r.ProductDiscountedPrice.String := by
    intro r hr _
    have hr' : r = sample.cheap ∨ r = sample.dear := by
      simpa [sample.shelf] using hr
    rcases hr' with rfl | rfl
    · have : database.decimalValue sample.cheap.ProductDiscountedPrice.String =
          database.decimalValue "5000.00" := rfl
      rw [this, hcheap]
      norm_num
    · have : database.decimalValue sample.dear.ProductDiscountedPrice.String =
          database.decimalValue "10000.00" := rfl
      rw [this, hdear]
      norm_num
  obtain ⟨rows, -, -, -, -, hchain⟩ :=
    (ranked_listing_order sample.blankQuery sample.shelf).1 _ hrun
  refine ⟨_, hrun, rfl, rfl, ?_, (hchain hpos).2⟩
  simp only [productRepository.response, List.take, List.map_cons, List.map_nil,
    productRepository.convert_discount]
  have hv₁ : sample.dear.ProductDiscountedPrice.Valid = true := rfl
  have hv₂ : sample.cheap.ProductDiscountedPrice.Valid = true := rfl
  have hs₁ : sample.dear.ProductDiscountedPrice.String = "10000.00" := rfl
  have hs₂ : sample.cheap.ProductDiscountedPrice.String = "5000.00" := rfl
  rw [hv₁, hv₂, hs₁, hs₂, hdear, hcheap]
  rfl

end productService

end GnFarm
